import Mathlib

/-! # Natron roto overlay interaction (Gui/RotoGui.cpp)

A shallow embedding of the pointer / keyboard state machine of `RotoGui`.

* Coordinates are `double` in the source; they are embedded as exact rationals. The
  rounding of the floating-point operations is not modelled: a statement about coordinates
  is a statement in exact arithmetic.
* `boost::shared_ptr` objects live in two heaps owned by the context: a pointer is an
  index into the heap, the null pointer is `none`, and an object is never freed (a
  `shared_ptr` keeps its target alive as long as somebody holds it).
* Every point query of the controller is made at `context->getTimelineCurrentTime()`;
  a point carries its sample at that time and whether the sample is an explicit keyframe.
* A failed `assert` and a violated precondition of a curve operation are a `Fault`.
-/

namespace Natron

/-! ## Enumerations -/

/-- Modelled from the spec: the `Roto_Tool` enumeration of Gui/RotoGui.h (not under src/),
with the names used by RotoGui.cpp. -/
inductive Roto_Tool where
  | SELECT_ALL
  | SELECT_POINTS
  | SELECT_CURVES
  | SELECT_FEATHER_POINTS
  | ADD_POINTS
  | REMOVE_POINTS
  | REMOVE_FEATHER_POINTS
  | OPEN_CLOSE_CURVE
  | SMOOTH_POINTS
  | CUSP_POINTS
  | DRAW_BEZIER
  | DRAW_B_SPLINE
  | DRAW_ELLIPSE
  | DRAW_RECTANGLE
deriving DecidableEq, Repr

/-- Modelled from the spec: the `Roto_Role` enumeration of Gui/RotoGui.h (not under src/):
the three mutually exclusive tool groups. -/
inductive Roto_Role where
  | SELECTION_ROLE
  | POINTS_EDITION_ROLE
  | BEZIER_EDITION_ROLE
deriving DecidableEq, Repr

/-- The `EventState` enumeration of RotoGui.cpp (lines 56-68). -/
inductive EventState where
  | NONE
  | DRAGGING_CPS
  | SELECTING
  | BUILDING_BEZIER_CP_TANGENT
  | BUILDING_ELLIPSE
  | BULDING_ELLIPSE_CENTER
  | BUILDING_RECTANGLE
  | DRAGGING_LEFT_TANGENT
  | DRAGGING_RIGHT_TANGENT
  | DRAGGING_FEATHER_BAR
deriving DecidableEq, Repr

/-- What stops a handler: a failed `assert`, or a curve operation called with an index
that does not exist (spec section 7: a precondition violation is fatal), or a loop that
is still running after the number of passes the model allots to it. -/
inductive Fault where
  | assertFailed
  | indexOutOfRange
  | loopBoundExceeded
deriving DecidableEq, Repr

/-! ## Geometry values -/

/-- A 2D point (`QPointF`, `Natron::Point`). -/
structure Point where
  x : ℚ
  y : ℚ
deriving DecidableEq, Repr

/-- Qt's `QRectF`: top-left corner, width and height. -/
structure QRectF where
  xp : ℚ
  yp : ℚ
  w : ℚ
  h : ℚ
deriving DecidableEq, Repr

/-- The null rectangle `QRectF()`. -/
def QRectF.null : QRectF := { xp := 0, yp := 0, w := 0, h := 0 }

/-- `QRectF::setLeft`: moves the left edge, the right edge stays. -/
def QRectF.setLeft (r : QRectF) (pos : ℚ) : QRectF :=
  { r with xp := pos, w := r.w - (pos - r.xp) }

/-- `QRectF::setTop`: moves the top edge, the bottom edge stays. -/
def QRectF.setTop (r : QRectF) (pos : ℚ) : QRectF :=
  { r with yp := pos, h := r.h - (pos - r.yp) }

/-- `QRectF::setRight`. -/
def QRectF.setRight (r : QRectF) (pos : ℚ) : QRectF :=
  { r with w := pos - r.xp }

/-- `QRectF::setBottom`. -/
def QRectF.setBottom (r : QRectF) (pos : ℚ) : QRectF :=
  { r with h := pos - r.yp }

/-- `QRectF::setTopLeft`. -/
def QRectF.setTopLeft (r : QRectF) (p : Point) : QRectF :=
  (r.setLeft p.x).setTop p.y

/-- `QRectF::setTopRight`. -/
def QRectF.setTopRight (r : QRectF) (p : Point) : QRectF :=
  (r.setRight p.x).setTop p.y

/-- `QRectF::setBottomRight`. -/
def QRectF.setBottomRight (r : QRectF) (p : Point) : QRectF :=
  (r.setRight p.x).setBottom p.y

/-- `QRectF::setCoords(x1, y1, x2, y2)`. -/
def QRectF.setCoords (_r : QRectF) (x1 y1 x2 y2 : ℚ) : QRectF :=
  { xp := x1, yp := y1, w := x2 - x1, h := y2 - y1 }

/-- `QRectF::topLeft`. -/
def QRectF.topLeft (r : QRectF) : Point := { x := r.xp, y := r.yp }

/-- `QRectF::bottomRight`. -/
def QRectF.bottomRight (r : QRectF) : Point := { x := r.xp + r.w, y := r.yp + r.h }

/-! ## Curves and the collection (Engine/RotoContext, not under src/) -/

/-- Modelled from the spec: `BezierCP` / `FeatherPoint` of Engine/RotoContext (not under
src/), spec sections 3 and 4.1: an animatable point with two tangent handles. The record is
the point seen at the current timeline time: position, left and right handle (absolute
coordinates, as RotoGui.cpp reads and writes them), and, for each of its three curves, which
are keyframed independently, whether the curve has an explicit sample at that time:
`onKeyframe` for the position curve (the spec's "on a keyframe", the result of
`getPositionAtTime`), `leftOnKeyframe` and `rightOnKeyframe` for the two tangent curves (the
results of `getLeftBezierPointAtTime` and `getRightBezierPointAtTime`). `curve` is
`getCurve()`, `feather` is `isFeatherPoint()`. -/
structure BezierCP where
  curve : Nat
  feather : Bool
  pos : Point
  left : Point
  right : Point
  onKeyframe : Bool
  leftOnKeyframe : Bool
  rightOnKeyframe : Bool
deriving DecidableEq, Repr

/-- Modelled from the spec: `Bezier` of Engine/RotoContext (not under src/), spec section 3:
an ordered sequence of (control point, feather point) pairs held as two lists of pointers of
equal length, the finished / open flag, and the lock flag (`isLockedRecursive()`: the curve
or one of its ancestor groups is locked). -/
structure Bezier where
  points : List Nat
  featherPoints : List Nat
  finished : Bool
  locked : Bool
deriving DecidableEq, Repr

/-- Modelled from the spec: `RotoContext` of Engine/RotoContext (not under src/), spec
sections 3 and 4.3. `cps` and `beziers` are the object heaps; `curves` is
`getCurvesByRenderOrder()`, `selection` is `getSelectedCurves()`; `keyOnCreate` tells whether
a point created by `makeBezier` / `addControlPoint` starts with an explicit sample at the
current time (the spec leaves it open); `evaluateCount` counts `evaluateChange()` calls. -/
structure RotoContext where
  cps : List BezierCP
  beziers : List Bezier
  curves : List Nat
  selection : List Nat
  autoKeying : Bool
  featherLink : Bool
  rippleEdit : Bool
  keyOnCreate : Bool
  evaluateCount : Nat
deriving DecidableEq, Repr

/-- Replaces element `i` of a list by its image under `f` (nothing when `i` is out of
range). -/
def updateNth {α : Type} (l : List α) (i : Nat) (f : α → α) : List α :=
  match l[i]? with
  | some a => l.set i (f a)
  | none => l

/-- An open, unlocked curve without points. -/
def Bezier.empty : Bezier :=
  { points := [], featherPoints := [], finished := false, locked := false }

/-- A control point at the origin. -/
def BezierCP.origin : BezierCP :=
  { curve := 0, feather := false, pos := ⟨0, 0⟩, left := ⟨0, 0⟩, right := ⟨0, 0⟩,
    onKeyframe := false, leftOnKeyframe := false, rightOnKeyframe := false }

/-- The curve object behind pointer `b`; an empty open curve when `b` is not allocated. -/
def RotoContext.bezier (ctx : RotoContext) (b : Nat) : Bezier :=
  (ctx.beziers[b]?).getD Bezier.empty

/-- The point object behind pointer `p`; a point at the origin when `p` is not allocated. -/
def RotoContext.cp (ctx : RotoContext) (p : Nat) : BezierCP :=
  (ctx.cps[p]?).getD BezierCP.origin

/-- Modelled from the spec: `Bezier::setCurveFinished` (Engine/RotoContext, not under src/),
spec section 4.2. It writes the flag; finishing a curve of fewer than 2 pairs is forbidden
and, by spec section 7, the caller has to check that: no error is reported. -/
def RotoContext.setCurveFinished (ctx : RotoContext) (b : Nat) (finished : Bool) : RotoContext :=
  { ctx with beziers := updateNth ctx.beziers b (fun z => { z with finished := finished }) }

/-- Modelled from the spec: `Bezier::isCurveFinished` (Engine/RotoContext, not under src/),
the finished / open flag of spec section 3. -/
def RotoContext.isCurveFinished (ctx : RotoContext) (b : Nat) : Bool :=
  (ctx.bezier b).finished

/-- Modelled from the spec: `Bezier::getControlPointsCount` (Engine/RotoContext, not under
src/), the number of pairs of the curve. -/
def RotoContext.getControlPointsCount (ctx : RotoContext) (b : Nat) : Nat :=
  (ctx.bezier b).points.length

/-- Modelled from the spec: `RotoContext::clearSelection(reason)` (not under src/), spec
section 4.3; the collection's selection becomes empty. -/
def RotoContext.clearSelection (ctx : RotoContext) : RotoContext :=
  { ctx with selection := [] }

/-- Modelled from the spec: `RotoContext::select(curve, reason)` (not under src/), spec
section 4.3; the selection is a set. -/
def RotoContext.select (ctx : RotoContext) (b : Nat) : RotoContext :=
  if b ∈ ctx.selection then ctx else { ctx with selection := ctx.selection ++ [b] }

/-- Modelled from the spec: `RotoContext::deselect(curve, reason)` (not under src/). -/
def RotoContext.deselect (ctx : RotoContext) (b : Nat) : RotoContext :=
  { ctx with selection := ctx.selection.filter (fun c => c != b) }

/-- Modelled from the spec: `RotoContext::evaluateChange()` (not under src/): the
re-evaluation request to the host, counted. -/
def RotoContext.evaluateChange (ctx : RotoContext) : RotoContext :=
  { ctx with evaluateCount := ctx.evaluateCount + 1 }

/-! ## The controller state (RotoGui::RotoGuiPrivate) -/

/-- A tool action: the `QPoint` data set by `createToolAction` (x = tool, y = role). -/
structure QAction where
  tool : Roto_Tool
  role : Roto_Role
deriving DecidableEq, Repr

/-- The part of a `RotoToolButton` the controller reads: `isDown()` and
`defaultAction()`. -/
structure RotoToolButton where
  down : Bool
  defaultAction : QAction
deriving DecidableEq, Repr

/-- Modelled from the spec: `Natron::KeyboardModifiers` (Global/Enums.h, not under src/),
the modifier-key state of spec section 6. -/
structure KeyboardModifiers where
  shift : Bool
  control : Bool
  alt : Bool
  meta : Bool
deriving DecidableEq, Repr

/-- `Natron::NoModifier`. -/
def NoModifier : KeyboardModifiers :=
  { shift := false, control := false, alt := false, meta := false }

/-- A selected pair (`SelectedCP`): a point and its counterpart, in either order. -/
abbrev SelectedCP := Nat × Nat

/-- The fields of `RotoGui::RotoGuiPrivate` (RotoGui.cpp lines 72-196) that the event
handlers read or write. `selectedRole` is the tool button of the current role;
`autoSaveCount` counts `triggerAutoSave()` calls of the host application; `pixelScale` is
`viewer->getPixelScale`; `stickySelectionEnabled` is the checked state of the sticky
selection button. -/
structure RotoGuiPrivate where
  context : RotoContext
  autoSaveCount : Nat
  pixelScale : ℚ × ℚ
  stickySelectionEnabled : Bool
  selectTool : RotoToolButton
  pointsEditionTool : RotoToolButton
  bezierEditionTool : RotoToolButton
  selectedTool : Roto_Tool
  selectedRole : Roto_Role
  selectedBeziers : List Nat
  selectedCps : List SelectedCP
  selectedCpsBbox : QRectF
  showCpsBbox : Bool
  modifiers : KeyboardModifiers
  state : EventState
  lastClickPos : Point
  lastMousePos : Point
  selectionRectangle : QRectF
  builtBezier : Option Nat
  tangentBeingDragged : Option Nat
  featherBarBeingDragged : Option Nat × Option Nat
  evaluateOnPenUp : Bool
  evaluateOnKeyUp : Bool
deriving DecidableEq, Repr

/-- The action `selectAllAction` created in the constructor (line 314). -/
def selectAllAction : QAction := { tool := .SELECT_ALL, role := .SELECTION_ROLE }

/-- `RotoGuiPrivate::clearCPSSelection` (lines 903-909). -/
def clearCPSSelection (s : RotoGuiPrivate) : RotoGuiPrivate :=
  { s with
    selectedCps := []
    showCpsBbox := false
    selectedCpsBbox := (s.selectedCpsBbox.setTopLeft ⟨0, 0⟩).setTopRight ⟨0, 0⟩ }

/-- `RotoGuiPrivate::clearBeziersSelection` (lines 911-915). The collection reports the
change with reason OVERLAY_INTERACT, which `onSelectionChanged` ignores. -/
def clearBeziersSelection (s : RotoGuiPrivate) : RotoGuiPrivate :=
  { s with context := s.context.clearSelection, selectedBeziers := [] }

/-- `RotoGuiPrivate::clearSelection` (lines 897-902). -/
def clearSelection (s : RotoGuiPrivate) : RotoGuiPrivate :=
  clearCPSSelection (clearBeziersSelection s)

/-- `RotoGui::getCurrentRole` (lines 461-471): the role whose tool button is
`selectedRole`. -/
def getCurrentRole (s : RotoGuiPrivate) : Roto_Role := s.selectedRole

/-- The tool button of a role (`selectTool`, `pointsEditionTool`, `bezierEditionTool`). -/
def toolButton (s : RotoGuiPrivate) (r : Roto_Role) : RotoToolButton :=
  match r with
  | .SELECTION_ROLE => s.selectTool
  | .POINTS_EDITION_ROLE => s.pointsEditionTool
  | .BEZIER_EDITION_ROLE => s.bezierEditionTool

/-- Writes the tool button of a role. -/
def setToolButton (s : RotoGuiPrivate) (r : Roto_Role) (b : RotoToolButton) : RotoGuiPrivate :=
  match r with
  | .SELECTION_ROLE => { s with selectTool := b }
  | .POINTS_EDITION_ROLE => { s with pointsEditionTool := b }
  | .BEZIER_EDITION_ROLE => { s with bezierEditionTool := b }

/-- Lines 437-439 of `onToolActionTriggered`: the tool button of the previous role is
released when the role changes. -/
def releasePreviousButton (s : RotoGuiPrivate) (actionRole : Roto_Role) : RotoGuiPrivate :=
  if s.selectedRole ≠ actionRole then
    setToolButton s s.selectedRole { toolButton s s.selectedRole with down := false }
  else s

/-- `RotoGui::onToolActionTriggered(QAction*)` (lines 409-459). The `roleChanged` signal has
no observer in the controller and is not recorded. -/
def onToolActionTriggered (s : RotoGuiPrivate) (act : QAction) : RotoGuiPrivate :=
  let actionRole := act.role
  let previousRole := getCurrentRole s
  let s1 := releasePreviousButton s actionRole
  -- reset the selected control points
  let s2 :=
    { s1 with
      selectedCps := []
      showCpsBbox := false
      selectedCpsBbox := (s1.selectedCpsBbox.setTopLeft ⟨0, 0⟩).setTopRight ⟨0, 0⟩ }
  -- clear all selection if we were building a new bezier
  let s3 :=
    match s2.builtBezier with
    | some b =>
      if previousRole = .BEZIER_EDITION_ROLE ∧ s2.selectedTool = .DRAW_BEZIER then
        clearSelection { s2 with context := s2.context.setCurveFinished b true }
      else s2
    | none => s2
  let s4 := setToolButton s3 actionRole { down := true, defaultAction := act }
  { s4 with selectedRole := actionRole, selectedTool := act.tool }

/-- `RotoGui::penUp` (lines 1641-1659). -/
def penUp (s : RotoGuiPrivate) : Bool × RotoGuiPrivate :=
  let s1 :=
    if s.evaluateOnPenUp then
      { s with
        context := s.context.evaluateChange
        autoSaveCount := s.autoSaveCount + 1
        evaluateOnPenUp := false }
    else s
  let s2 :=
    { s1 with
      tangentBeingDragged := none
      featherBarBeingDragged := (none, none)
      state := .NONE }
  let s3 :=
    if s2.selectedTool = .DRAW_ELLIPSE ∨ s2.selectedTool = .DRAW_RECTANGLE then
      onToolActionTriggered { s2 with selectedCps := [] } selectAllAction
    else s2
  (true, s3)

/-! ## Curve operations used by the event handlers (Engine/RotoContext, not under src/) -/

/-- Modelled from the spec: `Bezier::getControlPointIndex` (Engine/RotoContext, not under
src/): the position of the pointer in the control-point sequence, -1 when the curve does not
hold it (RotoGui.cpp line 1460 asserts `index != -1` for a point of the curve). -/
def RotoContext.getControlPointIndex (ctx : RotoContext) (b : Nat) (cp : Nat) : Int :=
  if cp ∈ (ctx.bezier b).points then ((ctx.bezier b).points.indexOf cp : Nat) else -1

/-- Modelled from the spec: `Bezier::getFeatherPointIndex` (Engine/RotoContext, not under
src/), the same lookup in the feather-point sequence. -/
def RotoContext.getFeatherPointIndex (ctx : RotoContext) (b : Nat) (fp : Nat) : Int :=
  if fp ∈ (ctx.bezier b).featherPoints then ((ctx.bezier b).featherPoints.indexOf fp : Nat)
  else -1

/-- Tells whether `index` is the index of a pair of curve `b`. -/
def RotoContext.validIndex (ctx : RotoContext) (b : Nat) (index : Int) : Bool :=
  decide (0 ≤ index) && decide (index.toNat < (ctx.bezier b).points.length)

/-- Modelled from the spec: `Bezier::removeControlPointByIndex` (Engine/RotoContext, not
under src/), spec section 4.2: removes the pair at `index`; an index that does not exist is
a precondition violation (spec section 7). The two follow-ups the spec lists with it, opening
the curve at one pair and destroying it at zero, are made by its callers in RotoGui.cpp
(lines 1229-1237 and 1677-1690) and are modelled there. -/
def RotoContext.removeControlPointByIndex (ctx : RotoContext) (b : Nat) (index : Int) :
    Except Fault RotoContext :=
  if ctx.validIndex b index then
    .ok { ctx with
          beziers := updateNth ctx.beziers b (fun z =>
            { z with
              points := z.points.eraseIdx index.toNat
              featherPoints := z.featherPoints.eraseIdx index.toNat }) }
  else .error .indexOutOfRange

/-- Modelled from the spec: `RotoContext::removeItem` (Engine/RotoContext, not under src/),
spec section 4.3: the curve leaves the collection and the collection's own selection. -/
def RotoContext.removeItem (ctx : RotoContext) (b : Nat) : RotoContext :=
  { ctx with
    curves := ctx.curves.filter (fun c => c != b)
    selection := ctx.selection.filter (fun c => c != b) }

/-- Modelled from the spec: `RotoContext::SelectionReason` (Engine/RotoContext.h, not under
src/): the reason tag of a selection change. -/
inductive SelectionReason where
  | OVERLAY_INTERACT
  | SETTINGS_PANEL
  | OTHER
deriving DecidableEq, Repr

/-! ## Point mutators (Engine/RotoContext, not under src/) -/

/-- Modelled from the spec: the auto-key policy of spec section 4.1 that every mutator of
Engine/RotoContext (not under src/) consults: a sample is written at the current time when
auto-keying is enabled or the point already has a keyframe there, that is (spec section 3)
its position curve has an explicit sample there. -/
def RotoContext.writeAllowed (ctx : RotoContext) (p : Nat) : Bool :=
  ctx.autoKeying || (ctx.cp p).onKeyframe

/-- Modelled from the spec: a write to the sample of point `p` under the auto-key policy of
spec section 4.1 (the setters of Engine/RotoContext, not under src/): a permitted write
applies `f`, a forbidden one is a no-op. Each mutator marks in `f` the curves it writes a
sample on. -/
def RotoContext.writePoint (ctx : RotoContext) (p : Nat) (f : BezierCP → BezierCP) :
    RotoContext :=
  if ctx.writeAllowed p then { ctx with cps := updateNth ctx.cps p f } else ctx

/-- Translation of a point by `(dx, dy)`. -/
def Point.translate (p : Point) (dx dy : ℚ) : Point := { x := p.x + dx, y := p.y + dy }

/-- Modelled from the spec: `Bezier::getControlPointAtIndex` (Engine/RotoContext, not under
src/): the pointer at `index`, null when there is none (RotoGui.cpp line 1312 asserts the
result). -/
def RotoContext.getControlPointAtIndex (ctx : RotoContext) (b : Nat) (index : Int) :
    Option Nat :=
  if 0 ≤ index then (ctx.bezier b).points[index.toNat]? else none

/-- Modelled from the spec: `Bezier::getFeatherPointAtIndex` (Engine/RotoContext, not under
src/): the pointer at `index`, null when there is none (RotoGui.cpp line 1341 asserts the
result). -/
def RotoContext.getFeatherPointAtIndex (ctx : RotoContext) (b : Nat) (index : Int) :
    Option Nat :=
  if 0 ≤ index then (ctx.bezier b).featherPoints[index.toNat]? else none

/-- Modelled from the spec: a write to the control point of curve `b` at `index`; an index
that does not exist is a precondition violation (spec section 7). -/
def RotoContext.writeControlPointAt (ctx : RotoContext) (b : Nat) (index : Int)
    (f : BezierCP → BezierCP) : Except Fault RotoContext :=
  match ctx.getControlPointAtIndex b index with
  | some p => .ok (ctx.writePoint p f)
  | none => .error .indexOutOfRange

/-- Modelled from the spec: a write to the feather point of curve `b` at `index`; an index
that does not exist is a precondition violation (spec section 7). -/
def RotoContext.writeFeatherPointAt (ctx : RotoContext) (b : Nat) (index : Int)
    (f : BezierCP → BezierCP) : Except Fault RotoContext :=
  match ctx.getFeatherPointAtIndex b index with
  | some p => .ok (ctx.writePoint p f)
  | none => .error .indexOutOfRange

/-- Modelled from the spec: `Bezier::movePointByIndex` (Engine/RotoContext, not under src/),
spec section 4.2: applies a delta at the current time to the control point at `index`,
respecting the auto-key policy. The sample is written on the position curve; the tangent
curves hold offsets (spec section 3) and are not written, so the handles, which the record
keeps in absolute coordinates, travel with the point. -/
def RotoContext.movePointByIndex (ctx : RotoContext) (b : Nat) (index : Int) (dx dy : ℚ) :
    Except Fault RotoContext :=
  ctx.writeControlPointAt b index (fun c =>
    { c with
      pos := c.pos.translate dx dy
      left := c.left.translate dx dy
      right := c.right.translate dx dy
      onKeyframe := true })

/-- Modelled from the spec: `Bezier::moveFeatherByIndex` (Engine/RotoContext, not under
src/), spec section 4.2: the same for the feather point at `index`. -/
def RotoContext.moveFeatherByIndex (ctx : RotoContext) (b : Nat) (index : Int) (dx dy : ℚ) :
    Except Fault RotoContext :=
  ctx.writeFeatherPointAt b index (fun c =>
    { c with
      pos := c.pos.translate dx dy
      left := c.left.translate dx dy
      right := c.right.translate dx dy
      onKeyframe := true })

/-- Modelled from the spec: `Bezier::moveLeftBezierPoint` (Engine/RotoContext, not under
src/): a delta applied to the left handle of the control point at `index` (spec section 4.1,
`setLeftTangent`). -/
def RotoContext.moveLeftBezierPoint (ctx : RotoContext) (b : Nat) (index : Int) (dx dy : ℚ) :
    Except Fault RotoContext :=
  ctx.writeControlPointAt b index (fun c =>
    { c with left := c.left.translate dx dy, leftOnKeyframe := true })

/-- Modelled from the spec: `Bezier::moveRightBezierPoint` (Engine/RotoContext, not under
src/): a delta applied to the right handle of the control point at `index`. -/
def RotoContext.moveRightBezierPoint (ctx : RotoContext) (b : Nat) (index : Int) (dx dy : ℚ) :
    Except Fault RotoContext :=
  ctx.writeControlPointAt b index (fun c =>
    { c with right := c.right.translate dx dy, rightOnKeyframe := true })

/-- Modelled from the spec: `Bezier::setLeftBezierPoint` (Engine/RotoContext, not under
src/): sets the left handle of the control point at `index` (spec section 4.1). -/
def RotoContext.setLeftBezierPoint (ctx : RotoContext) (b : Nat) (index : Int) (x y : ℚ) :
    Except Fault RotoContext :=
  ctx.writeControlPointAt b index (fun c => { c with left := ⟨x, y⟩, leftOnKeyframe := true })

/-- Modelled from the spec: `Bezier::setRightBezierPoint` (Engine/RotoContext, not under
src/): sets the right handle of the control point at `index` (spec section 4.1). -/
def RotoContext.setRightBezierPoint (ctx : RotoContext) (b : Nat) (index : Int) (x y : ℚ) :
    Except Fault RotoContext :=
  ctx.writeControlPointAt b index (fun c => { c with right := ⟨x, y⟩, rightOnKeyframe := true })

/-- Modelled from the spec: `Bezier::cuspPointAtIndex` (Engine/RotoContext, not under src/),
spec section 4.2: both handles of the control point at `index` become zero-length. -/
def RotoContext.cuspPointAtIndex (ctx : RotoContext) (b : Nat) (index : Int) :
    Except Fault RotoContext :=
  ctx.writeControlPointAt b index (fun c =>
    { c with left := c.pos, right := c.pos, leftOnKeyframe := true, rightOnKeyframe := true })

/-- Modelled from the spec: `Bezier::removeFeatherAtIndex` (Engine/RotoContext, not under
src/), spec section 4.2: the feather point at `index` collapses onto its control point. -/
def RotoContext.removeFeatherAtIndex (ctx : RotoContext) (b : Nat) (index : Int) :
    Except Fault RotoContext :=
  match ctx.getControlPointAtIndex b index with
  | some p =>
    ctx.writeFeatherPointAt b index (fun c =>
      { c with
        pos := (ctx.cp p).pos
        left := (ctx.cp p).left
        right := (ctx.cp p).right
        onKeyframe := true
        leftOnKeyframe := true
        rightOnKeyframe := true })
  | none => .error .indexOutOfRange

/-- A freshly created point: position and both handles at `(x, y)`; `key` tells whether the
creation leaves a sample at the current time on its three curves. -/
def newPoint (curve : Nat) (feather : Bool) (x y : ℚ) (key : Bool) : BezierCP :=
  { curve := curve, feather := feather, pos := ⟨x, y⟩, left := ⟨x, y⟩, right := ⟨x, y⟩,
    onKeyframe := key, leftOnKeyframe := key, rightOnKeyframe := key }

/-- Modelled from the spec: `Bezier::addControlPoint` (Engine/RotoContext, not under src/),
spec sections 3 and 4.2: a new (control point, feather point) pair at `(x, y)` is appended to
the curve. -/
def RotoContext.addControlPoint (ctx : RotoContext) (b : Nat) (x y : ℚ) : RotoContext :=
  { ctx with
    cps := ctx.cps ++ [newPoint b false x y ctx.keyOnCreate, newPoint b true x y ctx.keyOnCreate]
    beziers := updateNth ctx.beziers b (fun z =>
      { z with
        points := z.points ++ [ctx.cps.length]
        featherPoints := z.featherPoints ++ [ctx.cps.length + 1] }) }

/-- Modelled from the spec: `RotoContext::makeBezier` (Engine/RotoContext, not under src/):
a new open, unlocked curve of one pair at `(x, y)` (RotoGui.cpp line 1310 reads its point 0),
added to the collection last in render order. The result is the new context and the pointer
to the curve. -/
def RotoContext.makeBezier (ctx : RotoContext) (x y : ℚ) : RotoContext × Nat :=
  ({ ctx with
     cps := ctx.cps ++
       [newPoint ctx.beziers.length false x y ctx.keyOnCreate,
        newPoint ctx.beziers.length true x y ctx.keyOnCreate]
     beziers := ctx.beziers ++
       [{ points := [ctx.cps.length], featherPoints := [ctx.cps.length + 1],
          finished := false, locked := false }]
     curves := ctx.curves ++ [ctx.beziers.length] },
   ctx.beziers.length)

/-! ## Geometric queries that are parameters of the model -/

/-- Modelled from the spec: `Bezier::ControlPointSelectionPref` (Engine/RotoContext.h, not
under src/), the two values RotoGui.cpp passes. -/
inductive ControlPointSelectionPref where
  | FEATHER_FIRST
  | WHATEVER_FIRST
deriving DecidableEq, Repr

/-- Modelled from the spec: the result of `RotoContext::isNearbyBezier` (not under src/),
spec section 4.2: the curve, the index of the segment, the parameter on it, and whether the
hit is on the feather side. -/
structure NearbyBezier where
  curve : Nat
  cpIndex : Int
  t : ℚ
  feather : Bool
deriving DecidableEq, Repr

/-- Modelled from the spec: the geometric functions of Engine/RotoContext (spec sections
4.1 and 4.2) and of the C math library that RotoGui.cpp calls and whose code is not under
src/; the event handlers take them as a parameter.
* `isNearbyTangent ctx p x y tol`: -1, 0 (left) or 1 (right), `BezierCP::isNearbyTangent`;
* `isNearbyBezier ctx x y tol`: `RotoContext::isNearbyBezier`;
* `isNearbyControlPoint ctx b x y tol pref`: the pair found and its index,
  `Bezier::isNearbyControlPoint`;
* `controlPointsWithinRect ctx b xmin xmax ymin ymax mode`: `Bezier::controlPointsWithinRect`;
* `splitPoint ctx b index t`: the control and feather samples of the pair that
  `Bezier::addControlPointAfterIndex` creates;
* `smoothHandles ctx b index`: the handles `Bezier::smoothPointAtIndex` gives the point;
* `expandToFeatherDistance ctx p cp fp d`: the displacement and the new feather position
  of `Bezier::expandToFeatherDistance` for control point `p`;
* `oppositeHandle x y hx hy ox oy`: `(cos a * dist, sin a * dist)` for
  `a = atan2(y - hy, x - hx)` and `dist` the distance from `(x, y)` to `(ox, oy)`;
* `dragDistance dx dy`: `dx / cos(atan(dy / dx))`. -/
structure Geometry where
  isNearbyTangent : RotoContext → Nat → ℚ → ℚ → ℚ → Int
  isNearbyBezier : RotoContext → ℚ → ℚ → ℚ → Option NearbyBezier
  isNearbyControlPoint :
    RotoContext → Nat → ℚ → ℚ → ℚ → ControlPointSelectionPref → Option (SelectedCP × Int)
  controlPointsWithinRect : RotoContext → Nat → ℚ → ℚ → ℚ → ℚ → Int → List SelectedCP
  splitPoint : RotoContext → Nat → Int → ℚ → BezierCP × BezierCP
  smoothHandles : RotoContext → Nat → Int → Point × Point
  expandToFeatherDistance : RotoContext → Nat → Point → Point → ℚ → Point × Point
  oppositeHandle : ℚ → ℚ → ℚ → ℚ → ℚ → ℚ → Point
  dragDistance : ℚ → ℚ → ℚ

/-- Modelled from the spec: `Bezier::addControlPointAfterIndex` (Engine/RotoContext, not
under src/), spec section 4.2: a new pair is inserted after `index`, splitting the segment at
parameter `t`. The result is the new context and the pointer to the new control point. -/
def RotoContext.addControlPointAfterIndex (g : Geometry) (ctx : RotoContext) (b : Nat)
    (index : Int) (t : ℚ) : Except Fault (RotoContext × Nat) :=
  if ctx.validIndex b index then
    .ok ({ ctx with
           cps := ctx.cps ++ [(g.splitPoint ctx b index t).1, (g.splitPoint ctx b index t).2]
           beziers := updateNth ctx.beziers b (fun z =>
             { z with
               points := z.points.insertIdx (index.toNat + 1) ctx.cps.length
               featherPoints := z.featherPoints.insertIdx (index.toNat + 1) (ctx.cps.length + 1) }) },
         ctx.cps.length)
  else .error .indexOutOfRange

/-- Modelled from the spec: `Bezier::smoothPointAtIndex` (Engine/RotoContext, not under
src/), spec section 4.2: both handles of the control point at `index` are set along the
averaged direction of its neighbours. -/
def RotoContext.smoothPointAtIndex (g : Geometry) (ctx : RotoContext) (b : Nat) (index : Int) :
    Except Fault RotoContext :=
  ctx.writeControlPointAt b index (fun c =>
    { c with
      left := (g.smoothHandles ctx b index).1
      right := (g.smoothHandles ctx b index).2
      leftOnKeyframe := true
      rightOnKeyframe := true })

/-! ## Selection bookkeeping of the controller -/

/-- `RotoGui::onSelectionChanged` (lines 2064-2071). -/
def onSelectionChanged (s : RotoGuiPrivate) (reason : SelectionReason) : RotoGuiPrivate :=
  if reason ≠ .OVERLAY_INTERACT then { s with selectedBeziers := s.context.selection } else s

/-- The call `context->removeItem(b)` seen from the controller. Modelled from the spec:
by spec section 4.3 the removal also purges the selection sets held elsewhere; the only slot
of the controller that listens to the collection's selection is `onSelectionChanged`, so the
removal is reported to it with a reason other than OVERLAY_INTERACT. -/
def removeItem (s : RotoGuiPrivate) (b : Nat) : RotoGuiPrivate :=
  onSelectionChanged { s with context := s.context.removeItem b } .OTHER

/-- The running bounds `l, b, r, t` of `computeSelectedCpsBBOX`. -/
structure Bounds where
  l : ℚ
  b : ℚ
  r : ℚ
  t : ℚ
deriving DecidableEq, Repr

/-- `handleControlPointMaximum` (lines 929-954). -/
def handleControlPointMaximum (p : BezierCP) (a : Bounds) : Bounds :=
  let r := max p.pos.x a.r
  let l := min p.pos.x a.l
  let r := max p.left.x r
  let l := min p.left.x l
  let r := max p.right.x r
  let l := min p.right.x l
  let t := max p.pos.y a.t
  let b := min p.pos.y a.b
  let t := max p.left.y t
  let b := min p.left.y b
  let t := max p.right.y t
  let b := min p.right.y b
  { l := l, b := b, r := r, t := t }

/-- `INT_MAX`. -/
def INT_MAX : ℚ := 2147483647

/-- `INT_MIN`. -/
def INT_MIN : ℚ := -2147483648

/-- The bounds accumulated by the loop of `computeSelectedCpsBBOX` (lines 963-967). -/
def selectedCpsBounds (ctx : RotoContext) (cps : List SelectedCP) : Bounds :=
  cps.foldl
    (fun a it => handleControlPointMaximum (ctx.cp it.2) (handleControlPointMaximum (ctx.cp it.1) a))
    { l := INT_MAX, b := INT_MAX, r := INT_MIN, t := INT_MIN }

/-- `RotoGuiPrivate::computeSelectedCpsBBOX` (lines 956-974). -/
def computeSelectedCpsBBOX (s : RotoGuiPrivate) : RotoGuiPrivate :=
  let a := selectedCpsBounds s.context s.selectedCps
  { s with
    selectedCpsBbox := s.selectedCpsBbox.setCoords a.l a.t a.r a.b
    showCpsBbox := decide (s.selectedCps.length > 1) }

/-- `RotoGuiPrivate::handleBezierSelection` (lines 976-992). -/
def handleBezierSelection (s : RotoGuiPrivate) (curve : Nat) : RotoGuiPrivate :=
  if curve ∈ s.selectedBeziers then s
  else
    let s1 := if !s.modifiers.shift then clearBeziersSelection s else s
    { s1 with
      selectedBeziers := s1.selectedBeziers ++ [curve]
      context := s1.context.select curve }

/-- `RotoGuiPrivate::handleControlPointSelection` (lines 994-1017). -/
def handleControlPointSelection (s : RotoGuiPrivate) (p : SelectedCP) : RotoGuiPrivate :=
  let s1 :=
    if s.selectedCps.any (fun it => p.1 == it.1) then s
    else
      let s2 := if !s.modifiers.shift then { s with selectedCps := [] } else s
      computeSelectedCpsBBOX { s2 with selectedCps := s2.selectedCps ++ [p] }
  { s1 with state := .DRAGGING_CPS }

/-! ## Pointer press (RotoGui::penDown) -/

/-- The selection tolerances of lines 36-41. -/
def kBezierSelectionTolerance : ℚ := 10

/-- See line 38. -/
def kControlPointSelectionTolerance : ℚ := 8

/-- See line 39. -/
def kXHairSelectedCpsTolerance : ℚ := 10

/-- See line 40. -/
def kXHairSelectedCpsBox : ℚ := 8

/-- See line 41. -/
def kTangentHandleSelectionTolerance : ℚ := 8

/-- Tells whether an integer is in the range of `int` (32 bits). -/
def inIntRange (x : Int) : Prop := -2147483648 ≤ x ∧ x ≤ 2147483647

instance (x : Int) : Decidable (inIntRange x) := by
  unfold inIntRange
  infer_instance

/-- The value of an `int` expression (32 bits, two's complement): the integer reduced modulo
2^32 into the range of `int`. C++ leaves an overflow of signed arithmetic and an out-of-range
conversion undefined; inside the range the reduction changes nothing. -/
def wrapInt (x : Int) : Int := (x + 2147483648) % 4294967296 - 2147483648

/-- Conversion of a `double` to `int`: the fractional part is discarded, then `wrapInt`. -/
def truncate (q : ℚ) : Int := wrapInt (if 0 ≤ q then ⌊q⌋ else ⌈q⌉)

/-- `RotoGuiPrivate::isNearbySelectedCpsCrossHair` (lines 1767-1800). -/
def isNearbySelectedCpsCrossHair (s : RotoGuiPrivate) (pos : Point) : Bool :=
  let xHairMidSizeX := kXHairSelectedCpsBox * s.pixelScale.1
  let xHairMidSizeY := kXHairSelectedCpsBox * s.pixelScale.2
  let l := s.selectedCpsBbox.topLeft.x
  let r := s.selectedCpsBbox.bottomRight.x
  let b := s.selectedCpsBbox.bottomRight.y
  let t := s.selectedCpsBbox.topLeft.y
  let toleranceX := kXHairSelectedCpsTolerance * s.pixelScale.1
  let toleranceY := kXHairSelectedCpsTolerance * s.pixelScale.2
  let midX := (l + r) / 2
  let midY := (b + t) / 2
  let lCross := midX - xHairMidSizeX
  let rCross := midX + xHairMidSizeX
  let bCross := midY - xHairMidSizeY
  let tCross := midY + xHairMidSizeY
  decide (pos.x ≥ lCross - toleranceX) && decide (pos.x ≤ rCross + toleranceX) &&
    decide (pos.y ≤ tCross + toleranceY) && decide (pos.y ≥ bCross - toleranceY)

/-- The test `isNearbyFeatherBar` makes on one selected pair (lines 1821-1881). -/
def featherBarHit (g : Geometry) (s : RotoGuiPrivate) (pos : Point) (it : SelectedCP) : Bool :=
  let distFeatherX := 20 * s.pixelScale.1
  let acceptance := 6 * s.pixelScale.2
  let p := if (s.context.cp it.1).feather then it.2 else it.1
  let fp := if (s.context.cp it.1).feather then it.1 else it.2
  let cpCount := (s.context.bezier (s.context.cp p).curve).points.length
  if cpCount ≤ 1 then false
  else
    let controlPoint := (s.context.cp p).pos
    let featherPoint :=
      (g.expandToFeatherDistance s.context p controlPoint (s.context.cp fp).pos distFeatherX).2
    if featherPoint.x = controlPoint.x then
      decide (pos.y ≥ controlPoint.y - acceptance) && decide (pos.y ≤ featherPoint.y + acceptance) &&
        decide (pos.x ≥ controlPoint.x - acceptance) && decide (pos.x ≤ controlPoint.x + acceptance)
    else
      let a := (featherPoint.y - controlPoint.y) / (featherPoint.x - controlPoint.x)
      let b := controlPoint.y - a * controlPoint.x
      decide (|pos.y - (a * pos.x + b)| < acceptance)

/-- `RotoGuiPrivate::isNearbyFeatherBar` (lines 1811-1888): the first selected pair that
passes the test, the null pair when there is none. -/
def isNearbyFeatherBar (g : Geometry) (s : RotoGuiPrivate) (pos : Point) : Option SelectedCP :=
  s.selectedCps.find? (featherBarHit g s pos)

/-- The tangent test of lines 1072-1103 on one selected pair: the point whose handle is hit
and the value returned by `isNearbyTangent`. -/
def tangentSelection (g : Geometry) (s : RotoGuiPrivate) (pos : Point) (tol : ℚ)
    (it : SelectedCP) : Option (Nat × Int) :=
  match s.selectedTool with
  | .SELECT_ALL =>
    if g.isNearbyTangent s.context it.1 pos.x pos.y tol ≥ 0 then
      some (it.1, g.isNearbyTangent s.context it.1 pos.x pos.y tol)
    else if g.isNearbyTangent s.context it.2 pos.x pos.y tol ≥ 0 then
      some (it.2, g.isNearbyTangent s.context it.2 pos.x pos.y tol)
    else none
  | .SELECT_FEATHER_POINTS =>
    let fp := if (s.context.cp it.1).feather then it.1 else it.2
    if g.isNearbyTangent s.context fp pos.x pos.y tol ≥ 0 then
      some (fp, g.isNearbyTangent s.context fp pos.x pos.y tol)
    else none
  | .SELECT_POINTS =>
    let cp := if (s.context.cp it.1).feather then it.2 else it.1
    if g.isNearbyTangent s.context cp pos.x pos.y tol ≥ 0 then
      some (cp, g.isNearbyTangent s.context cp pos.x pos.y tol)
    else none
  | _ => none

/-- The hit tests of lines 1111-1139: the unlocked curve under the click (`nearbyBezier`),
the pair under the click (`nearbyCP`) and its index (`nearbyCpIndex`). -/
structure HitTest where
  nearbyBezier : Option NearbyBezier
  nearbyCP : Option SelectedCP
  nearbyCpIndex : Int

/-- Lines 1111-1139 of `penDown`. -/
def hitTest (g : Geometry) (s : RotoGuiPrivate) (pos : Point) : HitTest :=
  let bezierSelectionTolerance := kBezierSelectionTolerance * s.pixelScale.1
  let cpSelectionTolerance := kControlPointSelectionTolerance * s.pixelScale.1
  match g.isNearbyBezier s.context pos.x pos.y bezierSelectionTolerance with
  | none => { nearbyBezier := none, nearbyCP := none, nearbyCpIndex := -1 }
  | some nb =>
    if (s.context.bezier nb.curve).locked then
      { nearbyBezier := none, nearbyCP := none, nearbyCpIndex := -1 }
    else
      let pref :=
        if s.selectedTool = .SELECT_FEATHER_POINTS then ControlPointSelectionPref.FEATHER_FIRST
        else ControlPointSelectionPref.WHATEVER_FIRST
      match g.isNearbyControlPoint s.context nb.curve pos.x pos.y cpSelectionTolerance pref with
      | some (p, i) => { nearbyBezier := some nb, nearbyCP := some p, nearbyCpIndex := i }
      | none => { nearbyBezier := some nb, nearbyCP := none, nearbyCpIndex := -1 }

/-- The empty-space click of lines 1173-1179 and 1189-1195: a rectangle selection starts
unless sticky selection is on or Shift is held. -/
def beginSelecting (s : RotoGuiPrivate) (pos : Point) : RotoGuiPrivate :=
  if !s.stickySelectionEnabled && !s.modifiers.shift then
    let s1 := clearSelection s
    { s1 with
      selectionRectangle := (s1.selectionRectangle.setTopLeft pos).setBottomRight pos
      state := .SELECTING }
  else s

/-- The cases SELECT_ALL, SELECT_POINTS and SELECT_FEATHER_POINTS of `penDown`
(lines 1141-1184). -/
def penDownSelect (g : Geometry) (s : RotoGuiPrivate) (pos : Point) (ht : HitTest) :
    Bool × RotoGuiPrivate :=
  let featherBarSel :=
    if s.selectedTool = .SELECT_ALL ∨ s.selectedTool = .SELECT_FEATHER_POINTS then
      isNearbyFeatherBar g s pos
    else none
  match ht.nearbyBezier with
  | some nb =>
    let s1 := handleBezierSelection s nb.curve
    if isNearbySelectedCpsCrossHair s1 pos then (true, { s1 with state := .DRAGGING_CPS })
    else
      match ht.nearbyCP with
      | some p => (true, handleControlPointSelection s1 p)
      | none =>
        match featherBarSel with
        | some fb =>
          (true,
            { s1 with
              featherBarBeingDragged := (some fb.1, some fb.2)
              state := .DRAGGING_FEATHER_BAR })
        | none => (true, s1)
  | none =>
    match featherBarSel with
    | some fb =>
      (true,
        { s with
          featherBarBeingDragged := (some fb.1, some fb.2)
          state := .DRAGGING_FEATHER_BAR })
    | none =>
      if isNearbySelectedCpsCrossHair s pos then (true, { s with state := .DRAGGING_CPS })
      else (true, beginSelecting s pos)

/-- The case SELECT_CURVES of `penDown` (lines 1185-1197). -/
def penDownSelectCurves (s : RotoGuiPrivate) (pos : Point) (ht : HitTest) :
    Bool × RotoGuiPrivate :=
  match ht.nearbyBezier with
  | some nb => (false, handleBezierSelection s nb.curve)
  | none => (false, beginSelecting s pos)

/-- The case ADD_POINTS of `penDown` (lines 1198-1218). -/
def penDownAddPoints (g : Geometry) (s : RotoGuiPrivate) (ht : HitTest) :
    Except Fault (Bool × RotoGuiPrivate) :=
  match ht.nearbyBezier with
  | none => .ok (false, s)
  | some nb =>
    if nb.curve ∈ s.selectedBeziers then
      match ht.nearbyCP with
      | some p => .ok (true, handleControlPointSelection s p)
      | none =>
        match s.context.addControlPointAfterIndex g nb.curve nb.cpIndex nb.t with
        | .error f => .error f
        | .ok (ctx1, newCp) =>
          match ctx1.getFeatherPointAtIndex nb.curve (nb.cpIndex + 1) with
          | none => .error .indexOutOfRange
          | some newFp =>
            .ok (true,
              { handleControlPointSelection { s with context := ctx1 } (newCp, newFp) with
                evaluateOnPenUp := true })
    else .ok (false, s)

/-- The case REMOVE_POINTS of `penDown` (lines 1219-1246). -/
def penDownRemovePoints (s : RotoGuiPrivate) (ht : HitTest) :
    Except Fault (Bool × RotoGuiPrivate) :=
  match ht.nearbyCP with
  | none => .ok (false, s)
  | some p =>
    let curve := (s.context.cp p.1).curve
    if ht.nearbyBezier.map (fun nb => nb.curve) ≠ some curve then .error .assertFailed
    else
      let index :=
        if (s.context.cp p.1).feather then s.context.getControlPointIndex curve p.2
        else s.context.getControlPointIndex curve p.1
      match s.context.removeControlPointByIndex curve index with
      | .error f => .error f
      | .ok ctx1 =>
        let cpCount := ctx1.getControlPointsCount curve
        let s1 :=
          if cpCount = 1 then { s with context := ctx1.setCurveFinished curve false }
          else if cpCount = 0 then removeItem { s with context := ctx1 } curve
          else { s with context := ctx1 }
        let s2 := computeSelectedCpsBBOX { s1 with selectedCps := s1.selectedCps.erase p }
        .ok (true, { s2 with evaluateOnPenUp := true })

/-- The case REMOVE_FEATHER_POINTS of `penDown` (lines 1247-1260). -/
def penDownRemoveFeather (s : RotoGuiPrivate) (ht : HitTest) :
    Except Fault (Bool × RotoGuiPrivate) :=
  let s1 := { s with selectedCps := [], showCpsBbox := false }
  match ht.nearbyCP with
  | none => .ok (false, s1)
  | some p =>
    match ht.nearbyBezier with
    | none => .error .assertFailed
    | some nb =>
      let s2 := handleControlPointSelection s1 p
      match s2.context.removeFeatherAtIndex nb.curve ht.nearbyCpIndex with
      | .error f => .error f
      | .ok ctx1 =>
        .ok (true, { computeSelectedCpsBBOX { s2 with context := ctx1 } with evaluateOnPenUp := true })

/-- The case OPEN_CLOSE_CURVE of `penDown` (lines 1261-1274). -/
def penDownOpenClose (s : RotoGuiPrivate) (ht : HitTest) : Bool × RotoGuiPrivate :=
  match ht.nearbyBezier with
  | none => (false, s)
  | some nb =>
    if nb.curve ∈ s.selectedBeziers then
      (true,
        { s with
          context := s.context.setCurveFinished nb.curve (!s.context.isCurveFinished nb.curve)
          evaluateOnPenUp := true })
    else (false, handleBezierSelection s nb.curve)

/-- The case SMOOTH_POINTS of `penDown` (lines 1275-1288). -/
def penDownSmooth (g : Geometry) (s : RotoGuiPrivate) (ht : HitTest) :
    Except Fault (Bool × RotoGuiPrivate) :=
  let s1 := { s with selectedCps := [], showCpsBbox := false }
  match ht.nearbyCP with
  | none => .ok (false, s1)
  | some p =>
    match ht.nearbyBezier with
    | none => .error .assertFailed
    | some nb =>
      let s2 := handleControlPointSelection s1 p
      match s2.context.smoothPointAtIndex g nb.curve ht.nearbyCpIndex with
      | .error f => .error f
      | .ok ctx1 =>
        .ok (true, computeSelectedCpsBBOX { s2 with context := ctx1, evaluateOnPenUp := true })

/-- The case CUSP_POINTS of `penDown` (lines 1289-1302). -/
def penDownCusp (s : RotoGuiPrivate) (ht : HitTest) : Except Fault (Bool × RotoGuiPrivate) :=
  let s1 := { s with selectedCps := [], showCpsBbox := false }
  match ht.nearbyCP with
  | none => .ok (false, s1)
  | some p =>
    if s1.context.autoKeying then
      let s2 := handleControlPointSelection s1 p
      match ht.nearbyBezier with
      | none => .error .assertFailed
      | some nb =>
        match s2.context.cuspPointAtIndex nb.curve ht.nearbyCpIndex with
        | .error f => .error f
        | .ok ctx1 =>
          .ok (true, { computeSelectedCpsBBOX { s2 with context := ctx1 } with evaluateOnPenUp := true })
    else .ok (false, s1)

/-- The tolerance box test of lines 1327-1328 on the point behind pointer `p`. -/
def nearClick (ctx : RotoContext) (pos : Point) (tol : ℚ) (p : Nat) : Bool :=
  decide ((ctx.cp p).pos.x ≥ pos.x - tol) && decide ((ctx.cp p).pos.x ≤ pos.x + tol) &&
    decide ((ctx.cp p).pos.y ≥ pos.y - tol) && decide ((ctx.cp p).pos.y ≤ pos.y + tol)

/-- The scan of lines 1324-1347: the first control point within the tolerance box of the
click, with its index (counted from `i`). -/
def findNear (ctx : RotoContext) (pos : Point) (tol : ℚ) : List Nat → Nat → Option (Nat × Nat)
  | [], _ => none
  | p :: rest, i => if nearClick ctx pos tol p then some (i, p) else findNear ctx pos tol rest (i + 1)

/-- The outcome of a case of `penDown` that can return before the click position is
recorded (line 1345). -/
structure CaseResult where
  returned : Bool
  didSomething : Bool
  next : RotoGuiPrivate

/-- The case DRAW_BEZIER of `penDown` (lines 1303-1361). -/
def penDownDrawBezier (s : RotoGuiPrivate) (pos : Point) : Except Fault CaseResult :=
  match s.builtBezier with
  | none =>
    let newCurve := (s.context.makeBezier pos.x pos.y).2
    let ctx1 := (s.context.makeBezier pos.x pos.y).1
    match ctx1.getControlPointAtIndex newCurve 0, ctx1.getFeatherPointAtIndex newCurve 0 with
    | some cp, some fp =>
      .ok { returned := false, didSomething := true,
            next :=
              { s with
                context := ctx1
                selectedCps := s.selectedCps ++ [(cp, fp)]
                builtBezier := some newCurve
                evaluateOnPenUp := true
                state := .BUILDING_BEZIER_CP_TANGENT } }
    | _, _ => .error .assertFailed
  | some b =>
    let s1 := handleBezierSelection s b
    let cpSelectionTolerance := kControlPointSelectionTolerance * s.pixelScale.1
    match findNear s1.context pos cpSelectionTolerance (s1.context.bezier b).points 0 with
    | some (i, p) =>
      if i = 0 then
        .ok { returned := true, didSomething := true,
              next :=
                onToolActionTriggered
                  { s1 with
                    context := s1.context.setCurveFinished b true
                    evaluateOnPenUp := true
                    builtBezier := none
                    selectedCps := [] }
                  selectAllAction }
      else
        match s1.context.getFeatherPointAtIndex b i with
        | some fp =>
          .ok { returned := true, didSomething := true,
                next := handleControlPointSelection s1 (p, fp) }
        | none => .error .assertFailed
    | none =>
      let ctx1 := s1.context.addControlPoint b pos.x pos.y
      let lastIndex : Int := (ctx1.getControlPointsCount b : Int) - 1
      if lastIndex > 0 then
        match ctx1.getControlPointAtIndex b lastIndex, ctx1.getFeatherPointAtIndex b lastIndex with
        | some cp, some fp =>
          .ok { returned := false, didSomething := true,
                next :=
                  { s1 with
                    context := ctx1
                    selectedCps := s1.selectedCps ++ [(cp, fp)]
                    evaluateOnPenUp := true
                    state := .BUILDING_BEZIER_CP_TANGENT } }
        | _, _ => .error .assertFailed
      else .error .assertFailed

/-- A curve of four coincident pairs at `(x, y)`, finished: `makeBezier`, three
`addControlPoint` and `setCurveFinished(true)` (lines 1368-1373 and 1386-1390). -/
def makeFourPointCurve (ctx : RotoContext) (x y : ℚ) : RotoContext × Nat :=
  let b := (ctx.makeBezier x y).2
  let ctx1 := (ctx.makeBezier x y).1
  let ctx2 := ((ctx1.addControlPoint b x y).addControlPoint b x y).addControlPoint b x y
  (ctx2.setCurveFinished b true, b)

/-- The case DRAW_ELLIPSE of `penDown` (lines 1365-1383). -/
def penDownDrawEllipse (s : RotoGuiPrivate) (pos : Point) : Bool × RotoGuiPrivate :=
  let b := (makeFourPointCurve s.context pos.x pos.y).2
  let s1 :=
    { s with
      context := (makeFourPointCurve s.context pos.x pos.y).1
      builtBezier := some b
      evaluateOnPenUp := true }
  let s2 := handleBezierSelection s1 b
  (true,
    { s2 with
      state := if s2.modifiers.control then .BULDING_ELLIPSE_CENTER else .BUILDING_ELLIPSE })

/-- The case DRAW_RECTANGLE of `penDown` (lines 1384-1395). -/
def penDownDrawRectangle (s : RotoGuiPrivate) (pos : Point) : Bool × RotoGuiPrivate :=
  let curve := (makeFourPointCurve s.context pos.x pos.y).2
  let s1 :=
    { s with
      context := (makeFourPointCurve s.context pos.x pos.y).1
      evaluateOnPenUp := true }
  let s2 := handleBezierSelection s1 curve
  (true, { s2 with state := .BUILDING_RECTANGLE })

/-- Lines 1401-1403 of `penDown`: the click position is recorded and `didSomething`
returned. -/
def recordClick (pos : Point) (r : Bool × RotoGuiPrivate) : Bool × RotoGuiPrivate :=
  (r.1, { r.2 with lastClickPos := pos, lastMousePos := pos })

/-- The tolerance of the tangent selection (line 1069): the product is stored in an `int`. -/
def tangentSelectionTol (s : RotoGuiPrivate) : ℚ :=
  (truncate (kTangentHandleSelectionTolerance * s.pixelScale.1) : Int)

/-- The tangent selection of `penDown` (lines 1066-1109): the point and the value of
`isNearbyTangent` for the first selected pair, in list order, that has a handle under the
click; the pairs are not looked at under CUSP_POINTS, SMOOTH_POINTS and SELECT_CURVES. -/
def tangentHit (g : Geometry) (s : RotoGuiPrivate) (pos : Point) : Option (Nat × Int) :=
  if s.selectedTool ≠ .CUSP_POINTS ∧ s.selectedTool ≠ .SMOOTH_POINTS ∧
      s.selectedTool ≠ .SELECT_CURVES then
    s.selectedCps.findSome? (tangentSelection g s pos (tangentSelectionTol s))
  else none

/-- `RotoGui::penDown` (lines 1057-1404). -/
def penDown (g : Geometry) (s : RotoGuiPrivate) (pos : Point) :
    Except Fault (Bool × RotoGuiPrivate) :=
  match tangentHit g s pos with
  | some (p, ret) =>
    .ok (true,
      { s with
        tangentBeingDragged := some p
        state := if ret = 0 then .DRAGGING_LEFT_TANGENT else .DRAGGING_RIGHT_TANGENT })
  | none =>
    let ht := hitTest g s pos
    match s.selectedTool with
    | .SELECT_ALL => .ok (recordClick pos (penDownSelect g s pos ht))
    | .SELECT_POINTS => .ok (recordClick pos (penDownSelect g s pos ht))
    | .SELECT_FEATHER_POINTS => .ok (recordClick pos (penDownSelect g s pos ht))
    | .SELECT_CURVES => .ok (recordClick pos (penDownSelectCurves s pos ht))
    | .ADD_POINTS => (penDownAddPoints g s ht).map (recordClick pos)
    | .REMOVE_POINTS => (penDownRemovePoints s ht).map (recordClick pos)
    | .REMOVE_FEATHER_POINTS => (penDownRemoveFeather s ht).map (recordClick pos)
    | .OPEN_CLOSE_CURVE => .ok (recordClick pos (penDownOpenClose s ht))
    | .SMOOTH_POINTS => (penDownSmooth g s ht).map (recordClick pos)
    | .CUSP_POINTS => (penDownCusp s ht).map (recordClick pos)
    | .DRAW_BEZIER =>
      match penDownDrawBezier s pos with
      | .error f => .error f
      | .ok r =>
        if r.returned then .ok (r.didSomething, r.next)
        else .ok (recordClick pos (r.didSomething, r.next))
    | .DRAW_B_SPLINE => .ok (recordClick pos (false, s))
    | .DRAW_ELLIPSE => .ok (recordClick pos (penDownDrawEllipse s pos))
    | .DRAW_RECTANGLE => .ok (recordClick pos (penDownDrawRectangle s pos))

/-! ## Pointer move (RotoGui::penMotion) -/

/-- One pass of the DRAGGING_CPS loop (lines 1455-1470) over a selected pair. -/
def dragSelectedCp (s : RotoGuiPrivate) (dx dy : ℚ) (it : SelectedCP) :
    Except Fault RotoGuiPrivate :=
  if (s.context.cp it.1).feather then
    if s.selectedTool = .SELECT_FEATHER_POINTS ∨ s.selectedTool = .SELECT_ALL then
      let index := s.context.getControlPointIndex (s.context.cp it.2).curve it.2
      if index = -1 then .error .assertFailed
      else
        match s.context.moveFeatherByIndex (s.context.cp it.1).curve index dx dy with
        | .error f => .error f
        | .ok ctx1 => .ok { s with context := ctx1 }
    else .ok s
  else
    if s.selectedTool = .SELECT_POINTS ∨ s.selectedTool = .SELECT_ALL then
      let index := s.context.getControlPointIndex (s.context.cp it.1).curve it.1
      if index = -1 then .error .assertFailed
      else
        match s.context.movePointByIndex (s.context.cp it.1).curve index dx dy with
        | .error f => .error f
        | .ok ctx1 => .ok { s with context := ctx1 }
    else .ok s

/-- The DRAGGING_CPS loop (lines 1455-1470) over the selected pairs, in list order. -/
def dragSelectedCps (s : RotoGuiPrivate) (dx dy : ℚ) : List SelectedCP → Except Fault RotoGuiPrivate
  | [] => .ok s
  | it :: rest =>
    match dragSelectedCp s dx dy it with
    | .error f => .error f
    | .ok s1 => dragSelectedCps s1 dx dy rest

/-- The loop of `refreshSelectionRectangle` over the curves (lines 882-891). -/
def selectWithinRect (g : Geometry) (xmin xmax ymin ymax : ℚ) (selectionMode : Int)
    (s : RotoGuiPrivate) : List Nat → RotoGuiPrivate
  | [] => s
  | b :: rest =>
    if !(s.context.bezier b).locked then
      let points := g.controlPointsWithinRect s.context b xmin xmax ymin ymax selectionMode
      let s1 := { s with selectedCps := s.selectedCps ++ points }
      let s2 := if points ≠ [] then { s1 with selectedBeziers := s1.selectedBeziers ++ [b] } else s1
      selectWithinRect g xmin xmax ymin ymax selectionMode s2 rest
    else selectWithinRect g xmin xmax ymin ymax selectionMode s rest

/-- `RotoGuiPrivate::refreshSelectionRectangle` (lines 858-895). The call
`context->select(curves, OVERLAY_INTERACT)` of line 892 selects every curve of the list. -/
def refreshSelectionRectangle (g : Geometry) (s : RotoGuiPrivate) (pos : Point) :
    Except Fault RotoGuiPrivate :=
  let xmin := min s.lastClickPos.x pos.x
  let xmax := max s.lastClickPos.x pos.x
  let ymin := min s.lastClickPos.y pos.y
  let ymax := max s.lastClickPos.y pos.y
  let s1 :=
    clearSelection
      { s with
        selectionRectangle :=
          (s.selectionRectangle.setBottomRight ⟨xmax, ymin⟩).setTopLeft ⟨xmin, ymax⟩ }
  let mode : Option Int :=
    match s1.selectedTool with
    | .SELECT_ALL => some 0
    | .SELECT_POINTS => some 1
    | .SELECT_FEATHER_POINTS => some 2
    | _ => none
  match mode with
  | none => .error .assertFailed
  | some selectionMode =>
    let curves := s1.context.curves
    let s2 := selectWithinRect g xmin xmax ymin ymax selectionMode s1 curves
    .ok (computeSelectedCpsBBOX
      { s2 with context := curves.foldl (fun c b => c.select b) s2.context })

/-- The tangent update shared by BUILDING_ELLIPSE and BULDING_ELLIPSE_CENTER
(lines 1513-1529 and 1556-1572) on the curve `b`. -/
def setEllipseTangents (ctx : RotoContext) (b : Nat) : Except Fault RotoContext :=
  match ctx.getControlPointAtIndex b 0, ctx.getControlPointAtIndex b 1,
      ctx.getControlPointAtIndex b 2, ctx.getControlPointAtIndex b 3 with
  | some top, some right, some bottom, some left =>
    let topP := (ctx.cp top).pos
    let rightP := (ctx.cp right).pos
    let btmP := (ctx.cp bottom).pos
    let leftP := (ctx.cp left).pos
    do
      let c ← ctx.setLeftBezierPoint b 0 ((leftP.x + topP.x) / 2) topP.y
      let c ← c.setRightBezierPoint b 0 ((rightP.x + topP.x) / 2) topP.y
      let c ← c.setLeftBezierPoint b 1 rightP.x ((rightP.y + topP.y) / 2)
      let c ← c.setRightBezierPoint b 1 rightP.x ((rightP.y + btmP.y) / 2)
      let c ← c.setLeftBezierPoint b 2 ((rightP.x + btmP.x) / 2) btmP.y
      let c ← c.setRightBezierPoint b 2 ((leftP.x + btmP.x) / 2) btmP.y
      let c ← c.setLeftBezierPoint b 3 leftP.x ((btmP.y + leftP.y) / 2)
      c.setRightBezierPoint b 3 leftP.x ((topP.y + leftP.y) / 2)
  | _, _, _, _ => .error .indexOutOfRange

/-- The case BUILDING_ELLIPSE of `penMotion` (lines 1491-1534). -/
def penMotionEllipse (s : RotoGuiPrivate) (dx dy : ℚ) : Except Fault (Bool × RotoGuiPrivate) :=
  match s.builtBezier with
  | none => .error .assertFailed
  | some b =>
    do
      let c ← s.context.movePointByIndex b 0 (dx / 2) 0
      let c ← c.movePointByIndex b 1 dx (dy / 2)
      let c ← c.movePointByIndex b 2 (dx / 2) dy
      let c ← c.movePointByIndex b 3 0 (dy / 2)
      let c ← setEllipseTangents c b
      pure (true, { s with context := c, evaluateOnPenUp := true })

/-- The case BULDING_ELLIPSE_CENTER of `penMotion` (lines 1535-1574). -/
def penMotionEllipseCenter (s : RotoGuiPrivate) (dx dy : ℚ) :
    Except Fault (Bool × RotoGuiPrivate) :=
  match s.builtBezier with
  | none => .error .assertFailed
  | some b =>
    do
      let c ← s.context.movePointByIndex b 0 0 dy
      let c ← c.movePointByIndex b 1 dx 0
      let c ← c.movePointByIndex b 2 0 (-dy)
      let c ← c.movePointByIndex b 3 (-dx) 0
      let c ← setEllipseTangents c b
      pure (true, { s with context := c })

/-- The case BUILDING_RECTANGLE of `penMotion` (lines 1575-1585). The deltas and the sums
made by `movePointByIndex` are exact here and `double` in the source. -/
def penMotionRectangle (s : RotoGuiPrivate) (dx dy : ℚ) : Except Fault (Bool × RotoGuiPrivate) :=
  match s.selectedBeziers with
  | [curve] =>
    match s.context.movePointByIndex curve 1 dx 0 with
    | .error f => .error f
    | .ok c1 =>
      match c1.movePointByIndex curve 2 dx dy with
      | .error f => .error f
      | .ok c2 =>
        match c2.movePointByIndex curve 3 0 dy with
        | .error f => .error f
        | .ok c3 => .ok (true, { s with context := c3, evaluateOnPenUp := true })
  | _ => .error .assertFailed

/-- The case BUILDING_BEZIER_CP_TANGENT of `penMotion` (lines 1480-1490). -/
def penMotionBezierTangent (s : RotoGuiPrivate) (dx dy : ℚ) :
    Except Fault (Bool × RotoGuiPrivate) :=
  match s.builtBezier with
  | none => .error .assertFailed
  | some b =>
    let lastIndex : Int := (s.context.getControlPointsCount b : Int) - 1
    if lastIndex ≥ 0 then
      do
        let c ← s.context.moveLeftBezierPoint b lastIndex (-dx) (-dy)
        let c ← c.moveRightBezierPoint b lastIndex dx dy
        pure (true, { s with context := c })
    else .error .assertFailed

/-- `dragTangent` (lines 1021-1052) on the point behind pointer `p`. `isOnKeyframe` is the
result of `getLeftBezierPointAtTime` (line 1024): the keyframe flag of the left tangent
curve. The write is `Bezier::setPointLeftAndRightIndex`, which leaves a sample on the two
tangent curves. -/
def dragTangent (g : Geometry) (ctx : RotoContext) (p : Nat) (dx dy : ℚ) (left : Bool) :
    RotoContext :=
  let c := ctx.cp p
  if left then
    let l : Point := c.left.translate dx dy
    let r := g.oppositeHandle c.pos.x c.pos.y l.x l.y c.right.x c.right.y
    if ctx.autoKeying || c.leftOnKeyframe then
      { ctx with
        cps := updateNth ctx.cps p (fun z =>
          { z with
            left := l
            right := ⟨c.pos.x + r.x, c.pos.y + r.y⟩
            leftOnKeyframe := true
            rightOnKeyframe := true }) }
    else ctx
  else
    let r : Point := c.right.translate dx dy
    let l := g.oppositeHandle c.pos.x c.pos.y r.x r.y c.left.x c.left.y
    if ctx.autoKeying || c.leftOnKeyframe then
      { ctx with
        cps := updateNth ctx.cps p (fun z =>
          { z with
            left := ⟨c.pos.x + l.x, c.pos.y + l.y⟩
            right := r
            leftOnKeyframe := true
            rightOnKeyframe := true }) }
    else ctx

/-- Modelled from the spec: `Bezier::getControlPointForFeatherPoint` and
`Bezier::getFeatherPointForControlPoint` (Engine/RotoContext, not under src/), by the index
parity of spec section 3: the counterpart of a point is the point at the same index of the
other sequence; null when the curve does not hold the point. -/
def RotoContext.counterPart (ctx : RotoContext) (p : Nat) : Option Nat :=
  let z := ctx.bezier (ctx.cp p).curve
  if (ctx.cp p).feather then
    if p ∈ z.featherPoints then z.points[z.featherPoints.indexOf p]? else none
  else
    if p ∈ z.points then z.featherPoints[z.points.indexOf p]? else none

/-- The cases DRAGGING_LEFT_TANGENT (`left = true`) and DRAGGING_RIGHT_TANGENT of
`penMotion` (lines 1586-1621). -/
def penMotionTangent (g : Geometry) (s : RotoGuiPrivate) (dx dy : ℚ) (left : Bool) :
    Except Fault (Bool × RotoGuiPrivate) :=
  match s.tangentBeingDragged with
  | none => .error .assertFailed
  | some p =>
    match s.context.counterPart p with
    | none => .error .assertFailed
    | some q =>
      let c := dragTangent g (dragTangent g s.context p dx dy left) q dx dy left
      .ok (true, { computeSelectedCpsBBOX { s with context := c } with evaluateOnPenUp := true })

/-- `RotoGuiPrivate::dragFeatherPoint` (lines 1890-1957). `isOnKeyframe` is the result of
`getPositionAtTime` on the feather point (line 1912): the keyframe flag of its position
curve. The write is `Bezier::setPointAtIndex` on the feather point, which leaves a sample on
its three curves. -/
def dragFeatherPoint (g : Geometry) (s : RotoGuiPrivate) (dx dy : ℚ) :
    Except Fault RotoGuiPrivate :=
  match s.featherBarBeingDragged with
  | (some first, some second) =>
    let dragDistance := if dx ≠ 0 then g.dragDistance dx dy else dy
    let p := if (s.context.cp first).feather then second else first
    let fp := if (s.context.cp first).feather then first else second
    let controlPoint := (s.context.cp p).pos
    let isOnKeyframe := (s.context.cp fp).onKeyframe
    if (s.context.bezier (s.context.cp p).curve).points.length > 1 then
      let e := g.expandToFeatherDistance s.context p controlPoint (s.context.cp fp).pos dragDistance
      if s.context.autoKeying || isOnKeyframe then
        let index := s.context.getFeatherPointIndex (s.context.cp fp).curve fp
        match s.context.getFeatherPointAtIndex (s.context.cp fp).curve index with
        | none => .error .indexOutOfRange
        | some q =>
          .ok { s with
                context :=
                  { s.context with
                    cps := updateNth s.context.cps q (fun z =>
                      { z with
                        pos := e.2
                        left := (s.context.cp fp).left.translate e.1.x e.1.y
                        right := (s.context.cp fp).right.translate e.1.x e.1.y
                        onKeyframe := true
                        leftOnKeyframe := true
                        rightOnKeyframe := true }) } }
      else .ok s
    else .error .assertFailed
  | _ => .error .assertFailed

/-- `RotoGui::penMotion` (lines 1406-1639). The cursor shape set at lines 1412-1445 is not
part of the state. -/
def penMotion (g : Geometry) (s : RotoGuiPrivate) (pos : Point) :
    Except Fault (Bool × RotoGuiPrivate) :=
  let dx := pos.x - s.lastMousePos.x
  let dy := pos.y - s.lastMousePos.y
  let r : Except Fault (Bool × RotoGuiPrivate) :=
    match s.state with
    | .DRAGGING_CPS =>
      match dragSelectedCps s dx dy s.selectedCps with
      | .error f => .error f
      | .ok s1 => .ok (true, computeSelectedCpsBBOX { s1 with evaluateOnPenUp := true })
    | .SELECTING =>
      match refreshSelectionRectangle g s pos with
      | .error f => .error f
      | .ok s1 => .ok (true, s1)
    | .BUILDING_BEZIER_CP_TANGENT => penMotionBezierTangent s dx dy
    | .BUILDING_ELLIPSE => penMotionEllipse s dx dy
    | .BULDING_ELLIPSE_CENTER => penMotionEllipseCenter s dx dy
    | .BUILDING_RECTANGLE => penMotionRectangle s dx dy
    | .DRAGGING_LEFT_TANGENT => penMotionTangent g s dx dy true
    | .DRAGGING_RIGHT_TANGENT => penMotionTangent g s dx dy false
    | .DRAGGING_FEATHER_BAR =>
      match dragFeatherPoint g s dx dy with
      | .error f => .error f
      | .ok s1 => .ok (true, { s1 with evaluateOnPenUp := true })
    | .NONE => .ok (false, s)
  match r with
  | .error f => .error f
  | .ok (didSomething, s1) => .ok (didSomething, { s1 with lastMousePos := pos })

/-! ## Keyboard (RotoGui::keyDown) -/

/-- The keys `keyDown` distinguishes; any other key is `Key_Other`. -/
inductive Key where
  | Key_Delete
  | Key_Backspace
  | Key_Return
  | Key_Enter
  | Key_A
  | Key_Q
  | Key_V
  | Key_D
  | Key_Other
deriving DecidableEq, Repr

/-- The part of a `QKeyEvent` the controller reads. -/
structure QKeyEvent where
  key : Key
  modifiers : KeyboardModifiers
deriving DecidableEq, Repr

/-- The actions of each tool button, in creation order (constructor, lines 310-349). -/
def toolActions (r : Roto_Role) : List QAction :=
  match r with
  | .SELECTION_ROLE =>
    [⟨.SELECT_ALL, r⟩, ⟨.SELECT_POINTS, r⟩, ⟨.SELECT_CURVES, r⟩, ⟨.SELECT_FEATHER_POINTS, r⟩]
  | .POINTS_EDITION_ROLE =>
    [⟨.ADD_POINTS, r⟩, ⟨.REMOVE_POINTS, r⟩, ⟨.CUSP_POINTS, r⟩, ⟨.SMOOTH_POINTS, r⟩,
      ⟨.OPEN_CLOSE_CURVE, r⟩, ⟨.REMOVE_FEATHER_POINTS, r⟩]
  | .BEZIER_EDITION_ROLE =>
    [⟨.DRAW_BEZIER, r⟩, ⟨.DRAW_ELLIPSE, r⟩, ⟨.DRAW_RECTANGLE, r⟩]

/-- `RotoToolButton::handleSelection` (lines 220-236) on the button of role `r`; the signal
`triggered(QAction*)` is connected to `onToolActionTriggered(QAction*)`. -/
def handleSelection (s : RotoGuiPrivate) (r : Roto_Role) : RotoGuiPrivate :=
  let curAction := (toolButton s r).defaultAction
  if !(toolButton s r).down then onToolActionTriggered s curAction
  else
    let allAction := toolActions r
    if curAction ∈ allAction then
      let i := allAction.indexOf curAction
      let next := if i = allAction.length - 1 then 0 else i + 1
      match allAction[next]? with
      | some a =>
        onToolActionTriggered (setToolButton s r { toolButton s r with defaultAction := a }) a
      | none => s
    else s

/-- One pass of the loop of lines 1670-1686 over a selected pair; `toRemove` is
`beziersToRemove`. -/
def deleteSelectedCp (s : RotoGuiPrivate) (toRemove : List Nat) (it : SelectedCP) :
    Except Fault (RotoGuiPrivate × List Nat) :=
  let curve := (s.context.cp it.1).curve
  let index :=
    if (s.context.cp it.1).feather then s.context.getControlPointIndex curve it.2
    else s.context.getControlPointIndex curve it.1
  match s.context.removeControlPointByIndex curve index with
  | .error f => .error f
  | .ok ctx1 =>
    let cpCount := ctx1.getControlPointsCount curve
    if cpCount = 1 then
      .ok ({ s with context := ctx1.setCurveFinished curve false }, toRemove)
    else if cpCount = 0 then
      .ok ({ s with
             context := ctx1
             builtBezier := if s.builtBezier = some curve then none else s.builtBezier },
           toRemove ++ [curve])
    else .ok ({ s with context := ctx1 }, toRemove)

/-- The loop of lines 1670-1686 over the selected pairs, in list order. -/
def deleteSelectedCps (s : RotoGuiPrivate) (toRemove : List Nat) :
    List SelectedCP → Except Fault (RotoGuiPrivate × List Nat)
  | [] => .ok (s, toRemove)
  | it :: rest =>
    match deleteSelectedCp s toRemove it with
    | .error f => .error f
    | .ok (s1, toRemove1) => deleteSelectedCps s1 toRemove1 rest

/-- The `while (!selectedBeziers.empty())` loop of lines 1698-1704 run for at most `fuel`
passes; `none` when the set is still not empty after them. -/
def deleteSelectedBeziers : Nat → RotoGuiPrivate → Option RotoGuiPrivate
  | 0, s => if s.selectedBeziers = [] then some s else none
  | fuel + 1, s =>
    match s.selectedBeziers with
    | [] => some s
    | b :: _ =>
      let s1 := removeItem s b
      deleteSelectedBeziers fuel
        { s1 with builtBezier := if s1.builtBezier = some b then none else s1.builtBezier }

/-- The pairs pushed by Ctrl+A for one curve (lines 1733-1740): control and feather points
side by side; the source asserts that the two sequences have the same length. -/
def allPairsOf (ctx : RotoContext) (b : Nat) : Except Fault (List SelectedCP) :=
  if (ctx.bezier b).points.length = (ctx.bezier b).featherPoints.length then
    .ok ((ctx.bezier b).points.zip (ctx.bezier b).featherPoints)
  else .error .assertFailed

/-- The pairs pushed by Ctrl+A for all selected curves (lines 1732-1741). -/
def allPairsOfAll (ctx : RotoContext) : List Nat → Except Fault (List SelectedCP)
  | [] => .ok []
  | b :: rest =>
    match allPairsOf ctx b with
    | .error f => .error f
    | .ok ps =>
      match allPairsOfAll ctx rest with
      | .error f => .error f
      | .ok qs => .ok (ps ++ qs)

/-- The Delete / Backspace branch of `keyDown` (lines 1665-1709). The loop over the selected
curves is allotted one pass more than the number of curves selected in the collection. -/
def keyDownDelete (s : RotoGuiPrivate) : Except Fault (Bool × RotoGuiPrivate) :=
  if s.selectedCps ≠ [] then
    match deleteSelectedCps s [] s.selectedCps with
    | .error f => .error f
    | .ok (s1, toRemove) =>
      let s2 := toRemove.foldl removeItem s1
      let s3 := computeSelectedCpsBBOX { s2 with selectedCps := [] }
      .ok (true,
        { s3 with autoSaveCount := s3.autoSaveCount + 1, context := s3.context.evaluateChange })
  else if s.selectedBeziers ≠ [] then
    match deleteSelectedBeziers (s.context.selection.length + 1) s with
    | none => .error .loopBoundExceeded
    | some s1 =>
      .ok (true,
        { s1 with autoSaveCount := s1.autoSaveCount + 1, context := s1.context.evaluateChange })
  else .ok (false, s)

/-- The Return / Enter branch of `keyDown` (lines 1710-1720). -/
def keyDownEnter (s : RotoGuiPrivate) : Bool × RotoGuiPrivate :=
  match s.builtBezier with
  | some b =>
    if s.selectedTool = .DRAW_BEZIER ∧ s.context.isCurveFinished b = false then
      let s1 :=
        { s with
          context := s.context.setCurveFinished b true
          builtBezier := none
          selectedCps := [] }
      let s2 := onToolActionTriggered s1 selectAllAction
      (true,
        { s2 with autoSaveCount := s2.autoSaveCount + 1, context := s2.context.evaluateChange })
    else (false, s)
  | none => (false, s)

/-- The Ctrl+A branch of `keyDown` (lines 1721-1744). -/
def keyDownSelectAll (s : RotoGuiPrivate) : Except Fault (Bool × RotoGuiPrivate) :=
  if s.selectedBeziers = [] then
    .ok (true,
      s.context.curves.foldl
        (fun t b =>
          { t with context := t.context.select b, selectedBeziers := t.selectedBeziers ++ [b] })
        s)
  else
    match allPairsOfAll s.context s.selectedBeziers with
    | .error f => .error f
    | .ok ps => .ok (true, computeSelectedCpsBBOX { s with selectedCps := ps })

/-- `RotoGui::keyDown` (lines 1661-1754). -/
def keyDown (s0 : RotoGuiPrivate) (e : QKeyEvent) : Except Fault (Bool × RotoGuiPrivate) :=
  let s := { s0 with modifiers := e.modifiers }
  match e.key with
  | .Key_Delete => keyDownDelete s
  | .Key_Backspace => keyDownDelete s
  | .Key_Return => .ok (keyDownEnter s)
  | .Key_Enter => .ok (keyDownEnter s)
  | .Key_A => if e.modifiers.control then keyDownSelectAll s else .ok (false, s)
  | .Key_Q => .ok (false, handleSelection s .SELECTION_ROLE)
  | .Key_V => .ok (false, handleSelection s .BEZIER_EDITION_ROLE)
  | .Key_D => .ok (false, handleSelection s .POINTS_EDITION_ROLE)
  | .Key_Other => .ok (false, s)

/-- `RotoGui::keyUp` (lines 1756-1765). -/
def keyUp (s0 : RotoGuiPrivate) (e : QKeyEvent) : Bool × RotoGuiPrivate :=
  let s := { s0 with modifiers := e.modifiers }
  if s.evaluateOnKeyUp then
    (false,
      { s with
        context := s.context.evaluateChange
        autoSaveCount := s.autoSaveCount + 1
        evaluateOnKeyUp := false })
  else (false, s)

/-! ## Initial state -/

/-- The state left by the constructor (lines 131-164 and 264-361): the member initialisers,
then `onToolActionTriggered(drawBezierAct)`, then `restoreSelectionFromContext()`. -/
def initialState (ctx : RotoContext) (pixelScale : ℚ × ℚ) : RotoGuiPrivate :=
  let s0 : RotoGuiPrivate :=
    { context := ctx
      autoSaveCount := 0
      pixelScale := pixelScale
      stickySelectionEnabled := false
      selectTool := { down := false, defaultAction := selectAllAction }
      pointsEditionTool :=
        { down := false, defaultAction := { tool := .ADD_POINTS, role := .POINTS_EDITION_ROLE } }
      bezierEditionTool :=
        { down := false, defaultAction := { tool := .DRAW_BEZIER, role := .BEZIER_EDITION_ROLE } }
      selectedTool := .SELECT_ALL
      selectedRole := .SELECTION_ROLE
      selectedBeziers := []
      selectedCps := []
      selectedCpsBbox := QRectF.null
      showCpsBbox := false
      modifiers := NoModifier
      state := .NONE
      lastClickPos := ⟨0, 0⟩
      lastMousePos := ⟨0, 0⟩
      selectionRectangle := QRectF.null
      builtBezier := none
      tangentBeingDragged := none
      featherBarBeingDragged := (none, none)
      evaluateOnPenUp := false
      evaluateOnKeyUp := false }
  let s1 := onToolActionTriggered s0 { tool := .DRAW_BEZIER, role := .BEZIER_EDITION_ROLE }
  { s1 with selectedBeziers := s1.context.selection }

/-! ## Events and runs -/

/-- The events the host sends to the controller. -/
inductive Event where
  | penDown (pos : Point)
  | penMotion (pos : Point)
  | penUp
  | keyDown (e : QKeyEvent)
  | keyUp (e : QKeyEvent)
  | toolAction (act : QAction)

/-- The handler of one event; the consumed flag is dropped. -/
def step (g : Geometry) (s : RotoGuiPrivate) : Event → Except Fault RotoGuiPrivate
  | .penDown pos => (penDown g s pos).map (fun r => r.2)
  | .penMotion pos => (penMotion g s pos).map (fun r => r.2)
  | .penUp => .ok (penUp s).2
  | .keyDown e => (keyDown s e).map (fun r => r.2)
  | .keyUp e => .ok (keyUp s e).2
  | .toolAction act => .ok (onToolActionTriggered s act)

/-- The state after a sequence of events. -/
def run (g : Geometry) (s : RotoGuiPrivate) : List Event → Except Fault RotoGuiPrivate
  | [] => .ok s
  | e :: rest =>
    match step g s e with
    | .error f => .error f
    | .ok s1 => run g s1 rest

/-- The state after a sequence of events, when no handler stopped on a fault. -/
def runState (g : Geometry) (s : RotoGuiPrivate) (es : List Event) : Option RotoGuiPrivate :=
  match run g s es with
  | .ok s1 => some s1
  | .error _ => none

/-- The fault a sequence of events stops on, if any. -/
def runFault (g : Geometry) (s : RotoGuiPrivate) (es : List Event) : Option Fault :=
  match run g s es with
  | .ok _ => none
  | .error f => some f

/-! ## A concrete geometry for worked examples

Hit tests by tolerance box on the points themselves. It agrees with the description of the
hit tests in spec sections 4.1 and 4.2 for a click that is on a point or far from every
curve, which is how the examples below click. -/

/-- Tells whether `p` lies in the box of half-width `tol` around `(x, y)`. -/
def inBox (p : Point) (x y tol : ℚ) : Bool :=
  decide (p.x ≥ x - tol) && decide (p.x ≤ x + tol) && decide (p.y ≥ y - tol) &&
    decide (p.y ≤ y + tol)

/-- The first pair of a curve with a member in the box around `(x, y)`, counted from `i`:
the pair as `isNearbyControlPoint` reports it (the member found first, then its
counterpart) and its index. -/
def nearbyPair (ctx : RotoContext) (x y tol : ℚ) (pref : ControlPointSelectionPref) :
    List (Nat × Nat) → Nat → Option (SelectedCP × Int)
  | [], _ => none
  | (cp, fp) :: rest, i =>
    let onCp := inBox (ctx.cp cp).pos x y tol
    let onFp := inBox (ctx.cp fp).pos x y tol
    match pref with
    | .FEATHER_FIRST =>
      if onFp then some ((fp, cp), (i : Int))
      else if onCp then some ((cp, fp), (i : Int))
      else nearbyPair ctx x y tol pref rest (i + 1)
    | .WHATEVER_FIRST =>
      if onCp then some ((cp, fp), (i : Int))
      else if onFp then some ((fp, cp), (i : Int))
      else nearbyPair ctx x y tol pref rest (i + 1)

/-- The pairs of a curve. -/
def RotoContext.pairs (ctx : RotoContext) (b : Nat) : List (Nat × Nat) :=
  (ctx.bezier b).points.zip (ctx.bezier b).featherPoints

/-- The geometry of the worked examples. -/
def boxGeometry : Geometry where
  isNearbyTangent ctx p x y tol :=
    if inBox (ctx.cp p).left x y tol then 0
    else if inBox (ctx.cp p).right x y tol then 1
    else -1
  isNearbyBezier ctx x y tol :=
    (ctx.curves.find? (fun b =>
      (nearbyPair ctx x y tol .WHATEVER_FIRST (ctx.pairs b) 0).isSome)).map
      (fun b =>
        { curve := b
          cpIndex := ((nearbyPair ctx x y tol .WHATEVER_FIRST (ctx.pairs b) 0).map
            (fun r => r.2)).getD 0
          t := 0
          feather := false })
  isNearbyControlPoint ctx b x y tol pref := nearbyPair ctx x y tol pref (ctx.pairs b) 0
  controlPointsWithinRect ctx b xmin xmax ymin ymax mode :=
    (ctx.pairs b).filterMap (fun pr =>
      let q := if mode = 2 then (ctx.cp pr.2).pos else (ctx.cp pr.1).pos
      if decide (xmin ≤ q.x) && decide (q.x ≤ xmax) && decide (ymin ≤ q.y) && decide (q.y ≤ ymax)
      then some (if mode = 2 then (pr.2, pr.1) else pr)
      else none)
  splitPoint ctx b _index _t :=
    (newPoint b false 0 0 ctx.keyOnCreate, newPoint b true 0 0 ctx.keyOnCreate)
  smoothHandles _ctx _b _index := (⟨0, 0⟩, ⟨0, 0⟩)
  expandToFeatherDistance _ctx _p _cp fp _d := (⟨0, 0⟩, fp)
  oppositeHandle _x _y _hx _hy _ox _oy := ⟨0, 0⟩
  dragDistance dx _dy := dx

/-- An empty collection with auto-keying on. -/
def emptyContext : RotoContext :=
  { cps := [], beziers := [], curves := [], selection := [], autoKeying := true,
    featherLink := true, rippleEdit := false, keyOnCreate := true, evaluateCount := 0 }

/-- A key press without modifiers. -/
def plainKey (k : Key) : Event := .keyDown { key := k, modifiers := NoModifier }

/-- The tool action of a tool, with the role of its tool button. -/
def actionOf (t : Roto_Tool) : QAction :=
  match t with
  | .SELECT_ALL | .SELECT_POINTS | .SELECT_CURVES | .SELECT_FEATHER_POINTS =>
    { tool := t, role := .SELECTION_ROLE }
  | .DRAW_BEZIER | .DRAW_B_SPLINE | .DRAW_ELLIPSE | .DRAW_RECTANGLE =>
    { tool := t, role := .BEZIER_EDITION_ROLE }
  | _ => { tool := t, role := .POINTS_EDITION_ROLE }

/-- The example geometry for curves that run along the x axis: the normal at a control
point is the y direction, so the feather point expanded to distance `d` is the control point
moved by `d` along y; the displacement is counted from the feather point passed in. The
other queries are those of `boxGeometry`. -/
def barGeometry : Geometry :=
  { boxGeometry with
    expandToFeatherDistance := fun _ctx _p cp fp d =>
      (⟨cp.x - fp.x, cp.y + d - fp.y⟩, ⟨cp.x, cp.y + d⟩) }

/-! ## Predicates used by the theorems -/

/-- The members of a selected pair whose handles the tangent selection tests, in the order
of the tests (lines 1072-1103): both members under SELECT_ALL, the feather point under
SELECT_FEATHER_POINTS, the control point under SELECT_POINTS, none under another tool. -/
def testedMembers (s : RotoGuiPrivate) (it : SelectedCP) : List Nat :=
  match s.selectedTool with
  | .SELECT_ALL => [it.1, it.2]
  | .SELECT_FEATHER_POINTS => [if (s.context.cp it.1).feather then it.1 else it.2]
  | .SELECT_POINTS => [if (s.context.cp it.1).feather then it.2 else it.1]
  | _ => []

/-- The position of the control point of curve `b` at index `i` (the origin when the curve
has no such point). -/
def corner (ctx : RotoContext) (b : Nat) (i : Nat) : Point :=
  match (ctx.bezier b).points[i]? with
  | some p => (ctx.cp p).pos
  | none => ⟨0, 0⟩

/-- The four corners of a curve, in index order. -/
def corners (ctx : RotoContext) (b : Nat) : List Point :=
  [corner ctx b 0, corner ctx b 1, corner ctx b 2, corner ctx b 3]

/-- The corners of the axis-aligned rectangle spanned by `p` and `q`, in the order of the
control points of a rectangle curve: `p`, then along x, then `q`, then along y. -/
def spannedCorners (p q : Point) : List Point :=
  [⟨p.x, p.y⟩, ⟨q.x, p.y⟩, ⟨q.x, q.y⟩, ⟨p.x, q.y⟩]

/-- The state of a rectangle under construction: the interaction state is
BUILDING_RECTANGLE, the selected-curve set holds the curve `b` alone, `b` has exactly four
control points (distinct, allocated objects), and a write to corners 1, 2 and 3 is
permitted at the current time (auto-keying is enabled or the corner is on a keyframe). -/
def BuildingRectangle (s : RotoGuiPrivate) (b : Nat) : Prop :=
  s.state = .BUILDING_RECTANGLE ∧ s.selectedBeziers = [b] ∧
    ∃ p0 p1 p2 p3, (s.context.bezier b).points = [p0, p1, p2, p3] ∧
      [p0, p1, p2, p3].Nodup ∧
      p1 < s.context.cps.length ∧ p2 < s.context.cps.length ∧ p3 < s.context.cps.length ∧
      s.context.writeAllowed p1 = true ∧ s.context.writeAllowed p2 = true ∧
      s.context.writeAllowed p3 = true

/-- The two events that remove points: a pointer press under REMOVE_POINTS and a Delete or
Backspace key press. -/
def removesPoints (s : RotoGuiPrivate) : Event → Bool
  | .penDown _ => decide (s.selectedTool = .REMOVE_POINTS)
  | .keyDown e => decide (e.key = .Key_Delete) || decide (e.key = .Key_Backspace)
  | _ => false

/-- The invariant of the removal loop of `keyDown` between the collection `ctx0` at its
start and the collection `ctx` after some passes, `toRemove` being `beziersToRemove`: the
render order is untouched; a curve is either untouched or has lost pairs and is open if it
is down to one pair; the curves queued for removal have no pair left. -/
def RemovalInv (ctx0 ctx : RotoContext) (toRemove : List Nat) : Prop :=
  ctx.curves = ctx0.curves ∧
    (∀ c, ctx.bezier c = ctx0.bezier c ∨
      (ctx.getControlPointsCount c < ctx0.getControlPointsCount c ∧
        (ctx.getControlPointsCount c = 1 → (ctx.bezier c).finished = false))) ∧
    (∀ c, c ∈ toRemove → ctx.getControlPointsCount c = 0)

/-! ## Example collections -/

/-- The state reached from the initial state on the collection `ctx` (pixel scale 1) by a
sequence of events, with the example geometry. -/
def stateFrom (ctx : RotoContext) (es : List Event) : RotoGuiPrivate :=
  (runState boxGeometry (initialState ctx (1, 1)) es).getD (initialState ctx (1, 1))

/-- The state reached from the initial state on an empty collection. -/
def stateAfter (es : List Event) : RotoGuiPrivate := stateFrom emptyContext es

/-- A key press with Shift held (the Shift key itself). -/
def shiftKey : Event :=
  .keyDown { key := .Key_Other, modifiers := { NoModifier with shift := true } }

/-- A point with a keyframe at the current time, both handles on the point. -/
def mkPoint (curve : Nat) (feather : Bool) (x y : ℚ) : BezierCP := newPoint curve feather x y true

/-- A collection with one shape, the finished rectangle (0,0), (10,0), (10,10), (0,10):
control points 0 to 3, feather points 4 to 7 on top of them. Auto-keying is off. -/
def rectangleContext : RotoContext :=
  { cps :=
      [mkPoint 0 false 0 0, mkPoint 0 false 10 0, mkPoint 0 false 10 10, mkPoint 0 false 0 10,
       mkPoint 0 true 0 0, mkPoint 0 true 10 0, mkPoint 0 true 10 10, mkPoint 0 true 0 10]
    beziers := [{ points := [0, 1, 2, 3], featherPoints := [4, 5, 6, 7], finished := true,
                  locked := false }]
    curves := [0]
    selection := []
    autoKeying := false
    featherLink := true
    rippleEdit := false
    keyOnCreate := true
    evaluateCount := 0 }

/-- The rectangle of `rectangleContext` seen at a time where its points have no keyframe,
auto-keying being off. -/
def unkeyedRectangleContext : RotoContext :=
  { rectangleContext with
    cps := rectangleContext.cps.map (fun c =>
      { c with onKeyframe := false, leftOnKeyframe := false, rightOnKeyframe := false }) }

/-- A rectangle under construction, (0,0), (10,0), (10,10), (0,10), the pointer at (10,10),
on `unkeyedRectangleContext`: auto-keying is off and the timeline is on a frame where the
corners have no keyframe. -/
def unkeyedRectangleState : RotoGuiPrivate :=
  { initialState unkeyedRectangleContext (1, 1) with
    selectedTool := .DRAW_RECTANGLE
    state := .BUILDING_RECTANGLE
    selectedBeziers := [0]
    lastClickPos := ⟨0, 0⟩
    lastMousePos := ⟨10, 10⟩
    evaluateOnPenUp := true }

/-- A collection with two shapes: the rectangle of `rectangleContext` and the same rectangle
moved by (100, 100) (control points 8 to 11, feather points 12 to 15). Nothing is selected. -/
def twoShapesContext : RotoContext :=
  { rectangleContext with
    cps := rectangleContext.cps ++
      [mkPoint 1 false 100 100, mkPoint 1 false 110 100, mkPoint 1 false 110 110,
       mkPoint 1 false 100 110,
       mkPoint 1 true 100 100, mkPoint 1 true 110 100, mkPoint 1 true 110 110,
       mkPoint 1 true 100 110]
    beziers := rectangleContext.beziers ++
      [{ points := [8, 9, 10, 11], featherPoints := [12, 13, 14, 15], finished := true,
         locked := false }]
    curves := [0, 1] }

/-- A collection with one selected open curve of two pairs whose feather points have been
dragged away from their control points: control points 0 at (0,0) and 1 at (200,0), feather
points 2 at (0,100) and 3 at (200,100). -/
def featherOffsetContext : RotoContext :=
  { cps := [mkPoint 0 false 0 0, mkPoint 0 false 200 0, mkPoint 0 true 0 100, mkPoint 0 true 200 100]
    beziers := [{ points := [0, 1], featherPoints := [2, 3], finished := false, locked := false }]
    curves := [0]
    selection := [0]
    autoKeying := true
    featherLink := true
    rippleEdit := false
    keyOnCreate := true
    evaluateCount := 0 }

/-- The collection of `featherOffsetContext` with the feather points at distance 40: control
points 0 at (0,0) and 1 at (200,0), feather points 2 at (0,40) and 3 at (200,40); the curve
is selected. -/
def featherBarContext : RotoContext :=
  { featherOffsetContext with
    cps := [mkPoint 0 false 0 0, mkPoint 0 false 200 0, mkPoint 0 true 0 40, mkPoint 0 true 200 40] }

/-- The rectangle of `rectangleContext`, locked, with auto-keying on. -/
def lockedRectangleContext : RotoContext :=
  { rectangleContext with
    beziers := [{ points := [0, 1, 2, 3], featherPoints := [4, 5, 6, 7], finished := true,
                  locked := true }]
    autoKeying := true }

/-- A key press of `k` with Control held. -/
def controlKey (k : Key) : Event :=
  .keyDown { key := k, modifiers := { NoModifier with control := true } }

/-- The state reached from `s` by a sequence of events with the example geometry (`s` itself
when a handler stops on a fault). -/
def stateOn (s : RotoGuiPrivate) (es : List Event) : RotoGuiPrivate :=
  (runState boxGeometry s es).getD s

/-- A selection that mixes a feather-flagged pair and a control-point pair, under
SELECT_POINTS, on `featherOffsetContext`: a click on feather point 2 at (0,100), away from
its control point, selects the pair (2,0); with Shift held a click on control point 1 at
(200,0) adds the pair (1,3). The state is DRAGGING_CPS, the pointer at (200,0). -/
def mixedSelectionState : RotoGuiPrivate :=
  stateFrom featherOffsetContext
    [.toolAction (actionOf .SELECT_POINTS), .penDown ⟨0, 100⟩, .penUp, shiftKey,
      .penDown ⟨200, 0⟩]

/-- The controller opened on `featherBarContext` after the pair (1,3) has been selected
under SELECT_ALL by a click on control point 1 at (200,0) and the button released; the
geometry is `barGeometry`. -/
def featherBarState : RotoGuiPrivate :=
  (runState barGeometry (initialState featherBarContext (1, 1))
    [.toolAction (actionOf .SELECT_ALL), .penDown ⟨200, 0⟩, .penUp]).getD
    (initialState featherBarContext (1, 1))

/-- The controller opened on `lockedRectangleContext`, whose curve is locked from the start,
under SELECT_ALL, after Ctrl+A twice, released: the first selects every curve, the second the
points of the selected curves. -/
def lockedSelectionState : RotoGuiPrivate :=
  stateFrom lockedRectangleContext
    [.toolAction (actionOf .SELECT_ALL), controlKey .Key_A, .keyUp ⟨.Key_A, NoModifier⟩,
      controlKey .Key_A, .keyUp ⟨.Key_A, NoModifier⟩]

/-- The rectangle of `rectangleContext` with the left handle of point 0 pulled out to
(-30,-30), away from the curve and its points. -/
def handleOffsetContext : RotoContext :=
  { rectangleContext with
    cps := updateNth rectangleContext.cps 0 (fun c => { c with left := ⟨-30, -30⟩ }) }

/-- The controller opened on `handleOffsetContext` under the tool `t`, after Ctrl+A twice,
released: the curve and its four pairs are selected. -/
def handleState (t : Roto_Tool) : RotoGuiPrivate :=
  stateFrom handleOffsetContext
    [.toolAction (actionOf t), controlKey .Key_A, .keyUp ⟨.Key_A, NoModifier⟩,
      controlKey .Key_A, .keyUp ⟨.Key_A, NoModifier⟩]

/-- The controller opened on `twoShapesContext` once the user has checked the sticky
selection button. -/
def stickyState : RotoGuiPrivate :=
  { initialState twoShapesContext (1, 1) with stickySelectionEnabled := true }

/-- The controller opened on `rectangleContext` under SELECT_CURVES, after a click on the
curve and Ctrl+A, released: the curve and its four pairs are selected. -/
def selectCurvesWithPointsState : RotoGuiPrivate :=
  stateFrom rectangleContext
    [.toolAction (actionOf .SELECT_CURVES), .penDown ⟨0, 0⟩, .penUp, controlKey .Key_A,
      .keyUp ⟨.Key_A, NoModifier⟩]

/-- The controller opened on `twoShapesContext` under SELECT_ALL after a click on control
point 10 at (110,110), released: the pair (10,14) is selected. -/
def selectedPointState : RotoGuiPrivate :=
  stateFrom twoShapesContext
    [.toolAction (actionOf .SELECT_ALL), .penDown ⟨110, 110⟩, .penUp]

/-- The controller on an empty collection after two DRAW_BEZIER clicks, at (0,0) and
(100,0), released: curve 0 is under construction with two pairs. -/
def twoPointCurveState : RotoGuiPrivate :=
  stateAfter [.penDown ⟨0, 0⟩, .penUp, .penDown ⟨100, 0⟩, .penUp]

/-- The handles `(left, right)` that `dragTangent` passes to `setPointLeftAndRightIndex` for
the sample `c` (lines 1023-1050): the dragged handle moved by the delta, the other one
recomputed from the point. -/
def draggedHandles (g : Geometry) (c : BezierCP) (dx dy : ℚ) (left : Bool) : Point × Point :=
  if left then
    (c.left.translate dx dy,
      ⟨c.pos.x + (g.oppositeHandle c.pos.x c.pos.y (c.left.translate dx dy).x
          (c.left.translate dx dy).y c.right.x c.right.y).x,
        c.pos.y + (g.oppositeHandle c.pos.x c.pos.y (c.left.translate dx dy).x
          (c.left.translate dx dy).y c.right.x c.right.y).y⟩)
  else
    (⟨c.pos.x + (g.oppositeHandle c.pos.x c.pos.y (c.right.translate dx dy).x
          (c.right.translate dx dy).y c.left.x c.left.y).x,
        c.pos.y + (g.oppositeHandle c.pos.x c.pos.y (c.right.translate dx dy).x
          (c.right.translate dx dy).y c.left.x c.left.y).y⟩,
      c.right.translate dx dy)

/-- The functions of the C math library that `dragTangent` calls, over the number type `R`
(`atan2` takes the ordinate first, as in C). -/
structure CMath (R : Type) where
  sqrt : R → R
  atan2 : R → R → R
  cos : R → R
  sin : R → R

/-- The values of a control point at the current time that `dragTangent` reads and writes,
over the number type `R`: the position and the two handles. -/
structure Sample (R : Type) where
  x : R
  y : R
  leftX : R
  leftY : R
  rightX : R
  rightY : R

/-- The body of `dragTangent` (lines 1021-1052) over the number type `R`, with the C functions
`m`: the sample of the point at the current time after the call. `isOnKeyframe` is the result
of the read of the left handle; `setPointLeftAndRightIndex` writes the two handles and leaves
the position. -/
def dragTangentOver {R : Type} [Add R] [Sub R] [Mul R] (m : CMath R) (p : Sample R)
    (isOnKeyframe : Bool) (dx dy : R) (left autoKeying : Bool) : Sample R :=
  let x := p.x
  let y := p.y
  let dist :=
    if left then m.sqrt ((p.rightX - x) * (p.rightX - x) + (p.rightY - y) * (p.rightY - y))
    else m.sqrt ((p.leftX - x) * (p.leftX - x) + (p.leftY - y) * (p.leftY - y))
  let leftX := if left then p.leftX + dx else p.leftX
  let leftY := if left then p.leftY + dy else p.leftY
  let rightX := if left then p.rightX else p.rightX + dx
  let rightY := if left then p.rightY else p.rightY + dy
  let alpha := if left then m.atan2 (y - leftY) (x - leftX) else m.atan2 (y - rightY) (x - rightX)
  if left then
    let rightX := m.cos alpha * dist
    let rightY := m.sin alpha * dist
    if autoKeying || isOnKeyframe then
      { p with leftX := leftX, leftY := leftY, rightX := x + rightX, rightY := y + rightY }
    else p
  else
    let leftX := m.cos alpha * dist
    let leftY := m.sin alpha * dist
    if autoKeying || isOnKeyframe then
      { p with leftX := x + leftX, leftY := y + leftY, rightX := rightX, rightY := rightY }
    else p

/-- The sample of a point of the collection. -/
def BezierCP.sample (c : BezierCP) : Sample ℚ :=
  ⟨c.pos.x, c.pos.y, c.left.x, c.left.y, c.right.x, c.right.y⟩

/-- The position, the left handle and the right handle of the control point of curve `b` at
index `i` (the origin when the curve has no such point). -/
def controlSample (ctx : RotoContext) (b : Nat) (i : Nat) : Point × Point × Point :=
  match (ctx.bezier b).points[i]? with
  | some p => ((ctx.cp p).pos, (ctx.cp p).left, (ctx.cp p).right)
  | none => (⟨0, 0⟩, ⟨0, 0⟩, ⟨0, 0⟩)

/-- The samples of the four control points of a curve, in index order. -/
def controlSamples (ctx : RotoContext) (b : Nat) : List (Point × Point × Point) :=
  [controlSample ctx b 0, controlSample ctx b 1, controlSample ctx b 2, controlSample ctx b 3]

/-- The midpoint of two points. -/
def midpoint (a b : Point) : Point := ⟨(a.x + b.x) / 2, (a.y + b.y) / 2⟩

/-- The point on the side from corner `a` to corner `b` of a rectangle that the ellipse is
to have: the midpoint of the side, with the left handle halfway to `a` and the right handle
halfway to `b`. -/
def sideSample (a b : Point) : Point × Point × Point :=
  (midpoint a b, midpoint (midpoint a b) a, midpoint (midpoint a b) b)

/-- The ellipse inscribed in the axis-aligned rectangle spanned by `p` and `q`: one point on
each side, the sides taken from `p` along x, then to `q` along y, then back along x, then
back to `p`. -/
def ellipseSamples (p q : Point) : List (Point × Point × Point) :=
  [sideSample ⟨p.x, p.y⟩ ⟨q.x, p.y⟩, sideSample ⟨q.x, p.y⟩ ⟨q.x, q.y⟩,
    sideSample ⟨q.x, q.y⟩ ⟨p.x, q.y⟩, sideSample ⟨p.x, q.y⟩ ⟨p.x, p.y⟩]

/-- The state of an ellipse under construction: the interaction state is BUILDING_ELLIPSE,
the curve under construction is `b`, `b` has exactly four control points (distinct, allocated
objects), and a write to each of them is permitted at the current time (auto-keying is enabled
or the point is on a keyframe). -/
def BuildingEllipse (s : RotoGuiPrivate) (b : Nat) : Prop :=
  s.state = .BUILDING_ELLIPSE ∧ s.builtBezier = some b ∧
    ∃ p0 p1 p2 p3, (s.context.bezier b).points = [p0, p1, p2, p3] ∧
      [p0, p1, p2, p3].Nodup ∧
      p0 < s.context.cps.length ∧ p1 < s.context.cps.length ∧
      p2 < s.context.cps.length ∧ p3 < s.context.cps.length ∧
      s.context.writeAllowed p0 = true ∧ s.context.writeAllowed p1 = true ∧
      s.context.writeAllowed p2 = true ∧ s.context.writeAllowed p3 = true

/-- A sequence of writes, each under the auto-key policy, applied in order; a write is the
pointer of the point and the update of its sample. -/
def RotoContext.writePoints (ctx : RotoContext) (ws : List (Nat × (BezierCP → BezierCP))) :
    RotoContext :=
  ws.foldl (fun c w => c.writePoint w.1 w.2) ctx

/-- The four moves of BUILDING_ELLIPSE (lines 1501-1511) as writes to the points `p0 .. p3`
of the curve. -/
def ellipseMoves (p0 p1 p2 p3 : Nat) (dx dy : ℚ) : List (Nat × (BezierCP → BezierCP)) :=
  [(p0, fun c =>
      { c with
        pos := c.pos.translate (dx / 2) 0
        left := c.left.translate (dx / 2) 0
        right := c.right.translate (dx / 2) 0
        onKeyframe := true }),
    (p1, fun c =>
      { c with
        pos := c.pos.translate dx (dy / 2)
        left := c.left.translate dx (dy / 2)
        right := c.right.translate dx (dy / 2)
        onKeyframe := true }),
    (p2, fun c =>
      { c with
        pos := c.pos.translate (dx / 2) dy
        left := c.left.translate (dx / 2) dy
        right := c.right.translate (dx / 2) dy
        onKeyframe := true }),
    (p3, fun c =>
      { c with
        pos := c.pos.translate 0 (dy / 2)
        left := c.left.translate 0 (dy / 2)
        right := c.right.translate 0 (dy / 2)
        onKeyframe := true })]

/-- The eight handle writes of lines 1519-1529 as writes to the points `p0 .. p3` of the
curve, from the positions read in `ctx` at lines 1513-1517. -/
def ellipseTangentWrites (ctx : RotoContext) (p0 p1 p2 p3 : Nat) :
    List (Nat × (BezierCP → BezierCP)) :=
  [(p0, fun c =>
      { c with
        left := ⟨((ctx.cp p3).pos.x + (ctx.cp p0).pos.x) / 2, (ctx.cp p0).pos.y⟩
        leftOnKeyframe := true }),
    (p0, fun c =>
      { c with
        right := ⟨((ctx.cp p1).pos.x + (ctx.cp p0).pos.x) / 2, (ctx.cp p0).pos.y⟩
        rightOnKeyframe := true }),
    (p1, fun c =>
      { c with
        left := ⟨(ctx.cp p1).pos.x, ((ctx.cp p1).pos.y + (ctx.cp p0).pos.y) / 2⟩
        leftOnKeyframe := true }),
    (p1, fun c =>
      { c with
        right := ⟨(ctx.cp p1).pos.x, ((ctx.cp p1).pos.y + (ctx.cp p2).pos.y) / 2⟩
        rightOnKeyframe := true }),
    (p2, fun c =>
      { c with
        left := ⟨((ctx.cp p1).pos.x + (ctx.cp p2).pos.x) / 2, (ctx.cp p2).pos.y⟩
        leftOnKeyframe := true }),
    (p2, fun c =>
      { c with
        right := ⟨((ctx.cp p3).pos.x + (ctx.cp p2).pos.x) / 2, (ctx.cp p2).pos.y⟩
        rightOnKeyframe := true }),
    (p3, fun c =>
      { c with
        left := ⟨(ctx.cp p3).pos.x, ((ctx.cp p2).pos.y + (ctx.cp p3).pos.y) / 2⟩
        leftOnKeyframe := true }),
    (p3, fun c =>
      { c with
        right := ⟨(ctx.cp p3).pos.x, ((ctx.cp p0).pos.y + (ctx.cp p3).pos.y) / 2⟩
        rightOnKeyframe := true })]

/-- The example geometry for curves that run along the y axis: the normal at a control
point is the x direction, so the feather point expanded to distance `d` is the control point
moved by `d` along x; the displacement is counted from the feather point passed in. The
other queries are those of `boxGeometry`. -/
def sideGeometry : Geometry :=
  { boxGeometry with
    expandToFeatherDistance := fun _ctx _p cp fp d =>
      (⟨cp.x + d - fp.x, cp.y - fp.y⟩, ⟨cp.x + d, cp.y⟩) }

/-- A collection with one selected open curve of two pairs along the y axis: control points
0 at (0,0) and 1 at (0,200), feather points 2 at (40,0) and 3 at (40,200). -/
def sideBarContext : RotoContext :=
  { featherOffsetContext with
    cps := [mkPoint 0 false 0 0, mkPoint 0 false 0 200, mkPoint 0 true 40 0, mkPoint 0 true 40 200] }

/-- The controller opened on `sideBarContext` after the pair (1,3) has been selected under
SELECT_ALL by a click on control point 1 at (0,200) and the button released; the geometry is
`sideGeometry`. -/
def sideBarState : RotoGuiPrivate :=
  (runState sideGeometry (initialState sideBarContext (1, 1))
    [.toolAction (actionOf .SELECT_ALL), .penDown ⟨0, 200⟩, .penUp]).getD
    (initialState sideBarContext (1, 1))

/-! ## Mouse buttons and modifiers (Gui/GuiMacros.h) -/

/-- Qt's `Qt::NoModifier` (the flag values are those of the Qt headers). -/
def Qt.NoModifier : Nat := 0x00000000

/-- Qt's `Qt::ShiftModifier`. -/
def Qt.ShiftModifier : Nat := 0x02000000

/-- Qt's `Qt::ControlModifier`. -/
def Qt.ControlModifier : Nat := 0x04000000

/-- Qt's `Qt::AltModifier`. -/
def Qt.AltModifier : Nat := 0x08000000

/-- Qt's `Qt::MetaModifier`. -/
def Qt.MetaModifier : Nat := 0x10000000

/-- Qt's `Qt::LeftButton`. -/
def Qt.LeftButton : Nat := 0x00000001

/-- Qt's `Qt::RightButton`. -/
def Qt.RightButton : Nat := 0x00000002

/-- Qt's `Qt::MiddleButton`. -/
def Qt.MiddleButton : Nat := 0x00000004

/-- The part of a `QMouseEvent` the macros read: the button that caused the event, the
buttons held down, and the keyboard modifiers, as bit masks. -/
structure QMouseEvent where
  button : Nat
  buttons : Nat
  modifiers : Nat
deriving DecidableEq, Repr

/-- The macro `buttonControlAlt` (line 36, the branch that is compiled). -/
def buttonControlAlt (e : QMouseEvent) : Nat :=
  e.modifiers &&& (Qt.MetaModifier ||| Qt.AltModifier)

/-- The macro `buttonDownIsLeft` (line 43). -/
def buttonDownIsLeft (e : QMouseEvent) : Bool :=
  decide (e.buttons = Qt.LeftButton) && decide (buttonControlAlt e = Qt.NoModifier)

/-- The macro `buttonDownIsRight` (lines 52-53, the branch that is compiled). -/
def buttonDownIsRight (e : QMouseEvent) : Bool :=
  (decide (e.buttons = Qt.RightButton) && decide (buttonControlAlt e = Qt.NoModifier)) ||
    (decide (e.buttons = Qt.LeftButton) && decide (buttonControlAlt e = Qt.MetaModifier))

/-- The macro `triggerButtonisLeft` (line 57). -/
def triggerButtonisLeft (e : QMouseEvent) : Bool :=
  decide (e.button = Qt.LeftButton) && decide (buttonControlAlt e = Qt.NoModifier)

/-- The macro `triggerButtonisRight` (lines 58-59). -/
def triggerButtonisRight (e : QMouseEvent) : Bool :=
  decide (e.button = Qt.RightButton) ||
    (decide (e.button = Qt.LeftButton) && decide (buttonControlAlt e = Qt.ControlModifier))

/-- The macro `buttonDownIsMiddle` (lines 62-63). -/
def buttonDownIsMiddle (e : QMouseEvent) : Bool :=
  (decide (e.buttons = Qt.MiddleButton) && decide (buttonControlAlt e = Qt.NoModifier)) ||
    (decide (e.buttons = Qt.LeftButton) && decide (buttonControlAlt e = Qt.AltModifier))

/-- The macro `triggerButtonisMiddle` (lines 67-68). -/
def triggerButtonisMiddle (e : QMouseEvent) : Bool :=
  decide (e.button = Qt.MiddleButton) ||
    (decide (e.button = Qt.LeftButton) && decide (buttonControlAlt e = Qt.AltModifier))

/-! ## The EXR writer (Writers/ExrEncoder.cpp)

The `int` values are integers; the sums and differences the code makes on them go through
`wrapInt`. -/

/-- The integer rectangle `RectI` of Engine/Rect.h. That header is not under src/ and the
spec does not describe it; the accessors are taken as `render` uses them (the loops of lines
223 and 236 run from `bottom()` up to `top()` and over `width()` columns from `left()`):
`x1` is `left()`, `y1` is `bottom()`, `x2` is `right()`, `y2` is `top()`, both upper bounds
excluded. -/
structure RectI where
  x1 : Int
  y1 : Int
  x2 : Int
  y2 : Int
deriving DecidableEq, Repr

/-- `RectI::left()`. -/
def RectI.left (r : RectI) : Int := r.x1

/-- `RectI::bottom()`. -/
def RectI.bottom (r : RectI) : Int := r.y1

/-- `RectI::right()`. -/
def RectI.right (r : RectI) : Int := r.x2

/-- `RectI::top()`. -/
def RectI.top (r : RectI) : Int := r.y2

/-- `RectI::width()`. -/
def RectI.width (r : RectI) : Int := wrapInt (r.x2 - r.x1)

/-- `RectI::height()`. -/
def RectI.height (r : RectI) : Int := wrapInt (r.y2 - r.y1)

/-- The vector `Imath::V2i`. -/
structure V2i where
  x : Int
  y : Int
deriving DecidableEq, Repr

/-- The box `Imath::Box2i`: both corners belong to the box. -/
structure Box2i where
  min : V2i
  max : V2i
deriving DecidableEq, Repr

/-- The data window and the display window computed by `ExrEncoder::setupFile`
(lines 306-316). -/
def setupFile (rod : RectI) : Box2i × Box2i :=
  let exrDataW : Box2i :=
    { min := { x := rod.left, y := wrapInt (rod.height - rod.top) }
      max := { x := wrapInt (rod.right - 1), y := wrapInt (wrapInt (rod.height - rod.bottom) - 1) } }
  let exrDispW : Box2i :=
    { min := { x := 0, y := 0 }
      max := { x := wrapInt (rod.width - 1), y := wrapInt (rod.height - 1) } }
  (exrDataW, exrDispW)

/-- The conversion loop of the 16-bit mode of `ExrEncoder::render` (lines 275-277) for one
channel, from column `i`, with `n` passes left: entry `i - exrDataW.min.x` of the half row is
written from entry `i` of the float row. The half row is the list of its entries, `none` for
an entry that has not been written; a write outside the row gives no result. The rounding to
`half` is left out: the entry holds the value read. -/
def convertColumns (minX : Int) (row : Int → ℚ) :
    Nat → Int → List (Option ℚ) → Option (List (Option ℚ))
  | 0, _, halfwriterow => some halfwriterow
  | n + 1, i, halfwriterow =>
    if 0 ≤ wrapInt (i - minX) ∧ (wrapInt (i - minX)).toNat < halfwriterow.length then
      convertColumns minX row n (wrapInt (i + 1))
        (halfwriterow.set (wrapInt (i - minX)).toNat (some (row i)))
    else none

/-- The half row of one channel in the 16-bit mode of `ExrEncoder::render` (lines 266-277),
as it is when the scan-line is written: a fresh row of `roi.width()` entries, then the loop
`for (i = exrDataW.min.x; i < exrDataW.max.x; ++i)`. -/
def convertRow (exrDataW : Box2i) (roi : RectI) (row : Int → ℚ) : Option (List (Option ℚ)) :=
  convertColumns exrDataW.min.x row (exrDataW.max.x - exrDataW.min.x).toNat exrDataW.min.x
    (List.replicate roi.width.toNat none)

/-! # Theorems -/

/-! ## Heap lemmas -/

theorem getElem?_updateNth {α : Type} (l : List α) (i j : Nat) (f : α → α) :
    (updateNth l i f)[j]? = if i = j then (l[j]?).map f else l[j]? := by
  unfold updateNth
  by_cases hij : i = j
  · subst hij
    cases h : l[i]? with
    | none => simp [h]
    | some a =>
      have hlt : i < l.length := by
        rcases List.getElem?_eq_some_iff.mp h with ⟨hlt, _⟩
        exact hlt
      simp [List.getElem?_set_self hlt]
  · cases h : l[i]? with
    | none => simp [hij]
    | some a => simp [hij, List.getElem?_set_ne hij]

theorem length_updateNth {α : Type} (l : List α) (i : Nat) (f : α → α) :
    (updateNth l i f).length = l.length := by
  unfold updateNth
  cases h : l[i]? <;> simp

/-- Reading a curve after `setCurveFinished`. -/
theorem bezier_setCurveFinished (ctx : RotoContext) (b c : Nat) (v : Bool) :
    (ctx.setCurveFinished b v).bezier c =
      if b = c ∧ c < ctx.beziers.length then { ctx.bezier c with finished := v }
      else ctx.bezier c := by
  simp only [RotoContext.setCurveFinished, RotoContext.bezier, getElem?_updateNth]
  by_cases hbc : b = c
  · subst hbc
    by_cases hlt : b < ctx.beziers.length
    · simp [hlt, List.getElem?_eq_getElem hlt]
    · simp [hlt, List.getElem?_eq_none (Nat.le_of_not_lt hlt)]
  · simp [hbc]

/-- Reading a curve after a write to the curve heap. -/
theorem bezier_updateNth (ctx : RotoContext) (l : List Bezier) (b c : Nat) (f : Bezier → Bezier)
    (hl : l = updateNth ctx.beziers b f) :
    ({ ctx with beziers := l } : RotoContext).bezier c =
      if b = c ∧ c < ctx.beziers.length then f (ctx.bezier c) else ctx.bezier c := by
  subst hl
  simp only [RotoContext.bezier, getElem?_updateNth]
  by_cases hbc : b = c
  · subst hbc
    by_cases hlt : b < ctx.beziers.length
    · simp [hlt, List.getElem?_eq_getElem hlt]
    · simp [hlt, List.getElem?_eq_none (Nat.le_of_not_lt hlt)]
  · simp [hbc]

/-- What a successful `removeControlPointByIndex` does to the collection. -/
theorem removeControlPointByIndex_ok (ctx ctx1 : RotoContext) (b : Nat) (index : Int)
    (h : ctx.removeControlPointByIndex b index = .ok ctx1) :
    ctx1.curves = ctx.curves ∧ ctx1.selection = ctx.selection ∧
      ctx1.beziers.length = ctx.beziers.length ∧
      (∀ c, c ≠ b → ctx1.bezier c = ctx.bezier c) ∧
      ctx1.getControlPointsCount b + 1 = ctx.getControlPointsCount b ∧
      (ctx1.bezier b).finished = (ctx.bezier b).finished ∧
      b < ctx.beziers.length := by
  unfold RotoContext.removeControlPointByIndex at h
  by_cases hv : ctx.validIndex b index = true
  · simp only [hv, if_true, Except.ok.injEq] at h
    subst h
    simp only [RotoContext.validIndex, Bool.and_eq_true, decide_eq_true_eq] at hv
    have hb : b < ctx.beziers.length := by
      by_contra hcon
      have : ctx.bezier b = Bezier.empty := by
        simp [RotoContext.bezier, List.getElem?_eq_none (Nat.le_of_not_lt hcon)]
      rw [this] at hv
      simp [Bezier.empty] at hv
    refine ⟨rfl, rfl, by simp [length_updateNth], ?_, ?_, ?_, hb⟩
    · intro c hc
      rw [bezier_updateNth ctx _ b c _ rfl]
      simp [Ne.symm hc]
    · simp only [RotoContext.getControlPointsCount]
      rw [bezier_updateNth ctx _ b b _ rfl]
      simp only [hb, and_self, if_true]
      rw [List.length_eraseIdx_of_lt hv.2]
      have := hv.2
      omega
    · rw [bezier_updateNth ctx _ b b _ rfl]
      simp [hb]
  · simp [hv] at h

theorem findSome?_const_none {α β : Type} (l : List α) (f : α → Option β)
    (hf : ∀ a, f a = none) : l.findSome? f = none := by
  induction l with
  | nil => rfl
  | cons a rest ih => simp [List.findSome?, hf a, ih]

theorem computeSelectedCpsBBOX_context (s : RotoGuiPrivate) :
    (computeSelectedCpsBBOX s).context = s.context := rfl

theorem removeItem_context (s : RotoGuiPrivate) (b : Nat) :
    (removeItem s b).context = s.context.removeItem b := by
  simp [removeItem, onSelectionChanged]

theorem foldl_removeItem_context (l : List Nat) (s : RotoGuiPrivate) :
    (l.foldl removeItem s).context = l.foldl RotoContext.removeItem s.context := by
  induction l generalizing s with
  | nil => rfl
  | cons b rest ih => simp [List.foldl, ih, removeItem_context]

theorem foldl_removeItem_beziers (l : List Nat) (ctx : RotoContext) :
    (l.foldl RotoContext.removeItem ctx).beziers = ctx.beziers := by
  induction l generalizing ctx with
  | nil => rfl
  | cons b rest ih => simp [List.foldl, ih, RotoContext.removeItem]

theorem foldl_removeItem_curves (l : List Nat) (ctx : RotoContext) (c : Nat) :
    c ∈ (l.foldl RotoContext.removeItem ctx).curves ↔ c ∈ ctx.curves ∧ c ∉ l := by
  induction l generalizing ctx with
  | nil => simp
  | cons b rest ih =>
    simp only [List.foldl, ih, RotoContext.removeItem, List.mem_filter, List.mem_cons, not_or]
    constructor
    · rintro ⟨⟨h1, h2⟩, h3⟩
      exact ⟨h1, by simpa using h2, h3⟩
    · rintro ⟨h1, h2, h3⟩
      exact ⟨⟨h1, by simpa using h2⟩, h3⟩

/-- Under REMOVE_POINTS no tangent handle is tested and `penDown` is its REMOVE_POINTS
case. -/
theorem penDown_removePoints (g : Geometry) (s : RotoGuiPrivate) (pos : Point)
    (h : s.selectedTool = .REMOVE_POINTS) :
    penDown g s pos = (penDownRemovePoints s (hitTest g s pos)).map (recordClick pos) := by
  unfold penDown tangentHit
  have hnone : ∀ tol, s.selectedCps.findSome? (tangentSelection g s pos tol) = none := by
    intro tol
    apply findSome?_const_none
    intro a
    simp [tangentSelection, h]
  simp [h, hnone]

/-- The invariant after the removal of one pair, when nothing more is done to the curve:
it holds as soon as the curve is not left with exactly one pair. -/
theorem removal_inv_plain (ctx0 ctx ctx1 : RotoContext) (toRemove : List Nat) (curve : Nat)
    (index : Int) (hrm : ctx.removeControlPointByIndex curve index = .ok ctx1)
    (hinv : RemovalInv ctx0 ctx toRemove) (hcount : ctx1.getControlPointsCount curve ≠ 1) :
    RemovalInv ctx0 ctx1 toRemove := by
  obtain ⟨hc, _, _, hne, hcnt, _, _⟩ := removeControlPointByIndex_ok ctx ctx1 curve index hrm
  obtain ⟨h1, h2, h3⟩ := hinv
  have hle : ctx.getControlPointsCount curve ≤ ctx0.getControlPointsCount curve := by
    rcases h2 curve with h | h
    · simp [RotoContext.getControlPointsCount, h]
    · exact Nat.le_of_lt h.1
  refine ⟨hc.trans h1, ?_, ?_⟩
  · intro c
    by_cases hcc : c = curve
    · subst hcc
      right
      exact ⟨by omega, fun h => absurd h hcount⟩
    · simp only [RotoContext.getControlPointsCount, hne c hcc]
      exact h2 c
  · intro c hmem
    have hcc : c ≠ curve := by
      intro heq
      subst heq
      have := h3 c hmem
      omega
    simp only [RotoContext.getControlPointsCount, hne c hcc]
    exact h3 c hmem

/-- The invariant after the removal of one pair that leaves exactly one: the caller opens
the curve. -/
theorem removal_inv_open (ctx0 ctx ctx1 : RotoContext) (toRemove : List Nat) (curve : Nat)
    (index : Int) (hrm : ctx.removeControlPointByIndex curve index = .ok ctx1)
    (hinv : RemovalInv ctx0 ctx toRemove) :
    RemovalInv ctx0 (ctx1.setCurveFinished curve false) toRemove := by
  obtain ⟨hc, _, hlen, hne, hcnt, _, hlt⟩ := removeControlPointByIndex_ok ctx ctx1 curve index hrm
  obtain ⟨h1, h2, h3⟩ := hinv
  have hle : ctx.getControlPointsCount curve ≤ ctx0.getControlPointsCount curve := by
    rcases h2 curve with h | h
    · simp [RotoContext.getControlPointsCount, h]
    · exact Nat.le_of_lt h.1
  refine ⟨hc.trans h1, ?_, ?_⟩
  · intro c
    by_cases hcc : c = curve
    · subst hcc
      right
      have hlt1 : c < ctx1.beziers.length := by rw [hlen]; exact hlt
      simp only [RotoContext.getControlPointsCount, bezier_setCurveFinished, hlt1, and_self,
        if_true]
      simp only [RotoContext.getControlPointsCount] at hcnt hle
      exact ⟨by omega, fun _ => trivial⟩
    · have hcc2 : ¬ (curve = c ∧ c < ctx1.beziers.length) := fun h => hcc h.1.symm
      simp only [RotoContext.getControlPointsCount, bezier_setCurveFinished, hcc2, if_false,
        hne c hcc]
      exact h2 c
  · intro c hmem
    have hcc : c ≠ curve := by
      intro heq
      subst heq
      have := h3 c hmem
      omega
    have hcc2 : ¬ (curve = c ∧ c < ctx1.beziers.length) := fun h => hcc h.1.symm
    simp only [RotoContext.getControlPointsCount, bezier_setCurveFinished, hcc2, if_false,
      hne c hcc]
    exact h3 c hmem

/-- The invariant after the removal of the last pair of a curve, which is queued for
removal. -/
theorem removal_inv_queue (ctx0 ctx ctx1 : RotoContext) (toRemove : List Nat) (curve : Nat)
    (index : Int) (hrm : ctx.removeControlPointByIndex curve index = .ok ctx1)
    (hinv : RemovalInv ctx0 ctx toRemove) (hcount : ctx1.getControlPointsCount curve = 0) :
    RemovalInv ctx0 ctx1 (toRemove ++ [curve]) := by
  obtain ⟨h1, h2, h3⟩ :=
    removal_inv_plain ctx0 ctx ctx1 toRemove curve index hrm hinv (by omega)
  refine ⟨h1, h2, ?_⟩
  intro c hmem
  rcases List.mem_append.mp hmem with h | h
  · exact h3 c h
  · rw [List.mem_singleton.mp h]
    exact hcount

/-- One pass of the removal loop keeps its invariant. -/
theorem deleteSelectedCp_inv (ctx0 : RotoContext) (s s1 : RotoGuiPrivate)
    (toRemove toRemove1 : List Nat) (it : SelectedCP)
    (h : deleteSelectedCp s toRemove it = .ok (s1, toRemove1))
    (hinv : RemovalInv ctx0 s.context toRemove) :
    RemovalInv ctx0 s1.context toRemove1 := by
  unfold deleteSelectedCp at h
  simp only [] at h
  split at h
  · exact absurd h (by simp)
  · rename_i ctx1 hrm
    by_cases h1 : ctx1.getControlPointsCount (s.context.cp it.1).curve = 1
    · simp only [h1, if_true, Except.ok.injEq, Prod.mk.injEq] at h
      obtain ⟨hs, ht⟩ := h
      subst hs ht
      exact removal_inv_open ctx0 s.context ctx1 toRemove _ _ hrm hinv
    · by_cases h0 : ctx1.getControlPointsCount (s.context.cp it.1).curve = 0
      · have h01 : ¬ ((0 : Nat) = 1) := by decide
        simp only [h0, h01, if_true, if_false, Except.ok.injEq, Prod.mk.injEq] at h
        obtain ⟨hs, ht⟩ := h
        subst hs ht
        exact removal_inv_queue ctx0 s.context ctx1 toRemove _ _ hrm hinv h0
      · simp only [h1, h0, if_false, Except.ok.injEq, Prod.mk.injEq] at h
        obtain ⟨hs, ht⟩ := h
        subst hs ht
        exact removal_inv_plain ctx0 s.context ctx1 toRemove _ _ hrm hinv h1

/-- The removal loop keeps its invariant. -/
theorem deleteSelectedCps_inv (ctx0 : RotoContext) (l : List SelectedCP) :
    ∀ (s s1 : RotoGuiPrivate) (toRemove toRemove1 : List Nat),
      deleteSelectedCps s toRemove l = .ok (s1, toRemove1) →
      RemovalInv ctx0 s.context toRemove → RemovalInv ctx0 s1.context toRemove1 := by
  induction l with
  | nil =>
    intro s s1 toRemove toRemove1 h hinv
    simp only [deleteSelectedCps, Except.ok.injEq, Prod.mk.injEq] at h
    obtain ⟨hs, ht⟩ := h
    subst hs ht
    exact hinv
  | cons it rest ih =>
    intro s s1 toRemove toRemove1 h hinv
    simp only [deleteSelectedCps] at h
    split at h
    · exact absurd h (by simp)
    · rename_i s2 toRemove2 hstep
      exact ih s2 s1 toRemove2 toRemove1 h
        (deleteSelectedCp_inv ctx0 s s2 toRemove toRemove2 it hstep hinv)

/-- The loop over the selected curves only takes curves out of the collection: the curve
heap is untouched. -/
theorem deleteSelectedBeziers_beziers (fuel : Nat) :
    ∀ (s s1 : RotoGuiPrivate), deleteSelectedBeziers fuel s = some s1 →
      s1.context.beziers = s.context.beziers := by
  induction fuel with
  | zero =>
    intro s s1 h
    simp only [deleteSelectedBeziers] at h
    split at h
    · simp only [Option.some.injEq] at h
      rw [← h]
    · exact absurd h (by simp)
  | succ n ih =>
    intro s s1 h
    simp only [deleteSelectedBeziers] at h
    split at h
    · simp only [Option.some.injEq] at h
      rw [← h]
    · rw [ih _ s1 h]
      simp [removeItem_context, RotoContext.removeItem]

/-- The conclusion drawn from the invariant once the queued curves have left the
collection. -/
theorem removal_final (ctx0 ctx1 ctx2 : RotoContext) (toRemove : List Nat) (c : Nat)
    (hinv : RemovalInv ctx0 ctx1 toRemove)
    (hb : ctx2.beziers = ctx1.beziers)
    (hc : ctx2.curves = (toRemove.foldl RotoContext.removeItem ctx1).curves)
    (hless : ctx2.getControlPointsCount c < ctx0.getControlPointsCount c)
    (hone : ctx2.getControlPointsCount c = 1) :
    ctx2.isCurveFinished c = false ∧ (c ∈ ctx0.curves → c ∈ ctx2.curves) := by
  obtain ⟨h1, h2, h3⟩ := hinv
  have hbz : ctx2.bezier c = ctx1.bezier c := by simp [RotoContext.bezier, hb]
  simp only [RotoContext.getControlPointsCount, RotoContext.isCurveFinished, hbz] at *
  constructor
  · rcases h2 c with h | h
    · rw [h] at hless
      exact absurd hless (Nat.lt_irrefl _)
    · exact h.2 hone
  · intro hmem
    rw [hc, foldl_removeItem_curves, h1]
    refine ⟨hmem, ?_⟩
    intro hin
    have := h3 c hin
    omega

theorem removalInv_refl (ctx : RotoContext) : RemovalInv ctx ctx [] :=
  ⟨rfl, fun _ => Or.inl rfl, fun _ h => absurd h (List.not_mem_nil _)⟩

/-- The REMOVE_POINTS case of `penDown`: the collection after it is related to the
collection before it as by one pass of the removal loop followed by the removal of the
queued curve. -/
theorem penDownRemovePoints_inv (s : RotoGuiPrivate) (ht : HitTest) (r : Bool × RotoGuiPrivate)
    (h : penDownRemovePoints s ht = .ok r) :
    ∃ ctx1 toRemove, RemovalInv s.context ctx1 toRemove ∧ r.2.context.beziers = ctx1.beziers ∧
      r.2.context.curves = (toRemove.foldl RotoContext.removeItem ctx1).curves := by
  unfold penDownRemovePoints at h
  split at h
  · simp only [Except.ok.injEq] at h
    subst h
    exact ⟨s.context, [], removalInv_refl _, rfl, rfl⟩
  · rename_i p hp
    simp only [] at h
    split at h
    · exact absurd h (by simp)
    · split at h
      · exact absurd h (by simp)
      · rename_i ctx1 hrm
        simp only [Except.ok.injEq] at h
        subst h
        by_cases h1 : ctx1.getControlPointsCount (s.context.cp p.1).curve = 1
        · refine ⟨_, [], removal_inv_open s.context s.context ctx1 [] _ _ hrm
            (removalInv_refl _), ?_, ?_⟩ <;>
            simp [h1, computeSelectedCpsBBOX_context]
        · by_cases h0 : ctx1.getControlPointsCount (s.context.cp p.1).curve = 0
          · have h01 : ¬ ((0 : Nat) = 1) := by decide
            refine ⟨ctx1, [] ++ [_], removal_inv_queue s.context s.context ctx1 [] _ _ hrm
              (removalInv_refl _) h0, ?_, ?_⟩ <;>
              simp [h0, h01, computeSelectedCpsBBOX_context, removeItem_context,
                RotoContext.removeItem]
          · refine ⟨ctx1, [], removal_inv_plain s.context s.context ctx1 [] _ _ hrm
              (removalInv_refl _) h1, ?_, ?_⟩ <;>
              simp [h1, h0, computeSelectedCpsBBOX_context]

/-- The Delete branch of `keyDown`: either the curve heap is untouched, or the collection
after it is related to the collection before it by the removal loop followed by the removal
of the queued curves. -/
theorem keyDownDelete_inv (s : RotoGuiPrivate) (r : Bool × RotoGuiPrivate)
    (h : keyDownDelete s = .ok r) :
    r.2.context.beziers = s.context.beziers ∨
      ∃ ctx1 toRemove, RemovalInv s.context ctx1 toRemove ∧
        r.2.context.beziers = ctx1.beziers ∧
        r.2.context.curves = (toRemove.foldl RotoContext.removeItem ctx1).curves := by
  unfold keyDownDelete at h
  split at h
  · split at h
    · exact absurd h (by simp)
    · rename_i s1 toRemove hloop
      simp only [Except.ok.injEq] at h
      subst h
      right
      refine ⟨s1.context, toRemove,
        deleteSelectedCps_inv s.context s.selectedCps s s1 [] toRemove hloop (removalInv_refl _),
        ?_, ?_⟩
      · simp [computeSelectedCpsBBOX_context, RotoContext.evaluateChange,
          foldl_removeItem_context, foldl_removeItem_beziers]
      · simp [computeSelectedCpsBBOX_context, RotoContext.evaluateChange,
          foldl_removeItem_context]
  · split at h
    · split at h
      · exact absurd h (by simp)
      · rename_i s1 hloop
        simp only [Except.ok.injEq] at h
        subst h
        left
        simp [RotoContext.evaluateChange, deleteSelectedBeziers_beziers _ s s1 hloop]
    · simp only [Except.ok.injEq] at h
      subst h
      left
      rfl

/-- A run of one event that ends in a state is a successful step. -/
theorem step_of_runState (g : Geometry) (s s' : RotoGuiPrivate) (ev : Event)
    (h : runState g s [ev] = some s') : step g s ev = .ok s' := by
  simp only [runState, run] at h
  cases hs : step g s ev with
  | error f => simp [hs] at h
  | ok s1 =>
    simp only [hs, Option.some.injEq] at h
    rw [h]

/-! ## Point writes -/

/-- Reading a point after a write under the auto-key policy. -/
theorem cp_writePoint (ctx : RotoContext) (p q : Nat) (f : BezierCP → BezierCP) :
    (ctx.writePoint p f).cp q =
      if p = q ∧ q < ctx.cps.length ∧ ctx.writeAllowed p = true then f (ctx.cp q)
      else ctx.cp q := by
  unfold RotoContext.writePoint
  by_cases hw : ctx.writeAllowed p = true
  · simp only [hw, if_true, RotoContext.cp, getElem?_updateNth]
    by_cases hpq : p = q
    · subst hpq
      by_cases hlt : p < ctx.cps.length
      · simp [hlt, List.getElem?_eq_getElem hlt]
      · simp [hlt, List.getElem?_eq_none (Nat.le_of_not_lt hlt)]
    · simp [hpq]
  · simp [hw]

theorem writePoint_frame (ctx : RotoContext) (p : Nat) (f : BezierCP → BezierCP) :
    (ctx.writePoint p f).beziers = ctx.beziers ∧ (ctx.writePoint p f).curves = ctx.curves ∧
      (ctx.writePoint p f).selection = ctx.selection ∧
      (ctx.writePoint p f).autoKeying = ctx.autoKeying ∧
      (ctx.writePoint p f).cps.length = ctx.cps.length := by
  unfold RotoContext.writePoint
  split <;> simp [length_updateNth]

theorem bezier_writePoint (ctx : RotoContext) (p b : Nat) (f : BezierCP → BezierCP) :
    (ctx.writePoint p f).bezier b = ctx.bezier b := by
  simp [RotoContext.bezier, (writePoint_frame ctx p f).1]

/-- A write that removes no keyframe of the position curve never takes the permission to
write away. -/
theorem writeAllowed_writePoint (ctx : RotoContext) (p q : Nat) (f : BezierCP → BezierCP)
    (hf : ∀ c, c.onKeyframe = true → (f c).onKeyframe = true)
    (h : ctx.writeAllowed q = true) : (ctx.writePoint p f).writeAllowed q = true := by
  simp only [RotoContext.writeAllowed, Bool.or_eq_true] at h ⊢
  rw [(writePoint_frame ctx p f).2.2.2.1, cp_writePoint]
  by_cases ha : ctx.autoKeying = true
  · exact Or.inl ha
  · right
    split
    · rename_i hc
      obtain ⟨hpq, -, hw⟩ := hc
      subst hpq
      simp only [RotoContext.writeAllowed, Bool.or_eq_true] at hw
      rcases hw with hw | hw
      · exact absurd hw ha
      · exact hf _ hw
    · rcases h with h | h
      · exact absurd h ha
      · exact h

/-- A move of the control point at an index that exists is the write to that point. -/
theorem movePointByIndex_ok (ctx : RotoContext) (b i p : Nat) (dx dy : ℚ)
    (h : (ctx.bezier b).points[i]? = some p) :
    ctx.movePointByIndex b (i : Int) dx dy =
      .ok (ctx.writePoint p (fun c =>
        { c with
          pos := c.pos.translate dx dy
          left := c.left.translate dx dy
          right := c.right.translate dx dy
          onKeyframe := true })) := by
  simp [RotoContext.movePointByIndex, RotoContext.writeControlPointAt,
    RotoContext.getControlPointAtIndex, h]

/-! ## Deletion of the selected curves -/

/-- The loop over the selected curves ends: when the selected-curve set is the selection of
the collection and the allotted passes are at least as many as the selected curves, the loop
returns with an empty selected-curve set, the collection has lost exactly the selected
curves, and the host counters are untouched. -/
theorem deleteSelectedBeziers_synced (fuel : Nat) :
    ∀ s : RotoGuiPrivate, s.selectedBeziers = s.context.selection →
      s.context.selection.length ≤ fuel →
      ∃ s1, deleteSelectedBeziers fuel s = some s1 ∧ s1.selectedBeziers = [] ∧
        (∀ c, c ∈ s1.context.curves ↔ c ∈ s.context.curves ∧ c ∉ s.context.selection) ∧
        s1.autoSaveCount = s.autoSaveCount ∧
        s1.context.evaluateCount = s.context.evaluateCount := by
  induction fuel with
  | zero =>
    intro s hsync hlen
    have : s.context.selection = [] := List.length_eq_zero.mp (Nat.le_zero.mp hlen)
    exact ⟨s, by simp [deleteSelectedBeziers, hsync, this], by rw [hsync, this],
      by simp [this], rfl, rfl⟩
  | succ n ih =>
    intro s hsync hlen
    cases hsel : s.selectedBeziers with
    | nil =>
      have : s.context.selection = [] := by rw [← hsync, hsel]
      exact ⟨s, by simp [deleteSelectedBeziers, hsel], hsel, by simp [this], rfl, rfl⟩
    | cons b rest =>
      have hmem : b ∈ s.context.selection := by rw [← hsync, hsel]; simp
      have hlt : (s.context.selection.filter (fun c => c != b)).length
          < s.context.selection.length :=
        List.length_filter_lt_length_iff_exists.mpr ⟨b, hmem, by simp⟩
      obtain ⟨s1, h1, h2, h3, h4, h5⟩ := ih
        { removeItem s b with
          builtBezier :=
            if (removeItem s b).builtBezier = some b then none else (removeItem s b).builtBezier }
        (by simp [removeItem, onSelectionChanged])
        (by simp only [removeItem_context, RotoContext.removeItem]; omega)
      refine ⟨s1, by simp only [deleteSelectedBeziers, hsel]; exact h1, h2, ?_, ?_, ?_⟩
      · intro c
        rw [h3]
        simp only [removeItem_context, RotoContext.removeItem, List.mem_filter, bne_iff_ne,
          ne_eq, not_and, not_not]
        constructor
        · rintro ⟨⟨hc, hne⟩, hsel2⟩
          exact ⟨hc, fun hin => hne (hsel2 hin)⟩
        · rintro ⟨hc, hnin⟩
          exact ⟨⟨hc, fun heq => hnin (heq ▸ hmem)⟩, fun hin => absurd hin hnin⟩
      · rw [h4]; simp [removeItem, onSelectionChanged]
      · rw [h5]; simp [removeItem_context, RotoContext.removeItem]

/-- The loop over the selected curves ends within the passes `keyDown` allots to it,
whatever the state: the first pass replaces the selected-curve set by the selection of the
collection, and every later pass takes one curve out of it. -/
theorem deleteSelectedBeziers_terminates (s : RotoGuiPrivate) :
    ∃ s1, deleteSelectedBeziers (s.context.selection.length + 1) s = some s1 ∧
      s1.selectedBeziers = [] ∧ s1.autoSaveCount = s.autoSaveCount ∧
      s1.context.evaluateCount = s.context.evaluateCount := by
  cases hsel : s.selectedBeziers with
  | nil => exact ⟨s, by simp [deleteSelectedBeziers, hsel], hsel, rfl, rfl⟩
  | cons b rest =>
    obtain ⟨s1, h1, h2, _, h4, h5⟩ := deleteSelectedBeziers_synced s.context.selection.length
      { removeItem s b with
        builtBezier :=
          if (removeItem s b).builtBezier = some b then none else (removeItem s b).builtBezier }
      (by simp [removeItem, onSelectionChanged])
      (by simp only [removeItem_context, RotoContext.removeItem]
          exact List.length_filter_le _ _)
    refine ⟨s1, by simp only [deleteSelectedBeziers, hsel]; exact h1, h2, ?_, ?_⟩
    · rw [h4]; simp [removeItem, onSelectionChanged]
    · rw [h5]; simp [removeItem_context, RotoContext.removeItem]

/-- With no point selected and at least one curve selected, Delete and Backspace return
true with an empty selected-curve set, after one `triggerAutoSave` and one
`evaluateChange`. -/
theorem keyDown_delete_curves_returns (s : RotoGuiPrivate) (e : QKeyEvent)
    (hkey : e.key = .Key_Delete ∨ e.key = .Key_Backspace) (hcps : s.selectedCps = [])
    (hsel : s.selectedBeziers ≠ []) :
    ∃ s', keyDown s e = .ok (true, s') ∧ s'.selectedBeziers = [] ∧
      s'.autoSaveCount = s.autoSaveCount + 1 ∧
      s'.context.evaluateCount = s.context.evaluateCount + 1 := by
  obtain ⟨s1, h1, h2, h3, h4⟩ :=
    deleteSelectedBeziers_terminates { s with modifiers := e.modifiers }
  refine ⟨{ s1 with
            autoSaveCount := s1.autoSaveCount + 1
            context := s1.context.evaluateChange }, ?_, h2, ?_, ?_⟩
  · simp only [hcps] at h1
    rcases hkey with h | h <;> simp [keyDown, keyDownDelete, h, hcps, hsel, h1]
  · simp [h3]
  · simp [RotoContext.evaluateChange, h4]

/-- With no point selected and the selected-curve set equal to the selection of the
collection, Delete and Backspace take exactly the selected curves out of the collection. -/
theorem keyDown_delete_curves_synced (s : RotoGuiPrivate) (e : QKeyEvent)
    (hkey : e.key = .Key_Delete ∨ e.key = .Key_Backspace) (hcps : s.selectedCps = [])
    (hsel : s.selectedBeziers ≠ []) (hsync : s.selectedBeziers = s.context.selection) :
    ∃ s', keyDown s e = .ok (true, s') ∧
      ∀ c, c ∈ s'.context.curves ↔ c ∈ s.context.curves ∧ c ∉ s.selectedBeziers := by
  obtain ⟨s1, h1, _, h3, _, _⟩ := deleteSelectedBeziers_synced (s.context.selection.length + 1)
    { s with modifiers := e.modifiers } hsync (Nat.le_succ _)
  refine ⟨{ s1 with
            autoSaveCount := s1.autoSaveCount + 1
            context := s1.context.evaluateChange }, ?_, ?_⟩
  · simp only [hcps] at h1
    rcases hkey with h | h <;> simp [keyDown, keyDownDelete, h, hcps, hsel, h1]
  · intro c
    rw [hsync]
    simpa [RotoContext.evaluateChange] using h3 c

/-! ## Rectangle construction -/

/-- Reading a curve in a collection whose curve heap is an update of another one. -/
theorem bezier_of_update (ctx ctx1 : RotoContext) (b c : Nat) (f : Bezier → Bezier)
    (h : ctx1.beziers = updateNth ctx.beziers b f) :
    ctx1.bezier c = if b = c ∧ c < ctx.beziers.length then f (ctx.bezier c) else ctx.bezier c := by
  have := bezier_updateNth ctx ctx1.beziers b c f h
  simpa [RotoContext.bezier] using this

/-- The curve, the point heap and the flags after `addControlPoint` on an allocated curve. -/
theorem addControlPoint_spec (ctx : RotoContext) (b : Nat) (x y : ℚ)
    (hb : b < ctx.beziers.length) :
    (ctx.addControlPoint b x y).bezier b =
        { ctx.bezier b with
          points := (ctx.bezier b).points ++ [ctx.cps.length]
          featherPoints := (ctx.bezier b).featherPoints ++ [ctx.cps.length + 1] } ∧
      (ctx.addControlPoint b x y).cps =
        ctx.cps ++ [newPoint b false x y ctx.keyOnCreate, newPoint b true x y ctx.keyOnCreate] ∧
      (ctx.addControlPoint b x y).beziers.length = ctx.beziers.length ∧
      (ctx.addControlPoint b x y).autoKeying = ctx.autoKeying ∧
      (ctx.addControlPoint b x y).keyOnCreate = ctx.keyOnCreate := by
  refine ⟨?_, rfl, ?_, rfl, rfl⟩
  · rw [bezier_of_update ctx (ctx.addControlPoint b x y) b b _ rfl]
    simp [hb]
  · simp [RotoContext.addControlPoint, length_updateNth]

/-- The curve, the point heap and the flags after `makeBezier`. -/
theorem makeBezier_spec (ctx : RotoContext) (x y : ℚ) :
    (ctx.makeBezier x y).2 = ctx.beziers.length ∧
      (ctx.makeBezier x y).1.bezier ctx.beziers.length =
        { points := [ctx.cps.length], featherPoints := [ctx.cps.length + 1], finished := false,
          locked := false } ∧
      (ctx.makeBezier x y).1.cps =
        ctx.cps ++ [newPoint ctx.beziers.length false x y ctx.keyOnCreate,
          newPoint ctx.beziers.length true x y ctx.keyOnCreate] ∧
      (ctx.makeBezier x y).1.beziers.length = ctx.beziers.length + 1 ∧
      (ctx.makeBezier x y).1.autoKeying = ctx.autoKeying ∧
      (ctx.makeBezier x y).1.keyOnCreate = ctx.keyOnCreate := by
  refine ⟨rfl, ?_, rfl, ?_, rfl, rfl⟩
  · simp [RotoContext.makeBezier, RotoContext.bezier]
  · simp [RotoContext.makeBezier]

/-- The curve made by a DRAW_RECTANGLE or DRAW_ELLIPSE press: its pointer is the next free
one, its control points are four fresh objects at `(x, y)`. -/
theorem makeFourPointCurve_spec (ctx : RotoContext) (x y : ℚ) :
    (makeFourPointCurve ctx x y).2 = ctx.beziers.length ∧
      ((makeFourPointCurve ctx x y).1.bezier ctx.beziers.length).points =
        [ctx.cps.length, ctx.cps.length + 2, ctx.cps.length + 4, ctx.cps.length + 6] ∧
      (makeFourPointCurve ctx x y).1.cps =
        ctx.cps ++
          [newPoint ctx.beziers.length false x y ctx.keyOnCreate,
           newPoint ctx.beziers.length true x y ctx.keyOnCreate,
           newPoint ctx.beziers.length false x y ctx.keyOnCreate,
           newPoint ctx.beziers.length true x y ctx.keyOnCreate,
           newPoint ctx.beziers.length false x y ctx.keyOnCreate,
           newPoint ctx.beziers.length true x y ctx.keyOnCreate,
           newPoint ctx.beziers.length false x y ctx.keyOnCreate,
           newPoint ctx.beziers.length true x y ctx.keyOnCreate] ∧
      (makeFourPointCurve ctx x y).1.autoKeying = ctx.autoKeying := by
  obtain ⟨m1, m2, m3, m4, m5, m6⟩ := makeBezier_spec ctx x y
  generalize hc1 : (ctx.makeBezier x y).1 = c1 at *
  have hb1 : ctx.beziers.length < c1.beziers.length := by omega
  obtain ⟨a1, a2, a3, a4, a5⟩ := addControlPoint_spec c1 ctx.beziers.length x y hb1
  generalize hc2 : c1.addControlPoint ctx.beziers.length x y = c2 at *
  have hb2 : ctx.beziers.length < c2.beziers.length := by omega
  obtain ⟨d1, d2, d3, d4, d5⟩ := addControlPoint_spec c2 ctx.beziers.length x y hb2
  generalize hc3 : c2.addControlPoint ctx.beziers.length x y = c3 at *
  have hb3 : ctx.beziers.length < c3.beziers.length := by omega
  obtain ⟨e1, e2, e3, e4, e5⟩ := addControlPoint_spec c3 ctx.beziers.length x y hb3
  generalize hc4 : c3.addControlPoint ctx.beziers.length x y = c4 at *
  have hb4 : ctx.beziers.length < c4.beziers.length := by omega
  have hmk : makeFourPointCurve ctx x y = (c4.setCurveFinished ctx.beziers.length true,
      ctx.beziers.length) := by
    simp only [makeFourPointCurve, m1, hc1, hc2, hc3, hc4]
  rw [hmk]
  refine ⟨rfl, ?_, ?_, ?_⟩
  · rw [bezier_setCurveFinished]
    simp only [hb4, and_self, if_true]
    rw [e1, d1, a1, m2]
    simp [e2, d2, a2, m3]
  · show c4.cps = _
    rw [e2, d2, a2, m3, d5, a5, m6]
    simp
  · show c4.autoKeying = _
    rw [e4, d4, a4, m5]

/-- One pointer move in a rectangle under construction: the move succeeds, the state is
again a rectangle under construction, the pointer position is recorded, corner 0 stays and
corners 1, 2, 3 are translated by `(dx, 0)`, `(dx, dy)`, `(0, dy)`. -/
theorem penMotion_rectangle_step (g : Geometry) (s : RotoGuiPrivate) (pos : Point) (b : Nat)
    (h : BuildingRectangle s b) :
    ∃ s', penMotion g s pos = .ok (true, s') ∧ BuildingRectangle s' b ∧
      s'.lastMousePos = pos ∧
      corner s'.context b 0 = corner s.context b 0 ∧
      corner s'.context b 1 =
        (corner s.context b 1).translate (pos.x - s.lastMousePos.x) 0 ∧
      corner s'.context b 2 =
        (corner s.context b 2).translate (pos.x - s.lastMousePos.x) (pos.y - s.lastMousePos.y) ∧
      corner s'.context b 3 =
        (corner s.context b 3).translate 0 (pos.y - s.lastMousePos.y) := by
  obtain ⟨hstate, hsel, p0, p1, p2, p3, hpts, hnd, hl1, hl2, hl3, hw1, hw2, hw3⟩ := h
  simp only [List.nodup_cons, List.mem_cons, List.mem_singleton, not_or, List.not_mem_nil,
    not_false_eq_true, List.nodup_nil, and_true] at hnd
  obtain ⟨⟨h01, h02, h03⟩, ⟨h12, h13⟩, h23⟩ := hnd
  have e1 : (s.context.bezier b).points[1]? = some p1 := by simp [hpts]
  have m1 := movePointByIndex_ok s.context b 1 p1 (pos.x - s.lastMousePos.x) 0 e1
  generalize hc1 : s.context.writePoint p1 _ = c1 at m1
  have b1 : c1.bezier b = s.context.bezier b := by rw [← hc1, bezier_writePoint]
  have e2 : (c1.bezier b).points[2]? = some p2 := by simp [b1, hpts]
  have m2 := movePointByIndex_ok c1 b 2 p2 (pos.x - s.lastMousePos.x)
    (pos.y - s.lastMousePos.y) e2
  generalize hc2 : c1.writePoint p2 _ = c2 at m2
  have b2 : c2.bezier b = s.context.bezier b := by rw [← hc2, bezier_writePoint, b1]
  have e3 : (c2.bezier b).points[3]? = some p3 := by simp [b2, hpts]
  have m3 := movePointByIndex_ok c2 b 3 p3 0 (pos.y - s.lastMousePos.y) e3
  generalize hc3 : c2.writePoint p3 _ = c3 at m3
  have b3 : c3.bezier b = s.context.bezier b := by rw [← hc3, bezier_writePoint, b2]
  simp only [Nat.cast_one, Nat.cast_ofNat] at m1 m2 m3
  have len1 : c1.cps.length = s.context.cps.length := by
    rw [← hc1]; exact (writePoint_frame _ _ _).2.2.2.2
  have len2 : c2.cps.length = s.context.cps.length := by
    rw [← hc2, (writePoint_frame _ _ _).2.2.2.2, len1]
  have len3 : c3.cps.length = s.context.cps.length := by
    rw [← hc3, (writePoint_frame _ _ _).2.2.2.2, len2]
  have w1 : ∀ q, s.context.writeAllowed q = true → c1.writeAllowed q = true := by
    intro q hq; rw [← hc1]; exact writeAllowed_writePoint _ _ _ _ (fun _ _ => rfl) hq
  have w2 : ∀ q, s.context.writeAllowed q = true → c2.writeAllowed q = true := by
    intro q hq; rw [← hc2]; exact writeAllowed_writePoint _ _ _ _ (fun _ _ => rfl) (w1 q hq)
  have w3 : ∀ q, s.context.writeAllowed q = true → c3.writeAllowed q = true := by
    intro q hq; rw [← hc3]; exact writeAllowed_writePoint _ _ _ _ (fun _ _ => rfl) (w2 q hq)
  have r1 := fun q => cp_writePoint s.context p1 q (fun c =>
    { c with
      pos := c.pos.translate (pos.x - s.lastMousePos.x) 0
      left := c.left.translate (pos.x - s.lastMousePos.x) 0
      right := c.right.translate (pos.x - s.lastMousePos.x) 0
      onKeyframe := true })
  have r2 := fun q => cp_writePoint c1 p2 q (fun c =>
    { c with
      pos := c.pos.translate (pos.x - s.lastMousePos.x) (pos.y - s.lastMousePos.y)
      left := c.left.translate (pos.x - s.lastMousePos.x) (pos.y - s.lastMousePos.y)
      right := c.right.translate (pos.x - s.lastMousePos.x) (pos.y - s.lastMousePos.y)
      onKeyframe := true })
  have r3 := fun q => cp_writePoint c2 p3 q (fun c =>
    { c with
      pos := c.pos.translate 0 (pos.y - s.lastMousePos.y)
      left := c.left.translate 0 (pos.y - s.lastMousePos.y)
      right := c.right.translate 0 (pos.y - s.lastMousePos.y)
      onKeyframe := true })
  rw [hc1] at r1
  rw [hc2] at r2
  rw [hc3] at r3
  refine ⟨{ s with context := c3, evaluateOnPenUp := true, lastMousePos := pos }, ?_, ?_, rfl,
    ?_, ?_, ?_, ?_⟩
  · simp [penMotion, hstate, penMotionRectangle, hsel, m1, m2, m3]
  · exact ⟨hstate, hsel, p0, p1, p2, p3, by simp [b3, hpts],
      by simp [h01, h02, h03, h12, h13, h23], by simp [len3, hl1], by simp [len3, hl2],
      by simp [len3, hl3], w3 p1 hw1, w3 p2 hw2, w3 p3 hw3⟩
  · simp only [corner, b3, hpts]
    simp only [List.getElem?_cons_zero]
    rw [r3, r2, r1]
    simp [Ne.symm h01, Ne.symm h02, Ne.symm h03]
  · simp only [corner, b3, hpts]
    simp only [List.getElem?_cons_succ, List.getElem?_cons_zero]
    rw [r3, r2, r1]
    simp [Ne.symm h12, Ne.symm h13, hl1, hw1]
  · simp only [corner, b3, hpts]
    simp only [List.getElem?_cons_succ, List.getElem?_cons_zero]
    rw [r3, r2, r1]
    simp [h12, Ne.symm h23, hl2, len1, hw2, w1 p2 hw2]
  · simp only [corner, b3, hpts]
    simp only [List.getElem?_cons_succ, List.getElem?_cons_zero]
    rw [r3, r2, r1]
    simp [h13, h23, hl3, len2, w2 p3 hw3]

/-- The selected-curve set after `handleBezierSelection` of a curve that is not selected,
when Shift is not held or nothing is selected; the heaps and the flags are untouched. -/
theorem handleBezierSelection_new (s : RotoGuiPrivate) (curve : Nat)
    (hnew : curve ∉ s.selectedBeziers)
    (hshift : s.modifiers.shift = false ∨ s.selectedBeziers = []) :
    (handleBezierSelection s curve).selectedBeziers = [curve] ∧
      (handleBezierSelection s curve).context.beziers = s.context.beziers ∧
      (handleBezierSelection s curve).context.cps = s.context.cps ∧
      (handleBezierSelection s curve).context.autoKeying = s.context.autoKeying := by
  unfold handleBezierSelection
  simp only [hnew, if_false]
  have hsel : ∀ c : RotoContext, (c.select curve).beziers = c.beziers ∧
      (c.select curve).cps = c.cps ∧ (c.select curve).autoKeying = c.autoKeying := by
    intro c
    unfold RotoContext.select
    split <;> simp
  rcases hshift with h | h
  · simp [h, clearBeziersSelection, hsel, RotoContext.clearSelection]
  · cases hs : s.modifiers.shift <;>
      simp [h, hs, clearBeziersSelection, hsel, RotoContext.clearSelection]

/-- A DRAW_RECTANGLE press: no tangent handle is tested, the press is consumed, the state is
a rectangle under construction on the new curve, whose four corners are at the click
position, which is also the recorded pointer position. -/
theorem penDown_drawRectangle (g : Geometry) (s : RotoGuiPrivate) (pos : Point)
    (htool : s.selectedTool = .DRAW_RECTANGLE)
    (hshift : s.modifiers.shift = false ∨ s.selectedBeziers = [])
    (hsel : ∀ c, c ∈ s.selectedBeziers → c < s.context.beziers.length)
    (hw : s.context.autoKeying = true ∨ s.context.keyOnCreate = true) :
    ∃ s1, penDown g s pos = .ok (true, s1) ∧ BuildingRectangle s1 s.context.beziers.length ∧
      s1.lastMousePos = pos ∧
      corners s1.context s.context.beziers.length = spannedCorners pos pos := by
  have hnone : ∀ tol, s.selectedCps.findSome? (tangentSelection g s pos tol) = none := by
    intro tol
    apply findSome?_const_none
    intro a
    simp [tangentSelection, htool]
  obtain ⟨k1, k2, k3, k4⟩ := makeFourPointCurve_spec s.context pos.x pos.y
  have hnew : s.context.beziers.length ∉ s.selectedBeziers := fun hin =>
    Nat.lt_irrefl _ (hsel _ hin)
  obtain ⟨q1, q2, q3, q4⟩ := handleBezierSelection_new
    { s with
      context := (makeFourPointCurve s.context pos.x pos.y).1
      evaluateOnPenUp := true }
    s.context.beziers.length hnew hshift
  simp only [] at q1 q2 q3 q4
  refine ⟨(recordClick pos (penDownDrawRectangle s pos)).2, ?_, ?_, rfl, ?_⟩
  · simp [penDown, tangentHit, htool, hnone, recordClick, penDownDrawRectangle]
  · have hbz : ∀ c, (recordClick pos (penDownDrawRectangle s pos)).2.context.bezier c =
        (makeFourPointCurve s.context pos.x pos.y).1.bezier c := by
      intro c
      simp [recordClick, penDownDrawRectangle, k1, RotoContext.bezier, q2]
    have hcps : (recordClick pos (penDownDrawRectangle s pos)).2.context.cps =
        (makeFourPointCurve s.context pos.x pos.y).1.cps := by
      simp [recordClick, penDownDrawRectangle, k1, q3]
    have hak : (recordClick pos (penDownDrawRectangle s pos)).2.context.autoKeying =
        s.context.autoKeying := by
      simp [recordClick, penDownDrawRectangle, k1, q4, k4]
    have hwa : ∀ j, j < 8 →
        (recordClick pos (penDownDrawRectangle s pos)).2.context.writeAllowed
          (s.context.cps.length + j) = true := by
      intro j hj
      simp only [RotoContext.writeAllowed, RotoContext.cp, hak, hcps, k3, Bool.or_eq_true]
      rcases hw with h | h
      · exact Or.inl h
      · right
        rw [List.getElem?_append_right (Nat.le_add_right _ _)]
        simp only [Nat.add_sub_cancel_left]
        interval_cases j <;> simp [newPoint, h]
    refine ⟨by simp [recordClick, penDownDrawRectangle], ?_, s.context.cps.length,
      s.context.cps.length + 2, s.context.cps.length + 4, s.context.cps.length + 6, ?_, ?_, ?_,
      ?_, ?_, hwa 2 (by omega), hwa 4 (by omega), hwa 6 (by omega)⟩
    · simpa [recordClick, penDownDrawRectangle, k1] using q1
    · rw [hbz, k2]
    · simp
    · rw [hcps, k3]; simp
    · rw [hcps, k3]; simp
    · rw [hcps, k3]; simp
  · have hbz : ((recordClick pos (penDownDrawRectangle s pos)).2.context.bezier
        s.context.beziers.length).points =
        [s.context.cps.length, s.context.cps.length + 2, s.context.cps.length + 4,
          s.context.cps.length + 6] := by
      rw [← k2]
      simp [recordClick, penDownDrawRectangle, k1, RotoContext.bezier, q2]
    have hcps : (recordClick pos (penDownDrawRectangle s pos)).2.context.cps =
        (makeFourPointCurve s.context pos.x pos.y).1.cps := by
      simp [recordClick, penDownDrawRectangle, k1, q3]
    have hpos : ∀ j, j < 8 →
        ((recordClick pos (penDownDrawRectangle s pos)).2.context.cp
          (s.context.cps.length + j)).pos = pos := by
      intro j hj
      simp only [RotoContext.cp, hcps, k3]
      rw [List.getElem?_append_right (Nat.le_add_right _ _)]
      simp only [Nat.add_sub_cancel_left]
      interval_cases j <;> simp [newPoint]
    have hpos0 := hpos 0 (by omega)
    simp only [Nat.add_zero] at hpos0
    simp [corners, corner, hbz, spannedCorners, hpos0, hpos 2, hpos 4, hpos 6]

/-- Any sequence of pointer moves in a rectangle under construction whose corners span the
rectangle between a point `c` and the recorded pointer position: every move succeeds and
the corners span the rectangle between `c` and the last pointer position. -/
theorem rectangle_moves (g : Geometry) (b : Nat) (c : Point) (qs : List Point) :
    ∀ s : RotoGuiPrivate, BuildingRectangle s b →
      corners s.context b = spannedCorners c s.lastMousePos →
      ∃ s', run g s (qs.map Event.penMotion) = .ok s' ∧ BuildingRectangle s' b ∧
        s'.lastMousePos = qs.getLast?.getD s.lastMousePos ∧
        corners s'.context b = spannedCorners c (qs.getLast?.getD s.lastMousePos) := by
  induction qs with
  | nil =>
    intro s hs hc
    exact ⟨s, rfl, hs, rfl, hc⟩
  | cons q rest ih =>
    intro s hs hc
    obtain ⟨s1, hm, hb1, hl1, e0, e1, e2, e3⟩ := penMotion_rectangle_step g s q b hs
    simp only [corners, spannedCorners, List.cons.injEq, and_true] at hc
    obtain ⟨c0, c1, c2, c3⟩ := hc
    have hc1 : corners s1.context b = spannedCorners c s1.lastMousePos := by
      simp only [corners, spannedCorners, e0, e1, e2, e3, c0, c1, c2, c3, hl1,
        Point.translate]
      simp
    obtain ⟨s', hr, hb', hl', hc'⟩ := ih s1 hb1 hc1
    refine ⟨s', ?_, hb', ?_, ?_⟩
    · simp [run, step, hm, Except.map, hr]
    · rw [hl', hl1]
      cases rest <;> simp [List.getLast?]
    · rw [hc', hl1]
      cases rest <;> simp [List.getLast?]

/-! ## Frame lemmas for `onToolActionTriggered` -/

theorem setToolButton_frame (s : RotoGuiPrivate) (r : Roto_Role) (b : RotoToolButton) :
    (setToolButton s r b).context = s.context ∧
      (setToolButton s r b).autoSaveCount = s.autoSaveCount ∧
      (setToolButton s r b).selectedTool = s.selectedTool ∧
      (setToolButton s r b).selectedRole = s.selectedRole ∧
      (setToolButton s r b).selectedBeziers = s.selectedBeziers ∧
      (setToolButton s r b).selectedCps = s.selectedCps ∧
      (setToolButton s r b).selectedCpsBbox = s.selectedCpsBbox ∧
      (setToolButton s r b).showCpsBbox = s.showCpsBbox ∧
      (setToolButton s r b).state = s.state ∧
      (setToolButton s r b).builtBezier = s.builtBezier ∧
      (setToolButton s r b).tangentBeingDragged = s.tangentBeingDragged ∧
      (setToolButton s r b).featherBarBeingDragged = s.featherBarBeingDragged ∧
      (setToolButton s r b).evaluateOnPenUp = s.evaluateOnPenUp := by
  cases r <;> simp [setToolButton]

theorem releasePreviousButton_frame (s : RotoGuiPrivate) (r : Roto_Role) :
    (releasePreviousButton s r).context = s.context ∧
      (releasePreviousButton s r).autoSaveCount = s.autoSaveCount ∧
      (releasePreviousButton s r).selectedTool = s.selectedTool ∧
      (releasePreviousButton s r).selectedRole = s.selectedRole ∧
      (releasePreviousButton s r).selectedBeziers = s.selectedBeziers ∧
      (releasePreviousButton s r).selectedCps = s.selectedCps ∧
      (releasePreviousButton s r).selectedCpsBbox = s.selectedCpsBbox ∧
      (releasePreviousButton s r).showCpsBbox = s.showCpsBbox ∧
      (releasePreviousButton s r).state = s.state ∧
      (releasePreviousButton s r).builtBezier = s.builtBezier ∧
      (releasePreviousButton s r).tangentBeingDragged = s.tangentBeingDragged ∧
      (releasePreviousButton s r).featherBarBeingDragged = s.featherBarBeingDragged ∧
      (releasePreviousButton s r).evaluateOnPenUp = s.evaluateOnPenUp := by
  unfold releasePreviousButton
  split <;> simp [setToolButton_frame]

theorem onToolActionTriggered_state (s : RotoGuiPrivate) (act : QAction) :
    (onToolActionTriggered s act).state = s.state := by
  cases hb : s.builtBezier <;>
    by_cases hc : s.selectedRole = .BEZIER_EDITION_ROLE ∧ s.selectedTool = .DRAW_BEZIER <;>
    simp [onToolActionTriggered, releasePreviousButton_frame, setToolButton_frame, hb, hc,
      getCurrentRole, clearSelection, clearCPSSelection, clearBeziersSelection]

theorem onToolActionTriggered_tangentBeingDragged (s : RotoGuiPrivate) (act : QAction) :
    (onToolActionTriggered s act).tangentBeingDragged = s.tangentBeingDragged := by
  cases hb : s.builtBezier <;>
    by_cases hc : s.selectedRole = .BEZIER_EDITION_ROLE ∧ s.selectedTool = .DRAW_BEZIER <;>
    simp [onToolActionTriggered, releasePreviousButton_frame, setToolButton_frame, hb, hc,
      getCurrentRole, clearSelection, clearCPSSelection, clearBeziersSelection]

theorem onToolActionTriggered_featherBarBeingDragged (s : RotoGuiPrivate) (act : QAction) :
    (onToolActionTriggered s act).featherBarBeingDragged = s.featherBarBeingDragged := by
  cases hb : s.builtBezier <;>
    by_cases hc : s.selectedRole = .BEZIER_EDITION_ROLE ∧ s.selectedTool = .DRAW_BEZIER <;>
    simp [onToolActionTriggered, releasePreviousButton_frame, setToolButton_frame, hb, hc,
      getCurrentRole, clearSelection, clearCPSSelection, clearBeziersSelection]

theorem onToolActionTriggered_evaluateOnPenUp (s : RotoGuiPrivate) (act : QAction) :
    (onToolActionTriggered s act).evaluateOnPenUp = s.evaluateOnPenUp := by
  cases hb : s.builtBezier <;>
    by_cases hc : s.selectedRole = .BEZIER_EDITION_ROLE ∧ s.selectedTool = .DRAW_BEZIER <;>
    simp [onToolActionTriggered, releasePreviousButton_frame, setToolButton_frame, hb, hc,
      getCurrentRole, clearSelection, clearCPSSelection, clearBeziersSelection]

theorem onToolActionTriggered_autoSaveCount (s : RotoGuiPrivate) (act : QAction) :
    (onToolActionTriggered s act).autoSaveCount = s.autoSaveCount := by
  cases hb : s.builtBezier <;>
    by_cases hc : s.selectedRole = .BEZIER_EDITION_ROLE ∧ s.selectedTool = .DRAW_BEZIER <;>
    simp [onToolActionTriggered, releasePreviousButton_frame, setToolButton_frame, hb, hc,
      getCurrentRole, clearSelection, clearCPSSelection, clearBeziersSelection]

theorem onToolActionTriggered_evaluateCount (s : RotoGuiPrivate) (act : QAction) :
    (onToolActionTriggered s act).context.evaluateCount = s.context.evaluateCount := by
  cases hb : s.builtBezier <;>
    by_cases hc : s.selectedRole = .BEZIER_EDITION_ROLE ∧ s.selectedTool = .DRAW_BEZIER <;>
    simp [onToolActionTriggered, releasePreviousButton_frame, setToolButton_frame, hb, hc,
      getCurrentRole, clearSelection, clearCPSSelection, clearBeziersSelection,
      RotoContext.setCurveFinished, RotoContext.clearSelection]

theorem onToolActionTriggered_selectedCps (s : RotoGuiPrivate) (act : QAction) :
    (onToolActionTriggered s act).selectedCps = [] := by
  cases hb : s.builtBezier <;>
    by_cases hc : s.selectedRole = .BEZIER_EDITION_ROLE ∧ s.selectedTool = .DRAW_BEZIER <;>
    simp [onToolActionTriggered, releasePreviousButton_frame, setToolButton_frame, hb, hc,
      getCurrentRole, clearSelection, clearCPSSelection, clearBeziersSelection]

theorem onToolActionTriggered_showCpsBbox (s : RotoGuiPrivate) (act : QAction) :
    (onToolActionTriggered s act).showCpsBbox = false := by
  cases hb : s.builtBezier <;>
    by_cases hc : s.selectedRole = .BEZIER_EDITION_ROLE ∧ s.selectedTool = .DRAW_BEZIER <;>
    simp [onToolActionTriggered, releasePreviousButton_frame, setToolButton_frame, hb, hc,
      getCurrentRole, clearSelection, clearCPSSelection, clearBeziersSelection]

theorem onToolActionTriggered_builtBezier (s : RotoGuiPrivate) (act : QAction) :
    (onToolActionTriggered s act).builtBezier = s.builtBezier := by
  cases hb : s.builtBezier <;>
    by_cases hc : s.selectedRole = .BEZIER_EDITION_ROLE ∧ s.selectedTool = .DRAW_BEZIER <;>
    simp [onToolActionTriggered, releasePreviousButton_frame, setToolButton_frame, hb, hc,
      getCurrentRole, clearSelection, clearCPSSelection, clearBeziersSelection]

/-- The collection and the selected-curve set after a tool action. -/
theorem onToolActionTriggered_context_sel (s : RotoGuiPrivate) (act : QAction) :
    ((onToolActionTriggered s act).context, (onToolActionTriggered s act).selectedBeziers) =
      match s.builtBezier with
      | some b =>
        if s.selectedRole = .BEZIER_EDITION_ROLE ∧ s.selectedTool = .DRAW_BEZIER then
          ((s.context.setCurveFinished b true).clearSelection, [])
        else (s.context, s.selectedBeziers)
      | none => (s.context, s.selectedBeziers) := by
  cases hb : s.builtBezier <;>
    by_cases hc : s.selectedRole = .BEZIER_EDITION_ROLE ∧ s.selectedTool = .DRAW_BEZIER <;>
    simp [onToolActionTriggered, releasePreviousButton_frame, setToolButton_frame, hb, hc,
      getCurrentRole, clearSelection, clearCPSSelection, clearBeziersSelection]

/-! ## Pointer release -/

/-- C1: for every controller state, `penUp` returns true and leaves the interaction state
NONE with `tangentBeingDragged` null and both `featherBarBeingDragged` references null. -/
theorem penUp_returns_to_idle (s : RotoGuiPrivate) :
    (penUp s).1 = true ∧ (penUp s).2.state = .NONE ∧
      (penUp s).2.tangentBeingDragged = none ∧
      (penUp s).2.featherBarBeingDragged = (none, none) := by
  unfold penUp
  by_cases hE : s.evaluateOnPenUp = true <;>
    by_cases hT : s.selectedTool = .DRAW_ELLIPSE ∨ s.selectedTool = .DRAW_RECTANGLE <;>
    simp [hE, hT, onToolActionTriggered_state, onToolActionTriggered_tangentBeingDragged,
      onToolActionTriggered_featherBarBeingDragged]

/-- C2: `penUp` calls `evaluateChange` and `triggerAutoSave` once each when
`evaluateOnPenUp` is set and not at all when it is clear; `evaluateOnPenUp` is false
afterwards, and a second `penUp` right after the first triggers neither. -/
theorem penUp_evaluates_once (s : RotoGuiPrivate) :
    (penUp s).2.context.evaluateCount
        = s.context.evaluateCount + (if s.evaluateOnPenUp then 1 else 0) ∧
      (penUp s).2.autoSaveCount = s.autoSaveCount + (if s.evaluateOnPenUp then 1 else 0) ∧
      (penUp s).2.evaluateOnPenUp = false ∧
      (penUp (penUp s).2).2.context.evaluateCount = (penUp s).2.context.evaluateCount ∧
      (penUp (penUp s).2).2.autoSaveCount = (penUp s).2.autoSaveCount := by
  have key : ∀ t : RotoGuiPrivate,
      (penUp t).2.context.evaluateCount
          = t.context.evaluateCount + (if t.evaluateOnPenUp then 1 else 0) ∧
        (penUp t).2.autoSaveCount = t.autoSaveCount + (if t.evaluateOnPenUp then 1 else 0) ∧
        (penUp t).2.evaluateOnPenUp = false := by
    intro t
    unfold penUp
    by_cases hE : t.evaluateOnPenUp = true <;>
      by_cases hT : t.selectedTool = .DRAW_ELLIPSE ∨ t.selectedTool = .DRAW_RECTANGLE <;>
      simp [hE, hT, onToolActionTriggered_evaluateCount, onToolActionTriggered_autoSaveCount,
        onToolActionTriggered_evaluateOnPenUp, RotoContext.evaluateChange]
  obtain ⟨h1, h2, h3⟩ := key s
  obtain ⟨k1, k2, _⟩ := key (penUp s).2
  refine ⟨h1, h2, h3, ?_, ?_⟩
  · rw [k1, h3]; simp
  · rw [k2, h3]; simp

/-! ## Tool actions -/

/-- C9, as the claim states it, fails: in the controller opened on a project whose curve 0
is selected, the first tool action (Select All, role SELECTION, while the current role is
BEZIER_EDITION) leaves curve 0 in the selected-curve set. -/
theorem toolAction_keeps_selected_curves :
    selectAllAction.role ≠
        getCurrentRole (initialState { rectangleContext with selection := [0] } (1, 1)) ∧
      (onToolActionTriggered (initialState { rectangleContext with selection := [0] } (1, 1))
        selectAllAction).selectedBeziers = [0] := by
  decide!

/-- C9, amended: after a tool action whose role differs from the current role the
selected-point set is empty with its bounding-box display off and the selected tool and
current role are the action's; if the previous tool was DRAW_BEZIER (role BEZIER_EDITION)
with a curve under construction, that curve is finished and the selected-curve set is empty,
and otherwise the selected-curve set is unchanged. -/
theorem toolAction_role_switch (s : RotoGuiPrivate) (act : QAction)
    (_hrole : act.role ≠ getCurrentRole s) :
    (onToolActionTriggered s act).selectedCps = [] ∧
      (onToolActionTriggered s act).showCpsBbox = false ∧
      (onToolActionTriggered s act).selectedTool = act.tool ∧
      getCurrentRole (onToolActionTriggered s act) = act.role ∧
      (∀ b, s.builtBezier = some b → s.selectedTool = .DRAW_BEZIER →
        getCurrentRole s = .BEZIER_EDITION_ROLE → b < s.context.beziers.length →
        (onToolActionTriggered s act).context.isCurveFinished b = true ∧
          (onToolActionTriggered s act).selectedBeziers = []) ∧
      ((s.builtBezier = none ∨ s.selectedTool ≠ .DRAW_BEZIER ∨
          getCurrentRole s ≠ .BEZIER_EDITION_ROLE) →
        (onToolActionTriggered s act).selectedBeziers = s.selectedBeziers) := by
  have hctx := onToolActionTriggered_context_sel s act
  refine ⟨onToolActionTriggered_selectedCps s act, onToolActionTriggered_showCpsBbox s act,
    ?_, ?_, ?_, ?_⟩
  · simp [onToolActionTriggered]
  · simp [onToolActionTriggered, getCurrentRole]
  · intro b hb ht hr hlt
    simp only [getCurrentRole] at hr
    rw [hb] at hctx
    simp only [hr, ht, and_self, if_true, Prod.mk.injEq] at hctx
    refine ⟨?_, hctx.2⟩
    rw [hctx.1]
    have hclear : ∀ c : RotoContext, c.clearSelection.bezier b = c.bezier b := fun _ => rfl
    simp [RotoContext.isCurveFinished, hclear, bezier_setCurveFinished, hlt]
  · intro h
    simp only [getCurrentRole] at h
    rcases h with h | h | h
    · rw [h] at hctx
      simp only [Prod.mk.injEq] at hctx
      exact hctx.2
    · cases hb : s.builtBezier with
      | none =>
        rw [hb] at hctx
        simp only [Prod.mk.injEq] at hctx
        exact hctx.2
      | some b =>
        rw [hb] at hctx
        simp only [h, and_false, if_false, Prod.mk.injEq] at hctx
        exact hctx.2
    · cases hb : s.builtBezier with
      | none =>
        rw [hb] at hctx
        simp only [Prod.mk.injEq] at hctx
        exact hctx.2
      | some b =>
        rw [hb] at hctx
        simp only [h, false_and, if_false, Prod.mk.injEq] at hctx
        exact hctx.2

/-- Witness for C9 (amended): two DRAW_BEZIER clicks at (0,0) and (100,0), then the tool
action Select All. -/
theorem toolAction_role_switch_witness :
    selectAllAction.role ≠
        getCurrentRole (stateAfter [.penDown ⟨0, 0⟩, .penUp, .penDown ⟨100, 0⟩, .penUp]) ∧
      (onToolActionTriggered (stateAfter [.penDown ⟨0, 0⟩, .penUp, .penDown ⟨100, 0⟩, .penUp])
        selectAllAction).selectedCps = [] ∧
      (onToolActionTriggered (stateAfter [.penDown ⟨0, 0⟩, .penUp, .penDown ⟨100, 0⟩, .penUp])
        selectAllAction).selectedTool = .SELECT_ALL ∧
      (onToolActionTriggered (stateAfter [.penDown ⟨0, 0⟩, .penUp, .penDown ⟨100, 0⟩, .penUp])
        selectAllAction).context.isCurveFinished 0 = true ∧
      (onToolActionTriggered (stateAfter [.penDown ⟨0, 0⟩, .penUp, .penDown ⟨100, 0⟩, .penUp])
        selectAllAction).selectedBeziers = [] :=
  have h := toolAction_role_switch
    (stateAfter [.penDown ⟨0, 0⟩, .penUp, .penDown ⟨100, 0⟩, .penUp]) selectAllAction
    (by decide!)
  ⟨by decide!, h.1, h.2.2.1,
    h.2.2.2.2.1 0 (by decide!) (by decide!) (by decide!) (by decide!)⟩

/-! ## Point removal -/

/-- C6: when a pointer press under REMOVE_POINTS or a Delete / Backspace key press removes
pairs from a curve and leaves it with exactly one pair, the curve is open afterwards
(`isCurveFinished` is false, whatever it was before) and it is still in the collection if
it was there. -/
theorem removal_to_one_pair_opens_curve (g : Geometry) (s s' : RotoGuiPrivate) (ev : Event)
    (c : Nat) (hev : removesPoints s ev = true) (hstep : step g s ev = .ok s')
    (hless : s'.context.getControlPointsCount c < s.context.getControlPointsCount c)
    (hone : s'.context.getControlPointsCount c = 1) :
    s'.context.isCurveFinished c = false ∧ (c ∈ s.context.curves → c ∈ s'.context.curves) := by
  cases ev with
  | penDown pos =>
    simp only [removesPoints, decide_eq_true_eq] at hev
    simp only [step, penDown_removePoints g s pos hev] at hstep
    cases hr : penDownRemovePoints s (hitTest g s pos) with
    | error f => rw [hr] at hstep; exact absurd hstep (by simp [Except.map])
    | ok r =>
      rw [hr] at hstep
      simp only [Except.map, recordClick, Except.ok.injEq] at hstep
      subst hstep
      obtain ⟨ctx1, toRemove, hinv, hb, hc⟩ := penDownRemovePoints_inv s _ r hr
      exact removal_final s.context ctx1 _ toRemove c hinv hb hc hless hone
  | keyDown e =>
    simp only [removesPoints, Bool.or_eq_true, decide_eq_true_eq] at hev
    have hk : keyDown s e = keyDownDelete { s with modifiers := e.modifiers } := by
      rcases hev with h | h <;> simp [keyDown, h]
    simp only [step, hk] at hstep
    cases hr : keyDownDelete { s with modifiers := e.modifiers } with
    | error f => rw [hr] at hstep; exact absurd hstep (by simp [Except.map])
    | ok r =>
      rw [hr] at hstep
      simp only [Except.map, Except.ok.injEq] at hstep
      subst hstep
      rcases keyDownDelete_inv _ r hr with hsame | ⟨ctx1, toRemove, hinv, hb, hc⟩
      · have : r.2.context.getControlPointsCount c = s.context.getControlPointsCount c := by
          simp [RotoContext.getControlPointsCount, RotoContext.bezier, hsame]
        omega
      · exact removal_final s.context ctx1 _ toRemove c hinv hb hc hless hone
  | penMotion pos => simp [removesPoints] at hev
  | penUp => simp [removesPoints] at hev
  | keyUp e => simp [removesPoints] at hev
  | toolAction act => simp [removesPoints] at hev

/-! ## Rectangle drag -/

/-- C10, as the claim states it, fails in two states whose interaction state is
BUILDING_RECTANGLE. (1) `unkeyedRectangleState`: auto-keying is off and the corners have no
keyframe at the current time; the move from (10,10) to (15,15) is consumed and the corners
stay (0,0), (10,0), (10,10), (0,10). (2) In the controller opened on the rectangle project
with curve 0 selected: the tool action Rectangle, Shift, a press at (50,50): the state is
BUILDING_RECTANGLE with curves 0 and 1 selected, and the move to (60,60) stops on the
assertion of line 1578 and moves nothing. -/
theorem rectangle_drag_fails :
    (unkeyedRectangleState.state = .BUILDING_RECTANGLE ∧
      (penMotion boxGeometry unkeyedRectangleState ⟨15, 15⟩).toOption.map
        (fun r => (r.1, corners r.2.context 0))
        = some (true, [⟨0, 0⟩, ⟨10, 0⟩, ⟨10, 10⟩, ⟨0, 10⟩])) ∧
      ((runState boxGeometry (initialState { rectangleContext with selection := [0] } (1, 1))
          [.toolAction (actionOf .DRAW_RECTANGLE), shiftKey, .penDown ⟨50, 50⟩]).map
          (fun s => (s.state, s.selectedBeziers))
          = some (.BUILDING_RECTANGLE, [0, 1]) ∧
        runFault boxGeometry (initialState { rectangleContext with selection := [0] } (1, 1))
          [.toolAction (actionOf .DRAW_RECTANGLE), shiftKey, .penDown ⟨50, 50⟩,
            .penMotion ⟨60, 60⟩]
          = some .assertFailed) := by
  decide!

/-- C10, amended, in exact arithmetic (coordinates and deltas are rationals; the sums the
code makes in `double` are not rounded, so the equalities below hold of the code up to the
rounding of those sums). (1) In state BUILDING_RECTANGLE with the rectangle the only
selected curve and a write to its corners 1, 2, 3 permitted at the current time (auto-keying
enabled or the corner on a keyframe), for every pointer position one pointer-move is
consumed, leaves corner 0 unchanged and translates corner 1 by (dx,0), corner 2 by (dx,dy)
and corner 3 by (0,dy), where (dx,dy) is the pointer position minus the last recorded one.
(2) After a DRAW_RECTANGLE pointer-down made without Shift or with no curve selected (the
selected curves being allocated objects), with auto-keying enabled or new points keyed at
creation, and any sequence of pointer-moves, every handler succeeds, the state is
BUILDING_RECTANGLE and the four corners are the corners of the axis-aligned rectangle
spanned by the click position and the last pointer position. -/
theorem rectangle_drag_rule :
    (∀ (g : Geometry) (s : RotoGuiPrivate) (b : Nat) (pos : Point), BuildingRectangle s b →
      ∃ s', penMotion g s pos = .ok (true, s') ∧
        corner s'.context b 0 = corner s.context b 0 ∧
        corner s'.context b 1 =
          (corner s.context b 1).translate (pos.x - s.lastMousePos.x) 0 ∧
        corner s'.context b 2 =
          (corner s.context b 2).translate (pos.x - s.lastMousePos.x)
            (pos.y - s.lastMousePos.y) ∧
        corner s'.context b 3 =
          (corner s.context b 3).translate 0 (pos.y - s.lastMousePos.y)) ∧
      (∀ (g : Geometry) (s : RotoGuiPrivate) (click : Point) (qs : List Point),
        s.selectedTool = .DRAW_RECTANGLE →
        (s.modifiers.shift = false ∨ s.selectedBeziers = []) →
        (∀ c, c ∈ s.selectedBeziers → c < s.context.beziers.length) →
        (s.context.autoKeying = true ∨ s.context.keyOnCreate = true) →
        ∃ s', run g s (.penDown click :: qs.map Event.penMotion) = .ok s' ∧
          s'.state = .BUILDING_RECTANGLE ∧
          corners s'.context s.context.beziers.length
            = spannedCorners click (qs.getLast?.getD click)) := by
  constructor
  · intro g s b pos h
    obtain ⟨s', h1, _, _, e0, e1, e2, e3⟩ := penMotion_rectangle_step g s pos b h
    exact ⟨s', h1, e0, e1, e2, e3⟩
  · intro g s click qs htool hshift hsel hw
    obtain ⟨s1, hd, hb, hl, hc⟩ := penDown_drawRectangle g s click htool hshift hsel hw
    have hc2 : corners s1.context s.context.beziers.length
        = spannedCorners click s1.lastMousePos := by rw [hc, hl]
    obtain ⟨s', hr, hb', _, hc'⟩ := rectangle_moves g _ click qs s1 hb hc2
    refine ⟨s', ?_, hb'.1, ?_⟩
    · simp [run, step, hd, Except.map, hr]
    · rw [hc', hl]

/-- Witness for C10 (amended): the rectangle (0,0), (10,0), (10,10), (0,10) drawn by a
press at (0,0) and a move to (10,10) is dragged by (5,5) and becomes (0,0), (15,0),
(15,15), (0,15); and the press at (0,0) followed by the moves to (10,10) and (15,15) gives
the rectangle spanned by (0,0) and (15,15). -/
theorem rectangle_drag_rule_witness :
    BuildingRectangle
        (stateAfter [.toolAction (actionOf .DRAW_RECTANGLE), .penDown ⟨0, 0⟩,
          .penMotion ⟨10, 10⟩]) 0 ∧
      corners (stateAfter [.toolAction (actionOf .DRAW_RECTANGLE), .penDown ⟨0, 0⟩,
          .penMotion ⟨10, 10⟩]).context 0 = [⟨0, 0⟩, ⟨10, 0⟩, ⟨10, 10⟩, ⟨0, 10⟩] ∧
      (∃ s', penMotion boxGeometry
          (stateAfter [.toolAction (actionOf .DRAW_RECTANGLE), .penDown ⟨0, 0⟩,
            .penMotion ⟨10, 10⟩]) ⟨15, 15⟩ = .ok (true, s') ∧
        corners s'.context 0 = [⟨0, 0⟩, ⟨15, 0⟩, ⟨15, 15⟩, ⟨0, 15⟩]) ∧
      (∃ s', run boxGeometry (stateAfter [.toolAction (actionOf .DRAW_RECTANGLE)])
          (.penDown ⟨0, 0⟩ :: [⟨10, 10⟩, ⟨15, 15⟩].map Event.penMotion) = .ok s' ∧
        s'.state = .BUILDING_RECTANGLE ∧
        corners s'.context 0 = spannedCorners ⟨0, 0⟩ ⟨15, 15⟩) := by
  have hB : BuildingRectangle
      (stateAfter [.toolAction (actionOf .DRAW_RECTANGLE), .penDown ⟨0, 0⟩,
        .penMotion ⟨10, 10⟩]) 0 :=
    ⟨by decide!, by decide!, 0, 2, 4, 6, by decide!, by decide, by decide!, by decide!,
      by decide!, by decide!, by decide!, by decide!⟩
  refine ⟨hB, by decide!, ?_, ?_⟩
  · obtain ⟨s', h1, e0, e1, e2, e3⟩ := rectangle_drag_rule.1 boxGeometry _ 0 ⟨15, 15⟩ hB
    refine ⟨s', h1, ?_⟩
    have c0 : corner (stateAfter [.toolAction (actionOf .DRAW_RECTANGLE), .penDown ⟨0, 0⟩,
        .penMotion ⟨10, 10⟩]).context 0 0 = ⟨0, 0⟩ := by decide!
    have c1 : corner (stateAfter [.toolAction (actionOf .DRAW_RECTANGLE), .penDown ⟨0, 0⟩,
        .penMotion ⟨10, 10⟩]).context 0 1 = ⟨10, 0⟩ := by decide!
    have c2 : corner (stateAfter [.toolAction (actionOf .DRAW_RECTANGLE), .penDown ⟨0, 0⟩,
        .penMotion ⟨10, 10⟩]).context 0 2 = ⟨10, 10⟩ := by decide!
    have c3 : corner (stateAfter [.toolAction (actionOf .DRAW_RECTANGLE), .penDown ⟨0, 0⟩,
        .penMotion ⟨10, 10⟩]).context 0 3 = ⟨0, 10⟩ := by decide!
    have hm : (stateAfter [.toolAction (actionOf .DRAW_RECTANGLE), .penDown ⟨0, 0⟩,
        .penMotion ⟨10, 10⟩]).lastMousePos = ⟨10, 10⟩ := by decide!
    rw [c0] at e0
    rw [c1, hm] at e1
    rw [c2, hm] at e2
    rw [c3, hm] at e3
    simp only [corners, e0, e1, e2, e3, Point.translate]
    norm_num
  · have hs : (stateAfter [.toolAction (actionOf .DRAW_RECTANGLE)]).selectedBeziers = [] := by
      decide!
    have hlen : (stateAfter [.toolAction (actionOf .DRAW_RECTANGLE)]).context.beziers.length
        = 0 := by decide!
    have h := rectangle_drag_rule.2 boxGeometry
      (stateAfter [.toolAction (actionOf .DRAW_RECTANGLE)]) ⟨0, 0⟩ [⟨10, 10⟩, ⟨15, 15⟩]
      (by decide!) (Or.inr hs) (by rw [hs]; intro c hc; exact absurd hc (List.not_mem_nil c))
      (Or.inl (by decide!))
    rw [hlen] at h
    exact h

/-- Witness for C6: (1) the curve drawn by two DRAW_BEZIER clicks and finished by the tool
action Remove Points loses its second point to a REMOVE_POINTS click; it was finished, it
is left with one pair, open, in the collection. (2) Delete with one of the two points of
the open curve of `featherOffsetContext` selected. -/
theorem removal_to_one_pair_opens_curve_witness :
    ((stateAfter [.penDown ⟨0, 0⟩, .penUp, .penDown ⟨100, 0⟩, .penUp,
        .toolAction (actionOf .REMOVE_POINTS)]).context.isCurveFinished 0 = true ∧
      (stateAfter [.penDown ⟨0, 0⟩, .penUp, .penDown ⟨100, 0⟩, .penUp,
        .toolAction (actionOf .REMOVE_POINTS), .penDown ⟨100, 0⟩]).context.getControlPointsCount 0
        = 1 ∧
      (stateAfter [.penDown ⟨0, 0⟩, .penUp, .penDown ⟨100, 0⟩, .penUp,
        .toolAction (actionOf .REMOVE_POINTS), .penDown ⟨100, 0⟩]).context.isCurveFinished 0
        = false) ∧
      ((stateFrom featherOffsetContext [.toolAction (actionOf .SELECT_ALL), .penDown ⟨200, 0⟩,
        .penUp, plainKey .Key_Delete]).context.getControlPointsCount 0 = 1 ∧
      (stateFrom featherOffsetContext [.toolAction (actionOf .SELECT_ALL), .penDown ⟨200, 0⟩,
        .penUp, plainKey .Key_Delete]).context.isCurveFinished 0 = false ∧
      0 ∈ (stateFrom featherOffsetContext [.toolAction (actionOf .SELECT_ALL),
        .penDown ⟨200, 0⟩, .penUp, plainKey .Key_Delete]).context.curves) :=
  ⟨⟨by decide!, by decide!,
      (removal_to_one_pair_opens_curve boxGeometry
        (stateAfter [.penDown ⟨0, 0⟩, .penUp, .penDown ⟨100, 0⟩, .penUp,
          .toolAction (actionOf .REMOVE_POINTS)])
        (stateAfter [.penDown ⟨0, 0⟩, .penUp, .penDown ⟨100, 0⟩, .penUp,
          .toolAction (actionOf .REMOVE_POINTS), .penDown ⟨100, 0⟩])
        (.penDown ⟨100, 0⟩) 0 (by decide!) (step_of_runState _ _ _ _ (by decide!))
        (by decide!) (by decide!)).1⟩,
    ⟨by decide!,
      (removal_to_one_pair_opens_curve boxGeometry
        (stateFrom featherOffsetContext [.toolAction (actionOf .SELECT_ALL), .penDown ⟨200, 0⟩,
          .penUp])
        (stateFrom featherOffsetContext [.toolAction (actionOf .SELECT_ALL), .penDown ⟨200, 0⟩,
          .penUp, plainKey .Key_Delete])
        (plainKey .Key_Delete) 0 (by decide!) (step_of_runState _ _ _ _ (by decide!))
        (by decide!) (by decide!)).1,
      (removal_to_one_pair_opens_curve boxGeometry
        (stateFrom featherOffsetContext [.toolAction (actionOf .SELECT_ALL), .penDown ⟨200, 0⟩,
          .penUp])
        (stateFrom featherOffsetContext [.toolAction (actionOf .SELECT_ALL), .penDown ⟨200, 0⟩,
          .penUp, plainKey .Key_Delete])
        (plainKey .Key_Delete) 0 (by decide!) (step_of_runState _ _ _ _ (by decide!))
        (by decide!) (by decide!)).2 (by decide!)⟩⟩

/-! ## Worked runs -/

/-- C3: the code leaves `builtBezier` set in Idle states whose tool is not DRAW_BEZIER.
From the initial state on an empty collection: (1) DRAW_ELLIPSE, press, move, release ends
in state NONE with tool SELECT_ALL and `builtBezier` still the ellipse (curve 0); (2) two
DRAW_BEZIER clicks and the tool action Select All end in state NONE with `builtBezier` still
curve 0; (3) after either, a DRAW_BEZIER click away from every point starts no new curve:
the collection still holds curve 0 alone, which received the point. -/
theorem builtBezier_survives_idle :
    (runState boxGeometry (initialState emptyContext (1, 1))
        [.toolAction (actionOf .DRAW_ELLIPSE), .penDown ⟨0, 0⟩, .penMotion ⟨10, 10⟩, .penUp]).map
        (fun s => (s.state, s.selectedTool, s.builtBezier))
        = some (.NONE, .SELECT_ALL, some 0) ∧
      (runState boxGeometry (initialState emptyContext (1, 1))
        [.penDown ⟨0, 0⟩, .penUp, .penDown ⟨100, 0⟩, .penUp,
          .toolAction (actionOf .SELECT_ALL)]).map
        (fun s => (s.state, s.selectedTool, s.builtBezier))
        = some (.NONE, .SELECT_ALL, some 0) ∧
      (runState boxGeometry (initialState emptyContext (1, 1))
        [.toolAction (actionOf .DRAW_ELLIPSE), .penDown ⟨0, 0⟩, .penMotion ⟨10, 10⟩, .penUp,
          .toolAction (actionOf .DRAW_BEZIER), .penDown ⟨50, 50⟩, .penUp]).map
        (fun s => (s.context.curves, s.context.getControlPointsCount 0))
        = some ([0], 5) ∧
      (runState boxGeometry (initialState emptyContext (1, 1))
        [.penDown ⟨0, 0⟩, .penUp, .penDown ⟨100, 0⟩, .penUp,
          .toolAction (actionOf .SELECT_ALL), .toolAction (actionOf .DRAW_BEZIER),
          .penDown ⟨50, 50⟩, .penUp]).map
        (fun s => (s.context.curves, s.context.getControlPointsCount 0))
        = some ([0], 3) := by
  decide!

/-- C4: the code finishes a curve of one pair. From the initial state on an empty
collection (tool DRAW_BEZIER), one click creates curve 0 with one pair; then each of Enter,
the tool action Select All, and a second click on the starting point leaves curve 0 with one
pair and `isCurveFinished` true. -/
theorem finishes_one_pair_curve :
    (runState boxGeometry (initialState emptyContext (1, 1))
        [.penDown ⟨0, 0⟩, .penUp]).map
        (fun s => (s.context.getControlPointsCount 0, s.context.isCurveFinished 0))
        = some (1, false) ∧
      (runState boxGeometry (initialState emptyContext (1, 1))
        [.penDown ⟨0, 0⟩, .penUp, plainKey .Key_Return]).map
        (fun s => (s.context.getControlPointsCount 0, s.context.isCurveFinished 0))
        = some (1, true) ∧
      (runState boxGeometry (initialState emptyContext (1, 1))
        [.penDown ⟨0, 0⟩, .penUp, .toolAction (actionOf .SELECT_ALL)]).map
        (fun s => (s.context.getControlPointsCount 0, s.context.isCurveFinished 0))
        = some (1, true) ∧
      (runState boxGeometry (initialState emptyContext (1, 1))
        [.penDown ⟨0, 0⟩, .penUp, .penDown ⟨0, 0⟩, .penUp]).map
        (fun s => (s.context.getControlPointsCount 0, s.context.isCurveFinished 0))
        = some (1, true) := by
  decide!

/-- C5: under REMOVE_POINTS the code keeps `builtBezier` on a curve it has removed. From the
initial state on an empty collection: a DRAW_BEZIER click creates curve 0, the tool action
Remove Points follows, and a click on the point removes the last pair: curve 0 leaves the
collection and the selected-curve set, but `builtBezier` is still curve 0; a later
DRAW_BEZIER click starts no new curve: it continues curve 0 and stops on the assertion of
line 1352. -/
theorem removePoints_keeps_builtBezier :
    (runState boxGeometry (initialState emptyContext (1, 1))
        [.penDown ⟨0, 0⟩, .penUp, .toolAction (actionOf .REMOVE_POINTS), .penDown ⟨0, 0⟩,
          .penUp]).map
        (fun s => (s.context.getControlPointsCount 0, s.context.curves, s.selectedBeziers,
          s.builtBezier))
        = some (0, [], [], some 0) ∧
      runFault boxGeometry (initialState emptyContext (1, 1))
        [.penDown ⟨0, 0⟩, .penUp, .toolAction (actionOf .REMOVE_POINTS), .penDown ⟨0, 0⟩,
          .penUp, .toolAction (actionOf .DRAW_BEZIER), .penDown ⟨50, 50⟩]
        = some .assertFailed := by
  decide!

/-- C7: the code passes -1 to `removeControlPointByIndex`. In the controller opened on
`featherOffsetContext` (curve 0 selected): the tool action Remove Points, Ctrl+A (the
selected pairs become (0,2) and (1,3)), a click on feather point 2 at (0,100) (the pair is
reported as (2,0), control point 0 is removed, and the entry (0,2) stays selected), then
Delete: the first selected pair is (0,2), `getControlPointIndex` of point 0 is -1, and the
removal stops on the index that does not exist. -/
theorem delete_passes_missing_index :
    (runState boxGeometry (initialState featherOffsetContext (1, 1))
        [.toolAction (actionOf .REMOVE_POINTS),
          .keyDown ⟨.Key_A, ⟨false, true, false, false⟩⟩, .keyUp ⟨.Key_A, NoModifier⟩,
          .penDown ⟨0, 100⟩, .penUp]).map
        (fun s => (s.selectedCps, (s.context.bezier 0).points,
          s.context.getControlPointIndex 0 0))
        = some ([(0, 2), (1, 3)], [1], -1) ∧
      runFault boxGeometry (initialState featherOffsetContext (1, 1))
        [.toolAction (actionOf .REMOVE_POINTS),
          .keyDown ⟨.Key_A, ⟨false, true, false, false⟩⟩, .keyUp ⟨.Key_A, NoModifier⟩,
          .penDown ⟨0, 100⟩, .penUp, plainKey .Key_Delete]
        = some .indexOutOfRange := by
  decide!

/-- C8: Delete removes a curve that is not in the selected-curve set. In the controller
opened on `twoShapesContext`: the tool action Select All, a rectangle selection from
(-50,-50) to (15,15) around the four points of curve 0 (line 892 selects every curve in the
collection), release, the tool action Select Curves (the selected points are reset): the
selected-curve set is curve 0 alone and no point is selected; Delete then empties the
collection, curve 1 included. -/
theorem delete_removes_unselected_curve :
    (runState boxGeometry (initialState twoShapesContext (1, 1))
        [.toolAction (actionOf .SELECT_ALL), .penDown ⟨-50, -50⟩, .penMotion ⟨15, 15⟩, .penUp,
          .toolAction (actionOf .SELECT_CURVES)]).map
        (fun s => (s.selectedCps, s.selectedBeziers, s.context.selection, s.context.curves))
        = some ([], [0], [0, 1], [0, 1]) ∧
      (runState boxGeometry (initialState twoShapesContext (1, 1))
        [.toolAction (actionOf .SELECT_ALL), .penDown ⟨-50, -50⟩, .penMotion ⟨15, 15⟩, .penUp,
          .toolAction (actionOf .SELECT_CURVES), plainKey .Key_Delete]).map
        (fun s => (s.selectedBeziers, s.context.curves))
        = some ([], []) := by
  decide!

/-! ## The bounding box of the selected points -/

/-- C13: calling `computeSelectedCpsBBOX` twice in a row, with nothing changed in between
(the selected pairs, the point data and the current time are those of the state), is the
same as calling it once: the state after the second call is the state after the first, the
loop accumulates the same bounds, and the cached box and `showCpsBbox` are the same. -/
theorem computeSelectedCpsBBOX_twice (s : RotoGuiPrivate) :
    computeSelectedCpsBBOX (computeSelectedCpsBBOX s) = computeSelectedCpsBBOX s ∧
      selectedCpsBounds (computeSelectedCpsBBOX s).context (computeSelectedCpsBBOX s).selectedCps
        = selectedCpsBounds s.context s.selectedCps ∧
      (computeSelectedCpsBBOX (computeSelectedCpsBBOX s)).selectedCpsBbox
        = (computeSelectedCpsBBOX s).selectedCpsBbox ∧
      (computeSelectedCpsBBOX (computeSelectedCpsBBOX s)).showCpsBbox
        = (computeSelectedCpsBBOX s).showCpsBbox :=
  ⟨rfl, rfl, rfl, rfl⟩

/-! ## Dragging the selected points -/

/-- A write keeps the kind and the curve of every point when the written value does. -/
theorem writePoint_kind (ctx : RotoContext) (p q : Nat) (f : BezierCP → BezierCP)
    (hf : ∀ c, (f c).feather = c.feather ∧ (f c).curve = c.curve) :
    ((ctx.writePoint p f).cp q).feather = (ctx.cp q).feather ∧
      ((ctx.writePoint p f).cp q).curve = (ctx.cp q).curve := by
  rw [cp_writePoint]
  split
  · exact ⟨(hf _).1, (hf _).2⟩
  · exact ⟨rfl, rfl⟩

/-- A write to `p` leaves every other point as it is. -/
theorem cp_writePoint_ne (ctx : RotoContext) (p q : Nat) (f : BezierCP → BezierCP)
    (h : p ≠ q) : (ctx.writePoint p f).cp q = ctx.cp q := by
  rw [cp_writePoint]
  simp [h]

/-- A write to `p` leaves the write permission of every other point as it is. -/
theorem writeAllowed_writePoint_ne (ctx : RotoContext) (p q : Nat) (f : BezierCP → BezierCP)
    (h : p ≠ q) : (ctx.writePoint p f).writeAllowed q = ctx.writeAllowed q := by
  unfold RotoContext.writeAllowed
  rw [cp_writePoint_ne ctx p q f h, (writePoint_frame ctx p f).2.2.2.1]

/-- The index lookup of a control point that its curve holds, read back. -/
theorem getControlPointIndex_mem (ctx : RotoContext) (b p : Nat)
    (h : p ∈ (ctx.bezier b).points) :
    ctx.getControlPointIndex b p = ((ctx.bezier b).points.indexOf p : Nat) ∧
      (ctx.bezier b).points[(ctx.bezier b).points.indexOf p]? = some p := by
  constructor
  · simp [RotoContext.getControlPointIndex, h]
  · have hlt : (ctx.bezier b).points.indexOf p < (ctx.bezier b).points.length :=
      List.indexOf_lt_length.mpr h
    rw [List.getElem?_eq_getElem hlt]
    simp

/-- One pass of the DRAGGING_CPS loop under SELECT_POINTS: a pair whose first member is a
feather point is skipped; a pair whose first member is a control point of its curve has
that member written with the delta. -/
theorem dragSelectedCp_selectPoints (s : RotoGuiPrivate) (dx dy : ℚ) (it : SelectedCP)
    (htool : s.selectedTool = .SELECT_POINTS)
    (hv : (s.context.cp it.1).feather = false →
      it.1 ∈ (s.context.bezier (s.context.cp it.1).curve).points) :
    dragSelectedCp s dx dy it =
      .ok { s with
            context :=
              if (s.context.cp it.1).feather then s.context
              else s.context.writePoint it.1 (fun c =>
                { c with
                  pos := c.pos.translate dx dy
                  left := c.left.translate dx dy
                  right := c.right.translate dx dy
                  onKeyframe := true }) } := by
  unfold dragSelectedCp
  cases hf : (s.context.cp it.1).feather
  · obtain ⟨h1, h2⟩ := getControlPointIndex_mem s.context _ _ (hv hf)
    have hne : ¬ (((s.context.bezier (s.context.cp it.1).curve).points.indexOf it.1 : Nat) : Int)
        = -1 := by omega
    simp only [htool, h1, hne, movePointByIndex_ok s.context _ _ _ dx dy h2]
    simp
  · have hno : ¬ (s.selectedTool = .SELECT_FEATHER_POINTS ∨ s.selectedTool = .SELECT_ALL) := by
      rw [htool]; decide
    simp only [hno, ↓reduceIte]

/-- The curve behind a pointer depends on the heap of curves only. -/
theorem bezier_congr (ctx ctx1 : RotoContext) (h : ctx1.beziers = ctx.beziers) (b : Nat) :
    ctx1.bezier b = ctx.bezier b := by
  simp [RotoContext.bezier, h]

/-- The DRAGGING_CPS loop under SELECT_POINTS over pairs with distinct first members: the
loop ends; the first member of a pair is left as one write of the delta leaves it when it
is a control point, and every other point is untouched. -/
theorem dragSelectedCps_selectPoints (dx dy : ℚ) (l : List SelectedCP) :
    ∀ s : RotoGuiPrivate, s.selectedTool = .SELECT_POINTS →
      (∀ it ∈ l, (s.context.cp it.1).feather = false →
        it.1 ∈ (s.context.bezier (s.context.cp it.1).curve).points) →
      (l.map Prod.fst).Nodup →
      ∃ ctx1, dragSelectedCps s dx dy l = .ok { s with context := ctx1 } ∧
        ctx1.beziers = s.context.beziers ∧ ctx1.cps.length = s.context.cps.length ∧
        ctx1.autoKeying = s.context.autoKeying ∧
        (∀ q, ((ctx1.cp q).feather = (s.context.cp q).feather ∧
          (ctx1.cp q).curve = (s.context.cp q).curve)) ∧
        (∀ q, (∀ it ∈ l, it.1 = q → (s.context.cp q).feather = true) →
          ctx1.cp q = s.context.cp q) ∧
        (∀ it ∈ l, (s.context.cp it.1).feather = false →
          ctx1.cp it.1 = (s.context.writePoint it.1 (fun c =>
            { c with
              pos := c.pos.translate dx dy
              left := c.left.translate dx dy
              right := c.right.translate dx dy
              onKeyframe := true })).cp it.1) := by
  induction l with
  | nil =>
    intro s _ _ _
    exact ⟨s.context, rfl, rfl, rfl, rfl, fun _ => ⟨rfl, rfl⟩, fun _ _ => rfl,
      fun it hit => absurd hit (List.not_mem_nil it)⟩
  | cons it rest ih =>
    intro s htool hv hnd
    have hstep := dragSelectedCp_selectPoints s dx dy it htool (hv it (List.mem_cons_self _ _))
    rw [List.map_cons, List.nodup_cons] at hnd
    obtain ⟨hnotin, hnd'⟩ := hnd
    -- the collection after the first pass
    generalize hc1 : (if (s.context.cp it.1).feather then s.context
        else s.context.writePoint it.1 (fun c =>
          { c with
            pos := c.pos.translate dx dy
            left := c.left.translate dx dy
            right := c.right.translate dx dy
            onKeyframe := true })) = c1 at hstep
    have hbz : c1.beziers = s.context.beziers := by
      rw [← hc1]; split
      · rfl
      · exact (writePoint_frame _ _ _).1
    have hlen : c1.cps.length = s.context.cps.length := by
      rw [← hc1]; split
      · rfl
      · exact (writePoint_frame _ _ _).2.2.2.2
    have hak : c1.autoKeying = s.context.autoKeying := by
      rw [← hc1]; split
      · rfl
      · exact (writePoint_frame _ _ _).2.2.2.1
    have hkind : ∀ q, (c1.cp q).feather = (s.context.cp q).feather ∧
        (c1.cp q).curve = (s.context.cp q).curve := by
      intro q
      rw [← hc1]; split
      · exact ⟨rfl, rfl⟩
      · exact writePoint_kind _ _ _ _ (fun c => ⟨rfl, rfl⟩)
    have hother : ∀ q, it.1 ≠ q → c1.cp q = s.context.cp q := by
      intro q hq
      rw [← hc1]; split
      · rfl
      · exact cp_writePoint_ne _ _ _ _ hq
    have hallow : ∀ q, it.1 ≠ q → c1.writeAllowed q = s.context.writeAllowed q := by
      intro q hq
      unfold RotoContext.writeAllowed
      rw [hother q hq, hak]
    have hv1 : ∀ jt ∈ rest, (c1.cp jt.1).feather = false →
        jt.1 ∈ (c1.bezier (c1.cp jt.1).curve).points := by
      intro jt hjt hf
      rw [(hkind jt.1).1] at hf
      rw [bezier_congr _ _ hbz, (hkind jt.1).2]
      exact hv jt (List.mem_cons_of_mem _ hjt) hf
    obtain ⟨ctx2, k1, k2, k3, k4, k5, k6, k7⟩ :=
      ih { s with context := c1 } htool hv1 hnd'
    refine ⟨ctx2, ?_, k2.trans hbz, k3.trans hlen, k4.trans hak, ?_, ?_, ?_⟩
    · simp only [dragSelectedCps, hstep]
      exact k1
    · intro q
      exact ⟨(k5 q).1.trans (hkind q).1, (k5 q).2.trans (hkind q).2⟩
    · intro q hq
      have h1 : ctx2.cp q = c1.cp q := by
        apply k6
        intro jt hjt hjq
        have := hq jt (List.mem_cons_of_mem _ hjt) hjq
        simpa [(hkind q).1] using this
      rw [h1]
      cases hf : (s.context.cp it.1).feather
      · have hne : it.1 ≠ q := by
          intro h
          have := hq it (List.mem_cons_self _ _) h
          rw [← h, hf] at this
          exact Bool.false_ne_true this
        exact hother q hne
      · rw [← hc1]; simp [hf]
    · intro jt hjt hf
      rcases List.mem_cons.mp hjt with hjt | hjt
      · subst hjt
        have h1 : ctx2.cp jt.1 = c1.cp jt.1 := by
          apply k6
          intro kt hkt hkq
          exact absurd (List.mem_map.mpr ⟨kt, hkt, hkq⟩) hnotin
        rw [h1, ← hc1]; simp [hf]
      · have hne : it.1 ≠ jt.1 := by
          intro h
          exact hnotin (List.mem_map.mpr ⟨jt, hjt, h.symm⟩)
        have hf1 : (c1.cp jt.1).feather = false := by rw [(hkind jt.1).1]; exact hf
        rw [k7 jt hjt hf1, cp_writePoint, cp_writePoint, hother _ hne, hlen, hallow _ hne]


/-- C11 (counterexample): under SELECT_POINTS in state DRAGGING_CPS, with the selected
pairs (2,0), whose first member is a feather point, and (1,3), whose first member is a
control point, a pointer move from (200,0) to (210,5) is consumed, leaves feather point 2 at
(0,100) and moves control point 1 from (200,0) to (210,5): the control-point entry moves,
the feather-flagged entry does not. -/
theorem select_points_drag_moves_control_entry :
    (mixedSelectionState.state, mixedSelectionState.selectedTool,
        mixedSelectionState.selectedCps) = (.DRAGGING_CPS, .SELECT_POINTS, [(2, 0), (1, 3)]) ∧
      ((mixedSelectionState.context.cp 2).feather, (mixedSelectionState.context.cp 1).feather)
        = (true, false) ∧
      ((mixedSelectionState.context.cp 2).pos, (mixedSelectionState.context.cp 1).pos)
        = (⟨0, 100⟩, ⟨200, 0⟩) ∧
      (penMotion boxGeometry mixedSelectionState ⟨210, 5⟩).toOption.map
        (fun r => (r.1, (r.2.context.cp 2).pos, (r.2.context.cp 1).pos))
        = some (true, ⟨0, 100⟩, ⟨210, 5⟩) := by
  decide!

/-- C11 (amended): in state DRAGGING_CPS under SELECT_POINTS, the selected pairs having
distinct first members and each first member that is a control point being a point of its
curve, a pointer move is consumed and moves no feather point, so the feather-flagged
entries stay where they are; it moves nothing outside the first members of the selected
pairs; the first member of each control-point entry has its position and both handles
moved by the delta when the auto-key policy permits the write (the point is allocated), and
is unchanged when it does not. -/
theorem select_points_drag (g : Geometry) (s : RotoGuiPrivate) (pos : Point)
    (hstate : s.state = .DRAGGING_CPS) (htool : s.selectedTool = .SELECT_POINTS)
    (hv : ∀ it ∈ s.selectedCps, (s.context.cp it.1).feather = false →
      it.1 ∈ (s.context.bezier (s.context.cp it.1).curve).points)
    (hnd : (s.selectedCps.map Prod.fst).Nodup) :
    ∃ s', penMotion g s pos = .ok (true, s') ∧
      (∀ q, (s.context.cp q).feather = true → s'.context.cp q = s.context.cp q) ∧
      (∀ q, (∀ it ∈ s.selectedCps, it.1 ≠ q) → s'.context.cp q = s.context.cp q) ∧
      (∀ it ∈ s.selectedCps, (s.context.cp it.1).feather = false →
        it.1 < s.context.cps.length → s.context.writeAllowed it.1 = true →
        (s'.context.cp it.1).pos =
            (s.context.cp it.1).pos.translate (pos.x - s.lastMousePos.x)
              (pos.y - s.lastMousePos.y) ∧
          (s'.context.cp it.1).left =
            (s.context.cp it.1).left.translate (pos.x - s.lastMousePos.x)
              (pos.y - s.lastMousePos.y) ∧
          (s'.context.cp it.1).right =
            (s.context.cp it.1).right.translate (pos.x - s.lastMousePos.x)
              (pos.y - s.lastMousePos.y)) ∧
      (∀ it ∈ s.selectedCps, s.context.writeAllowed it.1 = false →
        s'.context.cp it.1 = s.context.cp it.1) := by
  obtain ⟨ctx1, k1, _, _, _, _, k6, k7⟩ :=
    dragSelectedCps_selectPoints (pos.x - s.lastMousePos.x) (pos.y - s.lastMousePos.y)
      s.selectedCps s htool hv hnd
  refine ⟨{ computeSelectedCpsBBOX { s with context := ctx1, evaluateOnPenUp := true } with
            lastMousePos := pos }, ?_, ?_, ?_, ?_, ?_⟩
  · simp only [penMotion, hstate, k1]
  · intro q hq
    exact k6 q (fun _ _ _ => hq)
  · intro q hq
    exact k6 q (fun it hit h => absurd h (hq it hit))
  · intro it hit hf hlt hw
    have := k7 it hit hf
    simp only [computeSelectedCpsBBOX_context]
    rw [this, cp_writePoint]
    simp [hlt, hw]
  · intro it hit hw
    simp only [computeSelectedCpsBBOX_context]
    cases hf : (s.context.cp it.1).feather
    · rw [k7 it hit hf, cp_writePoint]
      simp [hw]
    · exact k6 _ (fun _ _ _ => hf)

/-- Witness for C11: `select_points_drag` applied to `mixedSelectionState` and the move to
(210,5): feather point 2 of the feather-flagged pair is unchanged and control point 1 of the
control-point pair is at (210,5). -/
theorem select_points_drag_witness :
    ∃ s', penMotion boxGeometry mixedSelectionState ⟨210, 5⟩ = .ok (true, s') ∧
      s'.context.cp 2 = mixedSelectionState.context.cp 2 ∧
      (s'.context.cp 1).pos = ⟨210, 5⟩ := by
  obtain ⟨s', h1, h2, _, h4, _⟩ :=
    select_points_drag boxGeometry mixedSelectionState ⟨210, 5⟩ (by decide!) (by decide!)
      (by decide!) (by decide!)
  refine ⟨s', h1, h2 2 (by decide!), ?_⟩
  have h := (h4 (1, 3) (by decide!) (by decide!) (by decide!) (by decide!)).1
  rw [h]
  decide!

/-! ## Worked runs on the selection -/

/-- C12: the code leaves the cached box of the selected points stale on three paths.
(1) From the initial state on an empty collection (tool DRAW_BEZIER), clicks at (50,50) and
(100,0): the two new pairs are selected, the cached box is still the reset box and
`showCpsBbox` is false, while a recomputation gives the box of the two points and true.
(2) After a first click at (0,0) the cache agrees with a recomputation; the
BUILDING_BEZIER_CP_TANGENT move to (10,10) puts the handles of the selected point at
(-10,-10) and (10,10) and leaves the cached box as it was. (3) With the pair (1,3) of
`featherBarState` selected, a press on its feather bar at (200,15) enters
DRAGGING_FEATHER_BAR with the cache in agreement; the move to (200,45) takes feather point 3
to (200,30) and leaves the cached box as it was. -/
theorem cached_bbox_goes_stale :
    (runState boxGeometry (initialState emptyContext (1, 1))
        [.penDown ⟨50, 50⟩, .penUp, .penDown ⟨100, 0⟩]).map
        (fun s => (s.selectedCps, (s.selectedCpsBbox, s.showCpsBbox),
          ((computeSelectedCpsBBOX s).selectedCpsBbox, (computeSelectedCpsBBOX s).showCpsBbox)))
        = some ([(0, 1), (2, 3)], (⟨0, 0, 0, 0⟩, false), (⟨50, 50, 50, -50⟩, true)) ∧
      (runState boxGeometry (initialState emptyContext (1, 1)) [.penDown ⟨0, 0⟩]).map
        (fun s => (s.state, s.selectedCps, decide (computeSelectedCpsBBOX s = s)))
        = some (.BUILDING_BEZIER_CP_TANGENT, [(0, 1)], true) ∧
      (runState boxGeometry (initialState emptyContext (1, 1))
        [.penDown ⟨0, 0⟩, .penMotion ⟨10, 10⟩]).map
        (fun s => (s.selectedCps, ((s.context.cp 0).left, (s.context.cp 0).right),
          s.selectedCpsBbox, (computeSelectedCpsBBOX s).selectedCpsBbox))
        = some ([(0, 1)], (⟨-10, -10⟩, ⟨10, 10⟩), ⟨0, 0, 0, 0⟩, ⟨-10, 10, 20, -20⟩) ∧
      (runState barGeometry featherBarState [.penDown ⟨200, 15⟩]).map
        (fun s => (s.state, s.selectedCps, decide (computeSelectedCpsBBOX s = s)))
        = some (.DRAGGING_FEATHER_BAR, [(1, 3)], true) ∧
      (runState barGeometry featherBarState [.penDown ⟨200, 15⟩, .penMotion ⟨200, 45⟩]).map
        (fun s => (s.selectedCps, (s.context.cp 3).pos, s.selectedCpsBbox,
          (computeSelectedCpsBBOX s).selectedCpsBbox))
        = some ([(1, 3)], ⟨200, 30⟩, ⟨200, 40, 0, -40⟩, ⟨200, 30, 0, -30⟩) := by
  refine ⟨by decide!, by decide!, by decide!, by decide!, by decide!⟩

/-- C14: with no point selected, an empty-space click near the origin starts a drag and no
rectangle selection. In the controller on an empty collection under SELECT_ALL, nothing is
selected, sticky selection is off, Shift is not held and no curve is hit: a press at (5,5)
is consumed with state DRAGGING_CPS and the selection rectangle untouched, because
`isNearbySelectedCpsCrossHair` tests the crosshair of the reset box (at the origin) whether
or not a point is selected; the same press at (50,50) gives state SELECTING with the
rectangle degenerate at (50,50); with Shift held the press at (5,5) changes the state to
DRAGGING_CPS as well. -/
theorem empty_click_near_origin_drags :
    ((stateAfter [.toolAction (actionOf .SELECT_ALL)]).selectedTool,
        (stateAfter [.toolAction (actionOf .SELECT_ALL)]).selectedCps,
        (stateAfter [.toolAction (actionOf .SELECT_ALL)]).stickySelectionEnabled,
        (stateAfter [.toolAction (actionOf .SELECT_ALL)]).modifiers.shift,
        (stateAfter [.toolAction (actionOf .SELECT_ALL)]).state)
        = (.SELECT_ALL, [], false, false, .NONE) ∧
      (hitTest boxGeometry (stateAfter [.toolAction (actionOf .SELECT_ALL)]) ⟨5, 5⟩).nearbyBezier
        = none ∧
      (penDown boxGeometry (stateAfter [.toolAction (actionOf .SELECT_ALL)]) ⟨5, 5⟩).toOption.map
        (fun r => (r.1, r.2.state, r.2.selectionRectangle))
        = some (true, .DRAGGING_CPS, ⟨0, 0, 0, 0⟩) ∧
      (penDown boxGeometry (stateAfter [.toolAction (actionOf .SELECT_ALL)]) ⟨50, 50⟩).toOption.map
        (fun r => (r.1, r.2.state, r.2.selectionRectangle))
        = some (true, .SELECTING, ⟨50, 50, 0, 0⟩) ∧
      (penDown boxGeometry (stateAfter [.toolAction (actionOf .SELECT_ALL), shiftKey])
        ⟨5, 5⟩).toOption.map (fun r => (r.1, r.2.state))
        = some (true, .DRAGGING_CPS) := by
  decide!

/-- C17: with no curve under the click the feather bar goes before the crosshair. In
`featherBarState` (tool SELECT_ALL, the pair (1,3) selected) the click (200,15) is on no
tangent handle and no control point, near the crosshair of the box of the selected points
and on the feather bar of the pair, and no curve lies within the curve tolerance: the press
gives DRAGGING_FEATHER_BAR. The click (200,9) differs only in that curve 0 lies within the
curve tolerance: the press gives DRAGGING_CPS. -/
theorem feather_bar_beats_crosshair :
    (featherBarState.selectedTool, featherBarState.selectedCps, featherBarState.state)
        = (.SELECT_ALL, [(1, 3)], .NONE) ∧
      (tangentHit barGeometry featherBarState ⟨200, 15⟩,
        (hitTest barGeometry featherBarState ⟨200, 15⟩).nearbyBezier,
        (hitTest barGeometry featherBarState ⟨200, 15⟩).nearbyCP,
        isNearbySelectedCpsCrossHair featherBarState ⟨200, 15⟩,
        isNearbyFeatherBar barGeometry featherBarState ⟨200, 15⟩)
        = (none, none, none, true, some (1, 3)) ∧
      (penDown barGeometry featherBarState ⟨200, 15⟩).toOption.map (fun r => (r.1, r.2.state))
        = some (true, .DRAGGING_FEATHER_BAR) ∧
      (tangentHit barGeometry featherBarState ⟨200, 9⟩,
        (hitTest barGeometry featherBarState ⟨200, 9⟩).nearbyBezier.map (fun nb => nb.curve),
        (hitTest barGeometry featherBarState ⟨200, 9⟩).nearbyCP,
        isNearbySelectedCpsCrossHair featherBarState ⟨200, 9⟩,
        isNearbyFeatherBar barGeometry featherBarState ⟨200, 9⟩)
        = (none, some 0, none, true, some (1, 3)) ∧
      (penDown barGeometry featherBarState ⟨200, 9⟩).toOption.map (fun r => (r.1, r.2.state))
        = some (true, .DRAGGING_CPS) := by
  refine ⟨by decide!, by decide!, by decide!, by decide!, by decide!⟩

/-- C19: presses that change the selection or the state and are not reported as consumed.
In the controller on `rectangleContext`, nothing selected, state NONE: under SELECT_CURVES a
click on the curve at (0,0) selects it and returns false; a click on empty space at (50,50)
enters SELECTING and returns false; under OPEN_CLOSE_CURVE a click on the curve selects it
and returns false. The same click on the curve under SELECT_ALL returns true. -/
theorem select_curves_click_not_consumed :
    ((stateFrom rectangleContext [.toolAction (actionOf .SELECT_CURVES)]).selectedBeziers,
        (stateFrom rectangleContext [.toolAction (actionOf .SELECT_CURVES)]).state)
        = ([], .NONE) ∧
      (penDown boxGeometry (stateFrom rectangleContext [.toolAction (actionOf .SELECT_CURVES)])
        ⟨0, 0⟩).toOption.map (fun r => (r.1, r.2.selectedBeziers, r.2.state))
        = some (false, [0], .NONE) ∧
      (penDown boxGeometry (stateFrom rectangleContext [.toolAction (actionOf .SELECT_CURVES)])
        ⟨50, 50⟩).toOption.map (fun r => (r.1, r.2.selectedBeziers, r.2.state))
        = some (false, [], .SELECTING) ∧
      (penDown boxGeometry (stateFrom rectangleContext [.toolAction (actionOf .OPEN_CLOSE_CURVE)])
        ⟨0, 0⟩).toOption.map (fun r => (r.1, r.2.selectedBeziers, r.2.state))
        = some (false, [0], .NONE) ∧
      (penDown boxGeometry (stateFrom rectangleContext [.toolAction (actionOf .SELECT_ALL)])
        ⟨0, 0⟩).toOption.map (fun r => (r.1, r.2.selectedBeziers, r.2.state))
        = some (true, [0], .DRAGGING_CPS) := by
  decide!

/-- C20: pointer and key events edit a locked curve through the selected points. The curve
of `lockedRectangleContext` is locked from the start. A click on it at (0,0) and a rectangle
selection around its points select nothing, but Ctrl+A twice selects the curve and its four
pairs (`lockedSelectionState`). Then (1) a press on the crosshair at (5,22) and a move to
(15,32) move the four corners by (10,10); (2) a press on the handle of point 0 at (5,5) starts
a tangent drag and the move to (5,15) changes its left handle (the delta is counted from the
pointer position recorded before the press); (3) Delete removes the four pairs and the
curve. The curve is locked all along. -/
theorem locked_curve_is_edited :
    ((runState boxGeometry (initialState lockedRectangleContext (1, 1))
        [.toolAction (actionOf .SELECT_ALL), .penDown ⟨0, 0⟩, .penUp]).map
        (fun s => (s.selectedBeziers, s.selectedCps)) = some ([], []) ∧
      (runState boxGeometry (initialState lockedRectangleContext (1, 1))
        [.toolAction (actionOf .SELECT_ALL), .penDown ⟨-50, -50⟩, .penMotion ⟨15, 15⟩,
          .penUp]).map
        (fun s => (s.selectedBeziers, s.selectedCps)) = some ([], [])) ∧
      ((lockedSelectionState.context.bezier 0).locked, lockedSelectionState.selectedBeziers,
        lockedSelectionState.selectedCps, corners lockedSelectionState.context 0,
        (lockedSelectionState.context.cp 0).left)
        = (true, [0], [(0, 4), (1, 5), (2, 6), (3, 7)],
            [⟨0, 0⟩, ⟨10, 0⟩, ⟨10, 10⟩, ⟨0, 10⟩], ⟨0, 0⟩) ∧
      (runState boxGeometry lockedSelectionState
        [.penDown ⟨5, 22⟩, .penMotion ⟨15, 32⟩, .penUp]).map
        (fun s => ((s.context.bezier 0).locked, corners s.context 0))
        = some (true, [⟨10, 10⟩, ⟨20, 10⟩, ⟨20, 20⟩, ⟨10, 20⟩]) ∧
      (runState boxGeometry lockedSelectionState
        [.penDown ⟨5, 5⟩, .penMotion ⟨5, 15⟩, .penUp]).map
        (fun s => ((s.context.bezier 0).locked, (s.context.cp 0).pos, (s.context.cp 0).left))
        = some (true, ⟨0, 0⟩, ⟨5, 15⟩) ∧
      (runState boxGeometry lockedSelectionState [plainKey .Key_Delete]).map
        (fun s => ((s.context.bezier 0).locked, s.context.getControlPointsCount 0,
          s.context.curves))
        = some (true, 0, []) := by
  refine ⟨⟨by decide!, by decide!⟩, by decide!, by decide!, by decide!, by decide!⟩

/-! ## A click on empty space under a point-selection tool -/

/-- A click under SELECT_ALL, SELECT_POINTS or SELECT_FEATHER_POINTS with no point selected
that hits no unlocked curve and is away from the crosshair of the cached box: the press is
consumed; a rectangle selection starts at the click (state SELECTING, both selection sets
empty, the selection rectangle degenerate at the click) when sticky selection is off and
Shift is not held; otherwise the selection sets and the state are unchanged. -/
theorem empty_space_click_away_from_crosshair (g : Geometry) (s : RotoGuiPrivate) (pos : Point)
    (htool : s.selectedTool = .SELECT_ALL ∨ s.selectedTool = .SELECT_POINTS ∨
      s.selectedTool = .SELECT_FEATHER_POINTS)
    (hcps : s.selectedCps = []) (hhit : (hitTest g s pos).nearbyBezier = none)
    (hx : isNearbySelectedCpsCrossHair s pos = false) :
    ∃ s', penDown g s pos = .ok (true, s') ∧
      ((s.stickySelectionEnabled = false ∧ s.modifiers.shift = false) →
        s'.state = .SELECTING ∧ s'.selectedBeziers = [] ∧ s'.selectedCps = [] ∧
          s'.selectionRectangle = ⟨pos.x, pos.y, 0, 0⟩) ∧
      (¬ (s.stickySelectionEnabled = false ∧ s.modifiers.shift = false) →
        s'.state = s.state ∧ s'.selectedBeziers = s.selectedBeziers ∧
          s'.selectedCps = s.selectedCps) := by
  have htan : tangentHit g s pos = none := by
    unfold tangentHit
    simp [hcps]
  have hbar : isNearbyFeatherBar g s pos = none := by
    simp [isNearbyFeatherBar, hcps]
  have hsel : penDownSelect g s pos (hitTest g s pos) = (true, beginSelecting s pos) := by
    unfold penDownSelect
    simp only [hhit, hbar, ite_self, hx]
    rfl
  refine ⟨(recordClick pos (true, beginSelecting s pos)).2, ?_, ?_, ?_⟩
  · rcases htool with h | h | h <;> simp [penDown, htan, h, hsel, recordClick]
  · rintro ⟨h1, h2⟩
    simp [recordClick, beginSelecting, h1, h2, clearSelection, clearCPSSelection,
      clearBeziersSelection, QRectF.setTopLeft, QRectF.setBottomRight, QRectF.setLeft,
      QRectF.setTop, QRectF.setRight, QRectF.setBottom]
  · intro h
    have hcond : (!s.stickySelectionEnabled && !s.modifiers.shift) = false := by
      cases h1 : s.stickySelectionEnabled <;> cases h2 : s.modifiers.shift <;> simp_all
    simp [recordClick, beginSelecting, hcond]

/-! ## Selection of the curve under the click -/

/-- The selected curves after `handleBezierSelection`. -/
theorem handleBezierSelection_selectedBeziers (s : RotoGuiPrivate) (curve : Nat) :
    (handleBezierSelection s curve).selectedBeziers =
      if curve ∈ s.selectedBeziers then s.selectedBeziers
      else if s.modifiers.shift then s.selectedBeziers ++ [curve] else [curve] := by
  unfold handleBezierSelection
  by_cases h : curve ∈ s.selectedBeziers
  · simp [h]
  · cases hs : s.modifiers.shift <;> simp [h, hs, clearBeziersSelection]

/-- What `handleBezierSelection` leaves alone: the heaps, the selected points and the fields
the press reads afterwards. -/
theorem handleBezierSelection_frame (s : RotoGuiPrivate) (curve : Nat) :
    (handleBezierSelection s curve).context.cps = s.context.cps ∧
      (handleBezierSelection s curve).context.beziers = s.context.beziers ∧
      (handleBezierSelection s curve).context.keyOnCreate = s.context.keyOnCreate ∧
      (handleBezierSelection s curve).selectedCps = s.selectedCps ∧
      (handleBezierSelection s curve).modifiers = s.modifiers ∧
      (handleBezierSelection s curve).state = s.state ∧
      (handleBezierSelection s curve).builtBezier = s.builtBezier ∧
      (handleBezierSelection s curve).selectedTool = s.selectedTool ∧
      (handleBezierSelection s curve).selectedRole = s.selectedRole ∧
      (handleBezierSelection s curve).pixelScale = s.pixelScale ∧
      (handleBezierSelection s curve).tangentBeingDragged = s.tangentBeingDragged := by
  unfold handleBezierSelection
  by_cases h : curve ∈ s.selectedBeziers
  · simp [h]
  · cases hs : s.modifiers.shift
    · simp [h, hs, clearBeziersSelection, RotoContext.select, RotoContext.clearSelection]
    · simp [h, hs, clearBeziersSelection, RotoContext.select, RotoContext.clearSelection]
      split <;> simp

/-- The selected curves are not touched by `handleControlPointSelection`. -/
theorem handleControlPointSelection_selectedBeziers (s : RotoGuiPrivate) (p : SelectedCP) :
    (handleControlPointSelection s p).selectedBeziers = s.selectedBeziers := by
  unfold handleControlPointSelection
  by_cases h : (s.selectedCps.any fun it => p.1 == it.1) = true
  · simp [h]
  · cases hs : s.modifiers.shift <;> simp [h, hs, computeSelectedCpsBBOX]

/-- The selected curves after the case of the three point-selection tools, on a hit. -/
theorem penDownSelect_selectedBeziers (g : Geometry) (s : RotoGuiPrivate) (pos : Point)
    (ht : HitTest) (nb : NearbyBezier) (h : ht.nearbyBezier = some nb) :
    (penDownSelect g s pos ht).2.selectedBeziers =
      (handleBezierSelection s nb.curve).selectedBeziers := by
  unfold penDownSelect
  simp only [h]
  split
  · rfl
  · split
    · exact handleControlPointSelection_selectedBeziers _ _
    · split <;> rfl

/-- C15 (counterexample): with sticky selection enabled and Shift not held, under
SELECT_CURVES, curve 0 is selected and a click hits the unlocked curve 1, which is not
selected: afterwards curve 1 is the only selected curve; curve 0 did not stay selected. -/
theorem sticky_click_replaces_selection :
    (stickyState.stickySelectionEnabled,
        (stateOn stickyState [.toolAction (actionOf .SELECT_CURVES), .penDown ⟨0, 0⟩,
          .penUp]).selectedBeziers,
        (stateOn stickyState [.toolAction (actionOf .SELECT_CURVES), .penDown ⟨0, 0⟩,
          .penUp]).modifiers.shift) = (true, [0], false) ∧
      (hitTest boxGeometry
        (stateOn stickyState [.toolAction (actionOf .SELECT_CURVES), .penDown ⟨0, 0⟩, .penUp])
        ⟨100, 100⟩).nearbyBezier.map (fun nb => nb.curve) = some 1 ∧
      (runState boxGeometry stickyState
        [.toolAction (actionOf .SELECT_CURVES), .penDown ⟨0, 0⟩, .penUp,
          .penDown ⟨100, 100⟩]).map (fun s => (s.stickySelectionEnabled, s.selectedBeziers))
        = some (true, [1]) := by
  refine ⟨by decide!, by decide!, by decide!⟩

/-- C15 (amended): under SELECT_ALL, SELECT_POINTS, SELECT_FEATHER_POINTS, SELECT_CURVES or
OPEN_CLOSE_CURVE, a press that starts no tangent drag and hits an unlocked curve returns,
and: when the hit curve is already selected the selected curves are unchanged; when it is
not and Shift is held, the selected curves stay and the hit curve is added; when it is not
and Shift is not held, the hit curve is the only selected curve, whether sticky selection is
enabled or not (the state `s` is arbitrary). -/
theorem hit_curve_selection (g : Geometry) (s : RotoGuiPrivate) (pos : Point)
    (nb : NearbyBezier)
    (htool : s.selectedTool = .SELECT_ALL ∨ s.selectedTool = .SELECT_POINTS ∨
      s.selectedTool = .SELECT_FEATHER_POINTS ∨ s.selectedTool = .SELECT_CURVES ∨
      s.selectedTool = .OPEN_CLOSE_CURVE)
    (htan : tangentHit g s pos = none)
    (hhit : (hitTest g s pos).nearbyBezier = some nb) :
    ∃ r, penDown g s pos = .ok r ∧
      (nb.curve ∈ s.selectedBeziers → r.2.selectedBeziers = s.selectedBeziers) ∧
      (nb.curve ∉ s.selectedBeziers → s.modifiers.shift = true →
        r.2.selectedBeziers = s.selectedBeziers ++ [nb.curve]) ∧
      (nb.curve ∉ s.selectedBeziers → s.modifiers.shift = false →
        r.2.selectedBeziers = [nb.curve]) := by
  have key : ∀ r : Bool × RotoGuiPrivate,
      r.2.selectedBeziers = (handleBezierSelection s nb.curve).selectedBeziers →
      (nb.curve ∈ s.selectedBeziers → r.2.selectedBeziers = s.selectedBeziers) ∧
      (nb.curve ∉ s.selectedBeziers → s.modifiers.shift = true →
        r.2.selectedBeziers = s.selectedBeziers ++ [nb.curve]) ∧
      (nb.curve ∉ s.selectedBeziers → s.modifiers.shift = false →
        r.2.selectedBeziers = [nb.curve]) := by
    intro r hr
    rw [hr, handleBezierSelection_selectedBeziers]
    refine ⟨fun h => by simp [h], fun h hs => by simp [h, hs], fun h hs => by simp [h, hs]⟩
  rcases htool with h | h | h | h | h
  · refine ⟨recordClick pos (penDownSelect g s pos (hitTest g s pos)), ?_, key _ ?_⟩
    · simp [penDown, htan, h]
    · simpa [recordClick] using penDownSelect_selectedBeziers g s pos _ nb hhit
  · refine ⟨recordClick pos (penDownSelect g s pos (hitTest g s pos)), ?_, key _ ?_⟩
    · simp [penDown, htan, h]
    · simpa [recordClick] using penDownSelect_selectedBeziers g s pos _ nb hhit
  · refine ⟨recordClick pos (penDownSelect g s pos (hitTest g s pos)), ?_, key _ ?_⟩
    · simp [penDown, htan, h]
    · simpa [recordClick] using penDownSelect_selectedBeziers g s pos _ nb hhit
  · refine ⟨recordClick pos (penDownSelectCurves s pos (hitTest g s pos)), ?_, key _ ?_⟩
    · simp [penDown, htan, h]
    · simp [recordClick, penDownSelectCurves, hhit]
  · refine ⟨recordClick pos (penDownOpenClose s (hitTest g s pos)), ?_, key _ ?_⟩
    · simp [penDown, htan, h]
    · simp only [recordClick, penDownOpenClose, hhit]
      by_cases hin : nb.curve ∈ s.selectedBeziers
      · simp [hin, handleBezierSelection]
      · simp [hin]

/-- Witness for C15: `hit_curve_selection` applied to the state of the counterexample (sticky
selection enabled, curve 0 selected, SELECT_CURVES) and the click on curve 1: the selected
curves are curve 1 alone. -/
theorem hit_curve_selection_witness :
    ∃ r, penDown boxGeometry
        (stateOn stickyState [.toolAction (actionOf .SELECT_CURVES), .penDown ⟨0, 0⟩, .penUp])
        ⟨100, 100⟩ = .ok r ∧ r.2.selectedBeziers = [1] := by
  obtain ⟨r, h1, _, _, h4⟩ :=
    hit_curve_selection boxGeometry
      (stateOn stickyState [.toolAction (actionOf .SELECT_CURVES), .penDown ⟨0, 0⟩, .penUp])
      ⟨100, 100⟩ ⟨1, 0, 0, false⟩ (by decide!) (by decide!) (by decide!)
  exact ⟨r, h1, h4 (by decide!) (by decide!)⟩

/-! ## Tangent selection -/

/-- The tangent test on one pair finds a point exactly when a tested member has a handle
under the click; the point found is a tested member and comes with its own test value. -/
theorem tangentSelection_spec (g : Geometry) (s : RotoGuiPrivate) (pos : Point) (tol : ℚ)
    (it : SelectedCP) :
    (∀ p ret, tangentSelection g s pos tol it = some (p, ret) →
        p ∈ testedMembers s it ∧ ret = g.isNearbyTangent s.context p pos.x pos.y tol ∧
          0 ≤ ret) ∧
      ((∃ p ∈ testedMembers s it, 0 ≤ g.isNearbyTangent s.context p pos.x pos.y tol) →
        (tangentSelection g s pos tol it).isSome = true) := by
  unfold tangentSelection testedMembers
  cases s.selectedTool <;> simp
  constructor
  · intro p ret h
    split at h
    · simp at h
      obtain ⟨rfl, rfl⟩ := h
      simp_all
    · split at h
      · simp at h
        obtain ⟨rfl, rfl⟩ := h
        simp_all
      · simp at h
  · intro h
    split
    · rfl
    · split
      · rfl
      · simp_all

/-- The tangent selection over the selected pairs under one of the three point-selection
tools: a point is found exactly when a tested member of a selected pair has a handle under
the click, and the point found is such a member, with its own test value. -/
theorem tangentHit_spec (g : Geometry) (s : RotoGuiPrivate) (pos : Point)
    (htool : s.selectedTool = .SELECT_ALL ∨ s.selectedTool = .SELECT_POINTS ∨
      s.selectedTool = .SELECT_FEATHER_POINTS) :
    (∀ p ret, tangentHit g s pos = some (p, ret) →
        ∃ it ∈ s.selectedCps, p ∈ testedMembers s it ∧
          ret = g.isNearbyTangent s.context p pos.x pos.y (tangentSelectionTol s) ∧ 0 ≤ ret) ∧
      ((∃ it ∈ s.selectedCps, ∃ p ∈ testedMembers s it,
          0 ≤ g.isNearbyTangent s.context p pos.x pos.y (tangentSelectionTol s)) →
        (tangentHit g s pos).isSome = true) := by
  have hguard : s.selectedTool ≠ .CUSP_POINTS ∧ s.selectedTool ≠ .SMOOTH_POINTS ∧
      s.selectedTool ≠ .SELECT_CURVES := by
    rcases htool with h | h | h <;> rw [h] <;> decide
  have hdef : tangentHit g s pos =
      s.selectedCps.findSome? (tangentSelection g s pos (tangentSelectionTol s)) := by
    unfold tangentHit
    exact if_pos hguard
  rw [hdef]
  constructor
  · intro p ret h
    obtain ⟨it, hit, hsel⟩ := List.exists_of_findSome?_eq_some h
    exact ⟨it, hit, (tangentSelection_spec g s pos _ it).1 p ret hsel⟩
  · rintro ⟨it, hit, hp⟩
    have h1 := (tangentSelection_spec g s pos (tangentSelectionTol s) it).2 hp
    cases hf : s.selectedCps.findSome? (tangentSelection g s pos (tangentSelectionTol s)) with
    | some x => rfl
    | none =>
      rw [List.findSome?_eq_none_iff] at hf
      rw [hf it hit] at h1
      exact absurd h1 (by simp)

/-- Under a tool other than the three point-selection tools no tangent handle is tested,
whatever is selected and wherever the click is. -/
theorem tangentHit_other_tool (g : Geometry) (s : RotoGuiPrivate) (pos : Point)
    (htool : s.selectedTool ≠ .SELECT_ALL ∧ s.selectedTool ≠ .SELECT_POINTS ∧
      s.selectedTool ≠ .SELECT_FEATHER_POINTS) : tangentHit g s pos = none := by
  unfold tangentHit
  have hnone : ∀ tol, s.selectedCps.findSome? (tangentSelection g s pos tol) = none := by
    intro tol
    apply findSome?_const_none
    intro a
    obtain ⟨h1, h2, h3⟩ := htool
    cases ht : s.selectedTool <;> simp_all [tangentSelection]
  simp [hnone]

/-- C16 fails in the code: the tangent selection is made under three tools only, against its
own comment "in all cases except cusp/smooth". In `handleState t` the four pairs of the curve
are selected under the tool `t` and the left handle of the selected point 0 is at (-30,-30),
under the click (`isNearbyTangent` reports 0, pixel scale 1, tolerance 8). Under SELECT_ALL
the press starts the drag of that handle. Under SELECT_CURVES, which the guard of line 1070
excludes, and under the eight tools the loop has no branch for, the press starts no tangent
drag and goes on to the case of the tool: SELECT_CURVES clears the selection and starts a
rectangle selection, DRAW_BEZIER, DRAW_ELLIPSE and DRAW_RECTANGLE create a curve (10, 16 and
16 point objects instead of 8). -/
theorem tangent_handle_press_without_drag :
    [Roto_Tool.SELECT_ALL, .SELECT_CURVES, .ADD_POINTS, .REMOVE_POINTS, .REMOVE_FEATHER_POINTS,
        .OPEN_CLOSE_CURVE, .DRAW_BEZIER, .DRAW_B_SPLINE, .DRAW_ELLIPSE, .DRAW_RECTANGLE].map
        (fun t => ((handleState t).selectedTool, (handleState t).selectedCps,
          (handleState t).state, (handleState t).tangentBeingDragged))
        = [Roto_Tool.SELECT_ALL, .SELECT_CURVES, .ADD_POINTS, .REMOVE_POINTS,
            .REMOVE_FEATHER_POINTS, .OPEN_CLOSE_CURVE, .DRAW_BEZIER, .DRAW_B_SPLINE,
            .DRAW_ELLIPSE, .DRAW_RECTANGLE].map
          (fun t => (t, [(0, 4), (1, 5), (2, 6), (3, 7)], .NONE, none)) ∧
      [Roto_Tool.SELECT_ALL, .SELECT_CURVES, .ADD_POINTS, .REMOVE_POINTS, .REMOVE_FEATHER_POINTS,
        .OPEN_CLOSE_CURVE, .DRAW_BEZIER, .DRAW_B_SPLINE, .DRAW_ELLIPSE, .DRAW_RECTANGLE].map
        (fun t => ((handleState t).pixelScale, tangentSelectionTol (handleState t),
          boxGeometry.isNearbyTangent (handleState t).context 0 (-30) (-30)
            (tangentSelectionTol (handleState t))))
        = List.replicate 10 ((1, 1), 8, 0) ∧
      [Roto_Tool.SELECT_ALL, .SELECT_CURVES, .ADD_POINTS, .REMOVE_POINTS, .REMOVE_FEATHER_POINTS,
        .OPEN_CLOSE_CURVE, .DRAW_BEZIER, .DRAW_B_SPLINE, .DRAW_ELLIPSE, .DRAW_RECTANGLE].map
        (fun t => (penDown boxGeometry (handleState t) ⟨-30, -30⟩).toOption.map
          (fun r => (r.1, r.2.state, r.2.tangentBeingDragged, r.2.selectedCps.length,
            r.2.context.cps.length)))
        = [some (true, .DRAGGING_LEFT_TANGENT, some 0, 4, 8),
            some (false, .SELECTING, none, 0, 8),
            some (false, .NONE, none, 4, 8),
            some (false, .NONE, none, 4, 8),
            some (false, .NONE, none, 0, 8),
            some (false, .NONE, none, 4, 8),
            some (true, .BUILDING_BEZIER_CP_TANGENT, none, 5, 10),
            some (false, .NONE, none, 4, 8),
            some (true, .BUILDING_ELLIPSE, none, 4, 16),
            some (true, .BUILDING_RECTANGLE, none, 4, 16)] := by
  refine ⟨by decide!, by decide!, by decide!⟩

/-- The tangent selection where it is made (the integer tolerance is `tangentSelectionTol`):
under SELECT_ALL, SELECT_POINTS or SELECT_FEATHER_POINTS, if a handle of a tested member of a
selected pair (both members under SELECT_ALL, the control point under
SELECT_POINTS, the feather point under SELECT_FEATHER_POINTS) is within the tangent
tolerance of the click, then for such a member `p` the press returns true and changes
nothing but `tangentBeingDragged`, which is `p`, and the state, which is
DRAGGING_LEFT_TANGENT when `isNearbyTangent` reports the left handle (0) and
DRAGGING_RIGHT_TANGENT otherwise: no hit test result, selection or curve is changed. Under
SELECT_CURVES the handles are not tested: the press goes to the SELECT_CURVES case, leaves
`tangentBeingDragged` alone and leaves the state alone or makes it SELECTING. -/
theorem tangent_press (g : Geometry) (s : RotoGuiPrivate) (pos : Point) :
    ((s.selectedTool = .SELECT_ALL ∨ s.selectedTool = .SELECT_POINTS ∨
        s.selectedTool = .SELECT_FEATHER_POINTS) →
      (∃ it ∈ s.selectedCps, ∃ p ∈ testedMembers s it,
        0 ≤ g.isNearbyTangent s.context p pos.x pos.y (tangentSelectionTol s)) →
      ∃ it ∈ s.selectedCps, ∃ p ∈ testedMembers s it,
        0 ≤ g.isNearbyTangent s.context p pos.x pos.y (tangentSelectionTol s) ∧
        penDown g s pos = .ok (true,
          { s with
            tangentBeingDragged := some p
            state :=
              if g.isNearbyTangent s.context p pos.x pos.y (tangentSelectionTol s) = 0 then
                .DRAGGING_LEFT_TANGENT
              else .DRAGGING_RIGHT_TANGENT })) ∧
      (s.selectedTool = .SELECT_CURVES →
        ∃ s', penDown g s pos = .ok (false, s') ∧
          s'.tangentBeingDragged = s.tangentBeingDragged ∧
          (s'.state = s.state ∨ s'.state = .SELECTING)) := by
  constructor
  · intro htool hnear
    obtain ⟨h1, h2⟩ := tangentHit_spec g s pos htool
    have hsome := h2 hnear
    cases hf : tangentHit g s pos with
    | none => rw [hf] at hsome; exact absurd hsome (by simp)
    | some x =>
      obtain ⟨p, ret⟩ := x
      obtain ⟨it, hit, hp, hret, hpos⟩ := h1 p ret hf
      refine ⟨it, hit, p, hp, hret ▸ hpos, ?_⟩
      simp only [penDown, hf, hret]
  · intro htool
    have hf : tangentHit g s pos = none := by
      simp [tangentHit, htool]
    refine ⟨(recordClick pos (penDownSelectCurves s pos (hitTest g s pos))).2, ?_, ?_, ?_⟩
    · simp [penDown, hf, htool, recordClick, penDownSelectCurves]
      cases (hitTest g s pos).nearbyBezier <;> rfl
    · simp only [recordClick, penDownSelectCurves]
      cases (hitTest g s pos).nearbyBezier with
      | none =>
        simp only [beginSelecting]
        split <;> rfl
      | some nb => exact (handleBezierSelection_frame s nb.curve).2.2.2.2.2.2.2.2.2.2
    · simp only [recordClick, penDownSelectCurves]
      cases (hitTest g s pos).nearbyBezier with
      | none =>
        simp only [beginSelecting]
        split
        · right; rfl
        · left; rfl
      | some nb => left; exact (handleBezierSelection_frame s nb.curve).2.2.2.2.2.1

/-- A worked instance of `tangent_press`, applied to `selectedPointState` (SELECT_ALL, the pair
(10,14) selected) and a click on the handles at (110,110): the press is consumed, the state
is DRAGGING_LEFT_TANGENT and the point dragged is a member of the pair; and applied to
`selectCurvesWithPointsState`: the press under SELECT_CURVES is not a tangent drag. -/
theorem tangent_press_witness :
    (∃ p, (p = 10 ∨ p = 14) ∧
      penDown boxGeometry selectedPointState ⟨110, 110⟩ =
        .ok (true,
          { selectedPointState with
            tangentBeingDragged := some p
            state := .DRAGGING_LEFT_TANGENT })) ∧
      (∃ s', penDown boxGeometry selectCurvesWithPointsState ⟨0, 0⟩ = .ok (false, s') ∧
        s'.tangentBeingDragged = selectCurvesWithPointsState.tangentBeingDragged ∧
        (s'.state = selectCurvesWithPointsState.state ∨ s'.state = .SELECTING)) := by
  constructor
  · obtain ⟨it, hit, p, hp, _, hpd⟩ :=
      (tangent_press boxGeometry selectedPointState ⟨110, 110⟩).1 (by decide!)
        ⟨(10, 14), by decide!, 10, by decide!, by decide!⟩
    have hsel : selectedPointState.selectedCps = [(10, 14)] := by decide!
    rw [hsel, List.mem_singleton] at hit
    subst hit
    have hmem : testedMembers selectedPointState (10, 14) = [10, 14] := by decide!
    rw [hmem] at hp
    have hp' : p = 10 ∨ p = 14 := by simpa using hp
    refine ⟨p, hp', ?_⟩
    rw [hpd]
    rcases hp' with h | h <;> subst h
    · have h0 : boxGeometry.isNearbyTangent selectedPointState.context 10
          (Point.x ⟨110, 110⟩) (Point.y ⟨110, 110⟩) (tangentSelectionTol selectedPointState)
          = 0 := by decide!
      rw [h0]
      rfl
    · have h0 : boxGeometry.isNearbyTangent selectedPointState.context 14
          (Point.x ⟨110, 110⟩) (Point.y ⟨110, 110⟩) (tangentSelectionTol selectedPointState)
          = 0 := by decide!
      rw [h0]
      rfl
  · exact (tangent_press boxGeometry selectCurvesWithPointsState ⟨0, 0⟩).2 (by decide!)

/-! ## A click under DRAW_BEZIER -/

/-- The tolerance-box test reads the heap of points only. -/
theorem nearClick_congr (ctx ctx1 : RotoContext) (h : ctx1.cps = ctx.cps) (pos : Point) (tol : ℚ)
    (p : Nat) : nearClick ctx1 pos tol p = nearClick ctx pos tol p := by
  simp [nearClick, RotoContext.cp, h]

/-- The scan for a point under the click reads the heap of points only. -/
theorem findNear_congr (ctx ctx1 : RotoContext) (h : ctx1.cps = ctx.cps) (pos : Point) (tol : ℚ)
    (l : List Nat) : ∀ i, findNear ctx1 pos tol l i = findNear ctx pos tol l i := by
  induction l with
  | nil => intro i; rfl
  | cons p rest ih =>
    intro i
    simp only [findNear, nearClick_congr ctx ctx1 h, ih]

/-- The scan finds nothing exactly when no point of the list is under the click. -/
theorem findNear_eq_none_iff (ctx : RotoContext) (pos : Point) (tol : ℚ) (l : List Nat) :
    ∀ i, findNear ctx pos tol l i = none ↔ ∀ p ∈ l, nearClick ctx pos tol p = false := by
  induction l with
  | nil => intro i; simp [findNear]
  | cons p rest ih =>
    intro i
    simp only [findNear, List.mem_cons, forall_eq_or_imp]
    cases hp : nearClick ctx pos tol p
    · simp [ih]
    · simp

/-- What the scan finds: a point of the list under the click, with its index. -/
theorem findNear_some (ctx : RotoContext) (pos : Point) (tol : ℚ) (l : List Nat) :
    ∀ i j p, findNear ctx pos tol l i = some (j, p) →
      i ≤ j ∧ l[j - i]? = some p ∧ nearClick ctx pos tol p = true := by
  induction l with
  | nil => intro i j p h; simp [findNear] at h
  | cons q rest ih =>
    intro i j p h
    simp only [findNear] at h
    cases hq : nearClick ctx pos tol q
    · simp only [hq] at h
      obtain ⟨h1, h2, h3⟩ := ih (i + 1) j p (by simpa using h)
      refine ⟨by omega, ?_, h3⟩
      have : j - i = (j - (i + 1)) + 1 := by omega
      rw [this, List.getElem?_cons_succ]
      exact h2
    · simp only [hq, if_true, Option.some.injEq, Prod.mk.injEq] at h
      obtain ⟨rfl, rfl⟩ := h
      simp [hq]

/-- The selected pairs, the state and the collection after `handleControlPointSelection`. -/
theorem handleControlPointSelection_spec (s : RotoGuiPrivate) (p : SelectedCP) :
    (handleControlPointSelection s p).state = .DRAGGING_CPS ∧
      (handleControlPointSelection s p).context = s.context ∧
      (∃ it ∈ (handleControlPointSelection s p).selectedCps, it.1 = p.1) ∧
      ((∀ it ∈ s.selectedCps, it.1 ≠ p.1) → p ∈ (handleControlPointSelection s p).selectedCps) := by
  by_cases h : (s.selectedCps.any fun it => p.1 == it.1) = true
  · have hd : handleControlPointSelection s p = { s with state := .DRAGGING_CPS } := by
      simp only [handleControlPointSelection, h, if_true]
    obtain ⟨it, hit, he⟩ := List.any_eq_true.mp h
    have he' : it.1 = p.1 := (by simpa using he : p.1 = it.1).symm
    rw [hd]
    exact ⟨rfl, rfl, ⟨it, hit, he'⟩, fun hne => absurd he' (hne it hit)⟩
  · have hd : handleControlPointSelection s p =
        { computeSelectedCpsBBOX
            { (if !s.modifiers.shift then { s with selectedCps := [] } else s) with
              selectedCps :=
                (if !s.modifiers.shift then { s with selectedCps := [] } else s).selectedCps ++
                  [p] } with
          state := .DRAGGING_CPS } := by
      simp only [handleControlPointSelection, h]
      rfl
    rw [hd]
    cases hs : s.modifiers.shift
    · exact ⟨rfl, rfl, ⟨p, by simp [computeSelectedCpsBBOX], rfl⟩,
        fun _ => by simp [computeSelectedCpsBBOX]⟩
    · exact ⟨rfl, rfl, ⟨p, by simp [computeSelectedCpsBBOX], rfl⟩,
        fun _ => by simp [computeSelectedCpsBBOX]⟩

/-- The tool after a tool action. -/
theorem onToolActionTriggered_selectedTool (s : RotoGuiPrivate) (act : QAction) :
    (onToolActionTriggered s act).selectedTool = act.tool := by
  unfold onToolActionTriggered
  cases act.role <;> rfl

/-- Under DRAW_BEZIER no tangent handle is tested. -/
theorem tangentHit_drawBezier (g : Geometry) (s : RotoGuiPrivate) (pos : Point)
    (htool : s.selectedTool = .DRAW_BEZIER) : tangentHit g s pos = none := by
  unfold tangentHit
  have hnone : ∀ tol, s.selectedCps.findSome? (tangentSelection g s pos tol) = none := by
    intro tol
    apply findSome?_const_none
    intro a
    simp [tangentSelection, htool]
  simp [hnone]

/-- The continue branch of the DRAW_BEZIER case (lines 1349-1360): no point of the curve
under construction is under the click, and a pair is appended at the click position. -/
theorem penDownDrawBezier_add (s : RotoGuiPrivate) (pos : Point) (b : Nat)
    (hb : s.builtBezier = some b) (halloc : b < s.context.beziers.length)
    (hne : (s.context.bezier b).points ≠ [])
    (hlen : (s.context.bezier b).featherPoints.length = (s.context.bezier b).points.length)
    (hnone : ∀ p ∈ (s.context.bezier b).points,
      nearClick s.context pos (kControlPointSelectionTolerance * s.pixelScale.1) p = false) :
    penDownDrawBezier s pos =
      .ok { returned := false, didSomething := true,
            next :=
              { handleBezierSelection s b with
                context := (handleBezierSelection s b).context.addControlPoint b pos.x pos.y
                selectedCps := s.selectedCps ++ [(s.context.cps.length, s.context.cps.length + 1)]
                evaluateOnPenUp := true
                state := .BUILDING_BEZIER_CP_TANGENT } } := by
  obtain ⟨f1, f2, _, f4, _, _, _, _, _, _, _⟩ := handleBezierSelection_frame s b
  have hbz : (handleBezierSelection s b).context.bezier b = s.context.bezier b :=
    bezier_congr _ _ f2 b
  have hfind : findNear (handleBezierSelection s b).context pos
      (kControlPointSelectionTolerance * s.pixelScale.1)
      ((handleBezierSelection s b).context.bezier b).points 0 = none := by
    rw [hbz, findNear_congr _ _ f1]
    exact (findNear_eq_none_iff _ _ _ _ 0).mpr hnone
  have halloc1 : b < (handleBezierSelection s b).context.beziers.length := by rw [f2]; exact halloc
  obtain ⟨a1, a2, _, _, _⟩ :=
    addControlPoint_spec (handleBezierSelection s b).context b pos.x pos.y halloc1
  have hpos : 0 < (s.context.bezier b).points.length := List.length_pos.mpr hne
  have hcount : ((handleBezierSelection s b).context.addControlPoint b pos.x pos.y).getControlPointsCount b
      = (s.context.bezier b).points.length + 1 := by
    simp [RotoContext.getControlPointsCount, a1, hbz]
  have hcp : ((handleBezierSelection s b).context.addControlPoint b pos.x pos.y).getControlPointAtIndex b
      (((s.context.bezier b).points.length + 1 : Nat) - 1 : Int) = some s.context.cps.length := by
    have : (((s.context.bezier b).points.length + 1 : Nat) - 1 : Int)
        = ((s.context.bezier b).points.length : Nat) := by push_cast; ring
    rw [this]
    simp [RotoContext.getControlPointAtIndex, a1, hbz, f1]
  have hfp : ((handleBezierSelection s b).context.addControlPoint b pos.x pos.y).getFeatherPointAtIndex b
      (((s.context.bezier b).points.length + 1 : Nat) - 1 : Int)
      = some (s.context.cps.length + 1) := by
    have : (((s.context.bezier b).points.length + 1 : Nat) - 1 : Int)
        = ((s.context.bezier b).points.length : Nat) := by push_cast; ring
    rw [this]
    simp only [RotoContext.getFeatherPointAtIndex, a1, hbz, f1, Int.toNat_ofNat,
      Int.natCast_nonneg, if_true]
    rw [← hlen]
    simp
  have hlast : (((s.context.bezier b).points.length + 1 : Nat) - 1 : Int) > 0 := by
    push_cast; omega
  unfold penDownDrawBezier
  simp only [hb, hfind, hcount, hcp, hfp, hlast, if_true, f4]

/-- The closing branch of the DRAW_BEZIER case (lines 1329-1337 and 1345): the starting
point of the curve under construction is under the click. -/
theorem penDownDrawBezier_close (s : RotoGuiPrivate) (pos : Point) (b p0 : Nat)
    (hb : s.builtBezier = some b) (hhead : (s.context.bezier b).points.head? = some p0)
    (hnear : nearClick s.context pos (kControlPointSelectionTolerance * s.pixelScale.1) p0 = true) :
    penDownDrawBezier s pos =
      .ok { returned := true, didSomething := true,
            next :=
              onToolActionTriggered
                { handleBezierSelection s b with
                  context := (handleBezierSelection s b).context.setCurveFinished b true
                  evaluateOnPenUp := true
                  builtBezier := none
                  selectedCps := [] }
                selectAllAction } := by
  obtain ⟨f1, f2, _, _, _, _, _, _, _, _, _⟩ := handleBezierSelection_frame s b
  have hbz : (handleBezierSelection s b).context.bezier b = s.context.bezier b :=
    bezier_congr _ _ f2 b
  have hfind : findNear (handleBezierSelection s b).context pos
      (kControlPointSelectionTolerance * s.pixelScale.1)
      ((handleBezierSelection s b).context.bezier b).points 0 = some (0, p0) := by
    rw [hbz, findNear_congr _ _ f1]
    cases hl : (s.context.bezier b).points with
    | nil => rw [hl] at hhead; simp at hhead
    | cons q rest =>
      rw [hl] at hhead
      simp only [List.head?_cons, Option.some.injEq] at hhead
      subst hhead
      simp [findNear, hnear]
  unfold penDownDrawBezier
  simp only [hb, hfind, if_true]

/-- The selecting branch of the DRAW_BEZIER case (lines 1339-1345): the starting point of
the curve under construction is not under the click and another of its points is; the
first such point is selected with the feather point of its index. -/
theorem penDownDrawBezier_select (s : RotoGuiPrivate) (pos : Point) (b p0 : Nat)
    (hb : s.builtBezier = some b) (hhead : (s.context.bezier b).points.head? = some p0)
    (hlen : (s.context.bezier b).featherPoints.length = (s.context.bezier b).points.length)
    (hfar : nearClick s.context pos (kControlPointSelectionTolerance * s.pixelScale.1) p0 = false)
    (hsome : ∃ p ∈ (s.context.bezier b).points,
      nearClick s.context pos (kControlPointSelectionTolerance * s.pixelScale.1) p = true) :
    ∃ i p fp, 0 < i ∧ (s.context.bezier b).points[i]? = some p ∧
      (s.context.bezier b).featherPoints[i]? = some fp ∧
      nearClick s.context pos (kControlPointSelectionTolerance * s.pixelScale.1) p = true ∧
      penDownDrawBezier s pos =
        .ok { returned := true, didSomething := true,
              next := handleControlPointSelection (handleBezierSelection s b) (p, fp) } := by
  obtain ⟨f1, f2, _, _, _, _, _, _, _, _, _⟩ := handleBezierSelection_frame s b
  have hbz : (handleBezierSelection s b).context.bezier b = s.context.bezier b :=
    bezier_congr _ _ f2 b
  cases hfn : findNear s.context pos (kControlPointSelectionTolerance * s.pixelScale.1)
      (s.context.bezier b).points 0 with
  | none =>
    obtain ⟨p, hp, hpn⟩ := hsome
    rw [(findNear_eq_none_iff _ _ _ _ 0).mp hfn p hp] at hpn
    exact absurd hpn (by simp)
  | some x =>
    obtain ⟨i, p⟩ := x
    obtain ⟨_, h2, h3⟩ := findNear_some _ _ _ _ 0 i p hfn
    simp only [Nat.sub_zero] at h2
    have hi : i ≠ 0 := by
      intro h0
      subst h0
      cases hl : (s.context.bezier b).points with
      | nil => rw [hl] at h2; simp at h2
      | cons q rest =>
        rw [hl] at hhead h2
        simp only [List.head?_cons, Option.some.injEq] at hhead
        simp only [List.getElem?_cons_zero, Option.some.injEq] at h2
        rw [← h2, hhead, hfar] at h3
        exact absurd h3 (by simp)
    have hilt : i < (s.context.bezier b).featherPoints.length := by
      rw [hlen]
      by_contra hge
      rw [List.getElem?_eq_none (by omega)] at h2
      simp at h2
    refine ⟨i, p, (s.context.bezier b).featherPoints[i], Nat.pos_of_ne_zero hi, h2,
      List.getElem?_eq_getElem hilt, h3, ?_⟩
    have hfind : findNear (handleBezierSelection s b).context pos
        (kControlPointSelectionTolerance * s.pixelScale.1)
        ((handleBezierSelection s b).context.bezier b).points 0 = some (i, p) := by
      rw [hbz, findNear_congr _ _ f1]
      exact hfn
    have hfp : (handleBezierSelection s b).context.getFeatherPointAtIndex b (i : Int)
        = some (s.context.bezier b).featherPoints[i] := by
      simp [RotoContext.getFeatherPointAtIndex, hbz, List.getElem?_eq_getElem hilt]
    unfold penDownDrawBezier
    simp only [hb, hfind, hi, if_false, hfp]

/-- C18: with the tool DRAW_BEZIER and a curve `b` under construction (allocated, with at
least one pair and as many feather points as control points), a press returns true, and:
it adds exactly one pair if and only if no control point of `b` has the click in its
tolerance box; in that case the state is BUILDING_BEZIER_CP_TANGENT and the new control and
feather points are at the click position, appended to the curve and selected; when some
point is under the click, the curve keeps its pairs; when the starting point is under the
click, the curve is finished, `builtBezier` is null, no point is selected and the tool is
SELECT_ALL; when the starting point is not and another point is, the state is DRAGGING_CPS
and the first such point is selected, paired with the feather point of its index when it was
not selected before. -/
theorem drawBezier_click (g : Geometry) (s : RotoGuiPrivate) (pos : Point) (b : Nat)
    (htool : s.selectedTool = .DRAW_BEZIER) (hb : s.builtBezier = some b)
    (halloc : b < s.context.beziers.length)
    (hne : (s.context.bezier b).points ≠ [])
    (hlen : (s.context.bezier b).featherPoints.length = (s.context.bezier b).points.length) :
    ∃ s', penDown g s pos = .ok (true, s') ∧
      (s'.context.getControlPointsCount b = s.context.getControlPointsCount b + 1 ↔
        ∀ p ∈ (s.context.bezier b).points,
          nearClick s.context pos (kControlPointSelectionTolerance * s.pixelScale.1) p = false) ∧
      ((∀ p ∈ (s.context.bezier b).points,
          nearClick s.context pos (kControlPointSelectionTolerance * s.pixelScale.1) p = false) →
        s'.state = .BUILDING_BEZIER_CP_TANGENT ∧
          (s'.context.bezier b).points = (s.context.bezier b).points ++ [s.context.cps.length] ∧
          (s'.context.bezier b).featherPoints =
            (s.context.bezier b).featherPoints ++ [s.context.cps.length + 1] ∧
          (s'.context.cp s.context.cps.length).pos = pos ∧
          (s'.context.cp (s.context.cps.length + 1)).pos = pos ∧
          s'.selectedCps = s.selectedCps ++ [(s.context.cps.length, s.context.cps.length + 1)]) ∧
      ((∃ p ∈ (s.context.bezier b).points,
          nearClick s.context pos (kControlPointSelectionTolerance * s.pixelScale.1) p = true) →
        (s'.context.bezier b).points = (s.context.bezier b).points ∧
          (s'.context.bezier b).featherPoints = (s.context.bezier b).featherPoints) ∧
      (∀ p0, (s.context.bezier b).points.head? = some p0 →
        nearClick s.context pos (kControlPointSelectionTolerance * s.pixelScale.1) p0 = true →
        s'.context.isCurveFinished b = true ∧ s'.builtBezier = none ∧ s'.selectedCps = [] ∧
          s'.selectedTool = .SELECT_ALL) ∧
      (∀ p0, (s.context.bezier b).points.head? = some p0 →
        nearClick s.context pos (kControlPointSelectionTolerance * s.pixelScale.1) p0 = false →
        (∃ p ∈ (s.context.bezier b).points,
          nearClick s.context pos (kControlPointSelectionTolerance * s.pixelScale.1) p = true) →
        s'.state = .DRAGGING_CPS ∧
          ∃ i p fp, 0 < i ∧ (s.context.bezier b).points[i]? = some p ∧
            (s.context.bezier b).featherPoints[i]? = some fp ∧
            nearClick s.context pos (kControlPointSelectionTolerance * s.pixelScale.1) p = true ∧
            (∃ it ∈ s'.selectedCps, it.1 = p) ∧
            ((∀ it ∈ s.selectedCps, it.1 ≠ p) → (p, fp) ∈ s'.selectedCps)) := by
  have htan := tangentHit_drawBezier g s pos htool
  obtain ⟨f1, f2, f3, f4, _, _, _, _, _, _, _⟩ := handleBezierSelection_frame s b
  have hbz : (handleBezierSelection s b).context.bezier b = s.context.bezier b :=
    bezier_congr _ _ f2 b
  have halloc1 : b < (handleBezierSelection s b).context.beziers.length := by rw [f2]; exact halloc
  obtain ⟨p0, hp0⟩ : ∃ p0, (s.context.bezier b).points.head? = some p0 := by
    cases hl : (s.context.bezier b).points with
    | nil => exact absurd hl hne
    | cons q rest => exact ⟨q, rfl⟩
  have hp0mem : p0 ∈ (s.context.bezier b).points := List.mem_of_mem_head? hp0
  by_cases hnone : ∀ p ∈ (s.context.bezier b).points,
      nearClick s.context pos (kControlPointSelectionTolerance * s.pixelScale.1) p = false
  · -- a pair is appended
    have hadd := penDownDrawBezier_add s pos b hb halloc hne hlen hnone
    obtain ⟨a1, a2, _, _, _⟩ :=
      addControlPoint_spec (handleBezierSelection s b).context b pos.x pos.y halloc1
    refine ⟨(recordClick pos (true,
      { handleBezierSelection s b with
        context := (handleBezierSelection s b).context.addControlPoint b pos.x pos.y
        selectedCps := s.selectedCps ++ [(s.context.cps.length, s.context.cps.length + 1)]
        evaluateOnPenUp := true
        state := .BUILDING_BEZIER_CP_TANGENT })).2, ?_, ?_, ?_, ?_, ?_, ?_⟩
    · simp only [penDown, htan, htool, hadd]
      rfl
    · have hc : ((handleBezierSelection s b).context.addControlPoint b pos.x
          pos.y).getControlPointsCount b = s.context.getControlPointsCount b + 1 := by
        simp [RotoContext.getControlPointsCount, a1, hbz]
      exact ⟨fun _ => hnone, fun _ => hc⟩
    · intro _
      refine ⟨rfl, ?_, ?_, ?_, ?_, rfl⟩
      · simp only [recordClick, a1, hbz, f1]
      · simp only [recordClick, a1, hbz, f1]
      · simp only [recordClick, RotoContext.cp, a2, f1]
        rw [List.getElem?_append_right (Nat.le_refl _)]
        simp [newPoint]
      · simp only [recordClick, RotoContext.cp, a2, f1]
        rw [List.getElem?_append_right (Nat.le_add_right _ _)]
        simp [newPoint]
    · rintro ⟨p, hp, hpn⟩
      rw [hnone p hp] at hpn
      exact absurd hpn (by simp)
    · intro q0 _ hq
      have hq0 : q0 = p0 := by simp_all
      rw [hq0, hnone p0 hp0mem] at hq
      exact absurd hq (by simp)
    · rintro q0 _ _ ⟨p, hp, hpn⟩
      rw [hnone p hp] at hpn
      exact absurd hpn (by simp)
  · have hex : ∃ p ∈ (s.context.bezier b).points,
        nearClick s.context pos (kControlPointSelectionTolerance * s.pixelScale.1) p = true := by
      by_contra hcon
      apply hnone
      intro p hp
      cases hpn : nearClick s.context pos (kControlPointSelectionTolerance * s.pixelScale.1) p
      · rfl
      · exact absurd ⟨p, hp, hpn⟩ hcon
    cases hnear0 : nearClick s.context pos (kControlPointSelectionTolerance * s.pixelScale.1) p0
    · -- another point of the curve is selected
      obtain ⟨i, p, fp, hi, h2, h3, h4, hsel⟩ :=
        penDownDrawBezier_select s pos b p0 hb hp0 hlen hnear0 hex
      obtain ⟨c1, c2, c3, c4⟩ :=
        handleControlPointSelection_spec (handleBezierSelection s b) (p, fp)
      refine ⟨handleControlPointSelection (handleBezierSelection s b) (p, fp),
        ?_, ?_, ?_, ?_, ?_, ?_⟩
      · simp only [penDown, htan, htool, hsel]
        rfl
      · simp only [c2, RotoContext.getControlPointsCount, hbz]
        constructor
        · intro h; omega
        · intro h; exact absurd h hnone
      · intro h; exact absurd h hnone
      · intro _
        simp only [c2, hbz, and_self]
      · intro q0 hq0 hq
        have : q0 = p0 := by simp_all
        rw [this, hnear0] at hq
        exact absurd hq (by simp)
      · intro q0 _ _ _
        refine ⟨c1, i, p, fp, hi, h2, h3, h4, c3, ?_⟩
        intro hs
        apply c4
        rw [f4]
        exact hs
    · -- the curve is closed
      have hclose := penDownDrawBezier_close s pos b p0 hb hp0 hnear0
      have hctx := congrArg Prod.fst
        (onToolActionTriggered_context_sel
          { handleBezierSelection s b with
            context := (handleBezierSelection s b).context.setCurveFinished b true
            evaluateOnPenUp := true
            builtBezier := none
            selectedCps := [] }
          selectAllAction)
      simp only [] at hctx
      have hfin := bezier_setCurveFinished (handleBezierSelection s b).context b b true
      simp only [true_and, halloc1, if_true] at hfin
      refine ⟨onToolActionTriggered
        { handleBezierSelection s b with
          context := (handleBezierSelection s b).context.setCurveFinished b true
          evaluateOnPenUp := true
          builtBezier := none
          selectedCps := [] }
        selectAllAction, ?_, ?_, ?_, ?_, ?_, ?_⟩
      · simp only [penDown, htan, htool, hclose]
        rfl
      · simp only [hctx, RotoContext.getControlPointsCount, hfin, hbz]
        constructor
        · intro h; omega
        · intro h; exact absurd h hnone
      · intro h; exact absurd h hnone
      · intro _
        simp only [hctx, hfin, hbz, and_self]
      · intro _ _ _
        refine ⟨?_, ?_, onToolActionTriggered_selectedCps _ _,
          onToolActionTriggered_selectedTool _ _⟩
        · simp only [RotoContext.isCurveFinished, hctx, hfin]
        · rw [onToolActionTriggered_builtBezier]
      · intro q0 hq0 hq
        have : q0 = p0 := by simp_all
        rw [this, hnear0] at hq
        exact absurd hq (by simp)

/-- Witness for C18: `drawBezier_click` applied to `twoPointCurveState`: a click at (50,50),
away from both points, adds a third pair at (50,50) in state BUILDING_BEZIER_CP_TANGENT; a
click on the starting point (0,0) finishes the curve, resets `builtBezier` and switches to
SELECT_ALL; a click on the second point (100,0) enters DRAGGING_CPS and adds no pair. -/
theorem drawBezier_click_witness :
    (∃ s', penDown boxGeometry twoPointCurveState ⟨50, 50⟩ = .ok (true, s') ∧
        s'.context.getControlPointsCount 0 = 3 ∧ s'.state = .BUILDING_BEZIER_CP_TANGENT ∧
        (s'.context.cp 4).pos = ⟨50, 50⟩) ∧
      (∃ s', penDown boxGeometry twoPointCurveState ⟨0, 0⟩ = .ok (true, s') ∧
        (s'.context.bezier 0).points = [0, 2] ∧ s'.context.isCurveFinished 0 = true ∧
        s'.builtBezier = none ∧ s'.selectedTool = .SELECT_ALL) ∧
      (∃ s', penDown boxGeometry twoPointCurveState ⟨100, 0⟩ = .ok (true, s') ∧
        (s'.context.bezier 0).points = [0, 2] ∧ s'.state = .DRAGGING_CPS) := by
  have hpts : (twoPointCurveState.context.bezier 0).points = [0, 2] := by decide!
  have hlen : twoPointCurveState.context.cps.length = 4 := by decide!
  have hcount : twoPointCurveState.context.getControlPointsCount 0 = 2 := by decide!
  refine ⟨?_, ?_, ?_⟩
  · obtain ⟨s', h1, h2, h3, _, _, _⟩ :=
      drawBezier_click boxGeometry twoPointCurveState ⟨50, 50⟩ 0 (by decide!) (by decide!)
        (by decide!) (by decide!) (by decide!)
    have hnone : ∀ p ∈ (twoPointCurveState.context.bezier 0).points,
        nearClick twoPointCurveState.context ⟨50, 50⟩
          (kControlPointSelectionTolerance * twoPointCurveState.pixelScale.1) p = false := by
      decide!
    obtain ⟨k1, _, _, k4, _, _⟩ := h3 hnone
    refine ⟨s', h1, ?_, k1, ?_⟩
    · rw [h2.mpr hnone, hcount]
    · rw [← hlen]; exact k4
  · obtain ⟨s', h1, _, _, h4, h5, _⟩ :=
      drawBezier_click boxGeometry twoPointCurveState ⟨0, 0⟩ 0 (by decide!) (by decide!)
        (by decide!) (by decide!) (by decide!)
    obtain ⟨k1, k2, _, k4⟩ := h5 0 (by decide!) (by decide!)
    refine ⟨s', h1, ?_, k1, k2, k4⟩
    rw [(h4 ⟨0, by decide!, by decide!⟩).1, hpts]
  · obtain ⟨s', h1, _, _, h4, _, h6⟩ :=
      drawBezier_click boxGeometry twoPointCurveState ⟨100, 0⟩ 0 (by decide!) (by decide!)
        (by decide!) (by decide!) (by decide!)
    refine ⟨s', h1, ?_, (h6 0 (by decide!) (by decide!) ⟨2, by decide!, by decide!⟩).1⟩
    rw [(h4 ⟨2, by decide!, by decide!⟩).1, hpts]

/-! ## Supporting facts on the hit test, the crosshair and the cached box -/

/-- The hit test reports unlocked curves only (line 1128). -/
theorem hitTest_unlocked (g : Geometry) (s : RotoGuiPrivate) (pos : Point) (nb : NearbyBezier)
    (h : (hitTest g s pos).nearbyBezier = some nb) : (s.context.bezier nb.curve).locked = false := by
  unfold hitTest at h
  cases hnb : g.isNearbyBezier s.context pos.x pos.y (kBezierSelectionTolerance * s.pixelScale.1) with
  | none => simp [hnb] at h
  | some nb0 =>
    simp only [hnb] at h
    cases hl : (s.context.bezier nb0.curve).locked
    · simp only [hl, Bool.false_eq_true, ↓reduceIte] at h
      have : nb0 = nb := by
        split at h <;> simp at h <;> exact h
      rw [← this]
      exact hl
    · simp [hl] at h

/-- Recording the pointer position keeps the cached box in agreement with a
recomputation. -/
theorem computeSelectedCpsBBOX_lastMousePos (x : RotoGuiPrivate) (pos : Point)
    (h : computeSelectedCpsBBOX x = x) :
    computeSelectedCpsBBOX { x with lastMousePos := pos } = { x with lastMousePos := pos } := by
  have : computeSelectedCpsBBOX { x with lastMousePos := pos } =
      { computeSelectedCpsBBOX x with lastMousePos := pos } := rfl
  rw [this, h]

/-- The drags that recompute the cached box: after a pointer move in state DRAGGING_CPS,
SELECTING, DRAGGING_LEFT_TANGENT or DRAGGING_RIGHT_TANGENT the cached box and `showCpsBbox`
are what `computeSelectedCpsBBOX` gives on the new state. -/
theorem penMotion_recomputes_box (g : Geometry) (s : RotoGuiPrivate) (pos : Point)
    (r : Bool × RotoGuiPrivate)
    (hstate : s.state = .DRAGGING_CPS ∨ s.state = .SELECTING ∨
      s.state = .DRAGGING_LEFT_TANGENT ∨ s.state = .DRAGGING_RIGHT_TANGENT)
    (h : penMotion g s pos = .ok r) : computeSelectedCpsBBOX r.2 = r.2 := by
  have htan : ∀ left (r1 : Bool × RotoGuiPrivate),
      penMotionTangent g s (pos.x - s.lastMousePos.x) (pos.y - s.lastMousePos.y) left = .ok r1 →
      computeSelectedCpsBBOX r1.2 = r1.2 := by
    intro left r1 h1
    unfold penMotionTangent at h1
    cases ht : s.tangentBeingDragged with
    | none => simp [ht] at h1
    | some p =>
      simp only [ht] at h1
      cases hc : s.context.counterPart p with
      | none => simp [hc] at h1
      | some q =>
        simp only [hc, Except.ok.injEq] at h1
        rw [← h1]
        rfl
  unfold penMotion at h
  rcases hstate with hs | hs | hs | hs
  · simp only [hs] at h
    cases hd : dragSelectedCps s (pos.x - s.lastMousePos.x) (pos.y - s.lastMousePos.y)
        s.selectedCps with
    | error f => simp [hd] at h
    | ok s1 =>
      simp only [hd, Except.ok.injEq] at h
      rw [← h]
      exact computeSelectedCpsBBOX_lastMousePos _ pos rfl
  · simp only [hs] at h
    cases hd : refreshSelectionRectangle g s pos with
    | error f => simp [hd] at h
    | ok s1 =>
      simp only [hd, Except.ok.injEq] at h
      rw [← h]
      apply computeSelectedCpsBBOX_lastMousePos
      cases ht : s.selectedTool <;>
        simp [refreshSelectionRectangle, clearSelection, clearCPSSelection,
          clearBeziersSelection, ht] at hd <;>
        (rw [← hd]; rfl)
  · simp only [hs] at h
    cases hd : penMotionTangent g s (pos.x - s.lastMousePos.x) (pos.y - s.lastMousePos.y) true with
    | error f => simp [hd] at h
    | ok r1 =>
      simp only [hd, Except.ok.injEq] at h
      rw [← h]
      exact computeSelectedCpsBBOX_lastMousePos _ pos (htan true r1 hd)
  · simp only [hs] at h
    cases hd : penMotionTangent g s (pos.x - s.lastMousePos.x) (pos.y - s.lastMousePos.y) false with
    | error f => simp [hd] at h
    | ok r1 =>
      simp only [hd, Except.ok.injEq] at h
      rw [← h]
      exact computeSelectedCpsBBOX_lastMousePos _ pos (htan false r1 hd)

/-- With an unlocked curve under the click the crosshair goes first (lines 1150-1161): under
SELECT_ALL, SELECT_POINTS or SELECT_FEATHER_POINTS, a press that starts no tangent drag,
hits a curve and is near the crosshair of the cached box is consumed with state
DRAGGING_CPS, whatever the control-point and feather-bar tests say. -/
theorem crosshair_first_on_curve (g : Geometry) (s : RotoGuiPrivate) (pos : Point)
    (nb : NearbyBezier)
    (htool : s.selectedTool = .SELECT_ALL ∨ s.selectedTool = .SELECT_POINTS ∨
      s.selectedTool = .SELECT_FEATHER_POINTS)
    (htan : tangentHit g s pos = none)
    (hhit : (hitTest g s pos).nearbyBezier = some nb)
    (hx : isNearbySelectedCpsCrossHair s pos = true) :
    ∃ s', penDown g s pos = .ok (true, s') ∧ s'.state = .DRAGGING_CPS := by
  have hx1 : isNearbySelectedCpsCrossHair (handleBezierSelection s nb.curve) pos = true := by
    have hb : (handleBezierSelection s nb.curve).selectedCpsBbox = s.selectedCpsBbox ∧
        (handleBezierSelection s nb.curve).pixelScale = s.pixelScale := by
      unfold handleBezierSelection
      by_cases h : nb.curve ∈ s.selectedBeziers
      · simp [h]
      · cases hs : s.modifiers.shift <;> simp [h, hs, clearBeziersSelection]
    unfold isNearbySelectedCpsCrossHair at hx ⊢
    rw [hb.1, hb.2]
    exact hx
  have hsel : penDownSelect g s pos (hitTest g s pos) =
      (true, { handleBezierSelection s nb.curve with state := .DRAGGING_CPS }) := by
    unfold penDownSelect
    simp only [hhit, hx1, if_true]
  refine ⟨(recordClick pos
    (true, { handleBezierSelection s nb.curve with state := .DRAGGING_CPS })).2, ?_, rfl⟩
  rcases htool with h | h | h <;> simp [penDown, htan, h, hsel, recordClick]

/-! ## The auto-key policy in the tangent drag and the feather-bar drag -/

/-- The point behind `p` after a replacement of element `p` of the heap. -/
theorem cp_updateNth (ctx : RotoContext) (p : Nat) (f : BezierCP → BezierCP)
    (h : p < ctx.cps.length) :
    ({ ctx with cps := updateNth ctx.cps p f } : RotoContext).cp p = f (ctx.cp p) := by
  simp only [RotoContext.cp, getElem?_updateNth, if_true]
  rw [List.getElem?_eq_getElem h]
  rfl

/-- What `dragTangent` does to the point: nothing when the write is not permitted, the
dragged handles otherwise. -/
theorem dragTangent_spec (g : Geometry) (ctx : RotoContext) (p : Nat) (dx dy : ℚ)
    (left : Bool) :
    dragTangent g ctx p dx dy left =
      if ctx.autoKeying || (ctx.cp p).leftOnKeyframe then
        { ctx with
          cps := updateNth ctx.cps p (fun z =>
            { z with
              left := (draggedHandles g (ctx.cp p) dx dy left).1
              right := (draggedHandles g (ctx.cp p) dx dy left).2
              leftOnKeyframe := true
              rightOnKeyframe := true }) }
      else ctx := by
  unfold dragTangent draggedHandles
  cases left <;> rfl

/-- The opposite handle computed by `dragTangent` over the reals: the offset
`(cos a * d, sin a * d)` with `a = atan2 (y - hy) (x - hx)` has length `d`, the point lies
between the dragged handle and the point plus the offset, and when the dragged handle is not
on the point the offset is a non-negative multiple of the vector from the handle to the
point. -/
theorem opposite_offset_real (x y hx hy d : ℝ) (hd : 0 ≤ d) :
    Real.sqrt ((Real.cos (Complex.arg ⟨x - hx, y - hy⟩) * d) ^ 2 +
        (Real.sin (Complex.arg ⟨x - hx, y - hy⟩) * d) ^ 2) = d ∧
      (∃ t : ℝ, 0 ≤ t ∧ t ≤ 1 ∧
        x = hx + t * (x + Real.cos (Complex.arg ⟨x - hx, y - hy⟩) * d - hx) ∧
        y = hy + t * (y + Real.sin (Complex.arg ⟨x - hx, y - hy⟩) * d - hy)) ∧
      ((hx ≠ x ∨ hy ≠ y) → ∃ k : ℝ, 0 ≤ k ∧
        Real.cos (Complex.arg ⟨x - hx, y - hy⟩) * d = k * (x - hx) ∧
        Real.sin (Complex.arg ⟨x - hx, y - hy⟩) * d = k * (y - hy)) := by
  have hlen : Real.sqrt ((Real.cos (Complex.arg ⟨x - hx, y - hy⟩) * d) ^ 2 +
        (Real.sin (Complex.arg ⟨x - hx, y - hy⟩) * d) ^ 2) = d := by
    have : (Real.cos (Complex.arg ⟨x - hx, y - hy⟩) * d) ^ 2 +
        (Real.sin (Complex.arg ⟨x - hx, y - hy⟩) * d) ^ 2 = d ^ 2 := by
      have h1 := Real.cos_sq_add_sin_sq (Complex.arg ⟨x - hx, y - hy⟩)
      nlinarith [h1]
    rw [this, Real.sqrt_sq hd]
  have hray : (hx ≠ x ∨ hy ≠ y) → ∃ k : ℝ, 0 ≤ k ∧
        Real.cos (Complex.arg ⟨x - hx, y - hy⟩) * d = k * (x - hx) ∧
        Real.sin (Complex.arg ⟨x - hx, y - hy⟩) * d = k * (y - hy) := by
    intro hne
    have hz : (⟨x - hx, y - hy⟩ : ℂ) ≠ 0 := by
      intro h0
      have hre := congrArg Complex.re h0
      have him := congrArg Complex.im h0
      simp at hre him
      rcases hne with h | h
      · exact h (by linarith)
      · exact h (by linarith)
    have habs : 0 < Complex.abs ⟨x - hx, y - hy⟩ := Complex.abs.pos hz
    refine ⟨d / Complex.abs ⟨x - hx, y - hy⟩, div_nonneg hd habs.le, ?_, ?_⟩
    · rw [Complex.cos_arg hz]
      field_simp
      ring
    · rw [Complex.sin_arg]
      field_simp
      ring
  refine ⟨hlen, ?_, hray⟩
  by_cases hne : hx ≠ x ∨ hy ≠ y
  · obtain ⟨k, hk, h1, h2⟩ := hray hne
    refine ⟨1 / (k + 1), by positivity, ?_, ?_, ?_⟩
    · rw [div_le_one (by linarith)]
      linarith
    · rw [h1]
      field_simp
      ring
    · rw [h2]
      field_simp
      ring
  · have hxx : hx = x := by
      by_contra h
      exact hne (Or.inl h)
    have hyy : hy = y := by
      by_contra h
      exact hne (Or.inr h)
    exact ⟨0, le_refl 0, zero_le_one, by rw [hxx]; ring, by rw [hyy]; ring⟩

/-- The tangent drag of the collection is the body `dragTangentOver` on the sample of the
point, for a geometry whose `oppositeHandle` is computed with the functions `m`. -/
theorem dragTangent_sample (m : CMath ℚ) (g : Geometry)
    (hg : ∀ x y hx hy ox oy, g.oppositeHandle x y hx hy ox oy =
      ⟨m.cos (m.atan2 (y - hy) (x - hx)) * m.sqrt ((ox - x) * (ox - x) + (oy - y) * (oy - y)),
        m.sin (m.atan2 (y - hy) (x - hx)) * m.sqrt ((ox - x) * (ox - x) + (oy - y) * (oy - y))⟩)
    (ctx : RotoContext) (p : Nat) (dx dy : ℚ) (left : Bool) (hp : p < ctx.cps.length) :
    ((dragTangent g ctx p dx dy left).cp p).sample =
      dragTangentOver m (ctx.cp p).sample (ctx.cp p).leftOnKeyframe dx dy left
        ctx.autoKeying := by
  rw [dragTangent_spec]
  cases hw : (ctx.autoKeying || (ctx.cp p).leftOnKeyframe)
  · cases left <;> simp [dragTangentOver, hw]
  · rw [if_pos rfl, cp_updateNth ctx p _ hp]
    cases left <;>
      simp [dragTangentOver, hw, draggedHandles, hg, BezierCP.sample, Point.translate]

/-- C22: over the real numbers (`sqrt`, `atan2`, `cos`, `sin` the real functions), when the
write is permitted, `dragTangent` on the left handle leaves the position, sets the left handle
to the old one plus the delta, and sets the right handle at the distance of the old right
handle from the point, with the point between the two handles and, when the new left handle
is not on the point, on the ray from the new left handle through the point; the drag of the
right handle is the mirror image. -/
theorem dragTangent_real (m : CMath ℝ)
    (hm : m = ⟨Real.sqrt, fun y x => Complex.arg ⟨x, y⟩, Real.cos, Real.sin⟩)
    (p : Sample ℝ) (isOnKeyframe : Bool) (dx dy : ℝ) (autoKeying : Bool)
    (h : autoKeying = true ∨ isOnKeyframe = true) :
    ((dragTangentOver m p isOnKeyframe dx dy true autoKeying).x = p.x ∧
      (dragTangentOver m p isOnKeyframe dx dy true autoKeying).y = p.y ∧
      (dragTangentOver m p isOnKeyframe dx dy true autoKeying).leftX = p.leftX + dx ∧
      (dragTangentOver m p isOnKeyframe dx dy true autoKeying).leftY = p.leftY + dy ∧
      Real.sqrt (((dragTangentOver m p isOnKeyframe dx dy true autoKeying).rightX - p.x) ^ 2 +
          ((dragTangentOver m p isOnKeyframe dx dy true autoKeying).rightY - p.y) ^ 2) =
        Real.sqrt ((p.rightX - p.x) ^ 2 + (p.rightY - p.y) ^ 2) ∧
      (∃ t : ℝ, 0 ≤ t ∧ t ≤ 1 ∧
        p.x = (p.leftX + dx) + t *
          ((dragTangentOver m p isOnKeyframe dx dy true autoKeying).rightX - (p.leftX + dx)) ∧
        p.y = (p.leftY + dy) + t *
          ((dragTangentOver m p isOnKeyframe dx dy true autoKeying).rightY - (p.leftY + dy))) ∧
      ((p.leftX + dx ≠ p.x ∨ p.leftY + dy ≠ p.y) → ∃ k : ℝ, 0 ≤ k ∧
        (dragTangentOver m p isOnKeyframe dx dy true autoKeying).rightX - p.x =
          k * (p.x - (p.leftX + dx)) ∧
        (dragTangentOver m p isOnKeyframe dx dy true autoKeying).rightY - p.y =
          k * (p.y - (p.leftY + dy)))) ∧
    ((dragTangentOver m p isOnKeyframe dx dy false autoKeying).x = p.x ∧
      (dragTangentOver m p isOnKeyframe dx dy false autoKeying).y = p.y ∧
      (dragTangentOver m p isOnKeyframe dx dy false autoKeying).rightX = p.rightX + dx ∧
      (dragTangentOver m p isOnKeyframe dx dy false autoKeying).rightY = p.rightY + dy ∧
      Real.sqrt (((dragTangentOver m p isOnKeyframe dx dy false autoKeying).leftX - p.x) ^ 2 +
          ((dragTangentOver m p isOnKeyframe dx dy false autoKeying).leftY - p.y) ^ 2) =
        Real.sqrt ((p.leftX - p.x) ^ 2 + (p.leftY - p.y) ^ 2) ∧
      (∃ t : ℝ, 0 ≤ t ∧ t ≤ 1 ∧
        p.x = (p.rightX + dx) + t *
          ((dragTangentOver m p isOnKeyframe dx dy false autoKeying).leftX - (p.rightX + dx)) ∧
        p.y = (p.rightY + dy) + t *
          ((dragTangentOver m p isOnKeyframe dx dy false autoKeying).leftY - (p.rightY + dy))) ∧
      ((p.rightX + dx ≠ p.x ∨ p.rightY + dy ≠ p.y) → ∃ k : ℝ, 0 ≤ k ∧
        (dragTangentOver m p isOnKeyframe dx dy false autoKeying).leftX - p.x =
          k * (p.x - (p.rightX + dx)) ∧
        (dragTangentOver m p isOnKeyframe dx dy false autoKeying).leftY - p.y =
          k * (p.y - (p.rightY + dy)))) := by
  subst hm
  have hw : (autoKeying || isOnKeyframe) = true := by
    rcases h with h | h <;> simp [h]
  constructor
  · obtain ⟨h1, h2, h3⟩ := opposite_offset_real p.x p.y (p.leftX + dx) (p.leftY + dy)
      (Real.sqrt ((p.rightX - p.x) * (p.rightX - p.x) + (p.rightY - p.y) * (p.rightY - p.y)))
      (Real.sqrt_nonneg _)
    simp only [dragTangentOver, hw, if_true, add_sub_cancel_left]
    refine ⟨trivial, trivial, trivial, trivial, ?_, h2, h3⟩
    rw [h1, ← pow_two, ← pow_two]
  · obtain ⟨h1, h2, h3⟩ := opposite_offset_real p.x p.y (p.rightX + dx) (p.rightY + dy)
      (Real.sqrt ((p.leftX - p.x) * (p.leftX - p.x) + (p.leftY - p.y) * (p.leftY - p.y)))
      (Real.sqrt_nonneg _)
    simp only [dragTangentOver, hw, if_true, add_sub_cancel_left, Bool.false_eq_true, if_false]
    refine ⟨trivial, trivial, trivial, trivial, ?_, h2, h3⟩
    rw [h1, ← pow_two, ← pow_two]

/-- Witness for C22: the point (0,0) with left handle (-1,0) and right handle (5,0), left
handle dragged by (-2,-4) with auto-keying: the left handle goes to (-3,-4) and the right handle
to (3,4), at distance 5 on the other side of the point. -/
theorem dragTangent_real_witness :
    (dragTangentOver ⟨Real.sqrt, fun y x => Complex.arg ⟨x, y⟩, Real.cos, Real.sin⟩
        (⟨0, 0, -1, 0, 5, 0⟩ : Sample ℝ) false (-2) (-4) true true).leftX = -3 ∧
      (dragTangentOver ⟨Real.sqrt, fun y x => Complex.arg ⟨x, y⟩, Real.cos, Real.sin⟩
        (⟨0, 0, -1, 0, 5, 0⟩ : Sample ℝ) false (-2) (-4) true true).leftY = -4 ∧
      (dragTangentOver ⟨Real.sqrt, fun y x => Complex.arg ⟨x, y⟩, Real.cos, Real.sin⟩
        (⟨0, 0, -1, 0, 5, 0⟩ : Sample ℝ) false (-2) (-4) true true).rightX = 3 ∧
      (dragTangentOver ⟨Real.sqrt, fun y x => Complex.arg ⟨x, y⟩, Real.cos, Real.sin⟩
        (⟨0, 0, -1, 0, 5, 0⟩ : Sample ℝ) false (-2) (-4) true true).rightY = 4 := by
  obtain ⟨_, _, h3, h4, h5, _, h7⟩ :=
    (dragTangent_real ⟨Real.sqrt, fun y x => Complex.arg ⟨x, y⟩, Real.cos, Real.sin⟩ rfl
      (⟨0, 0, -1, 0, 5, 0⟩ : Sample ℝ) false (-2) (-4) true (Or.inl rfl)).1
  obtain ⟨k, hk, hx, hy⟩ := h7 (Or.inl (by norm_num))
  have h5' := (Real.sqrt_inj (by positivity) (by positivity)).1 h5
  norm_num at h3 h4 hx hy h5'
  rw [hx, hy] at h5'
  have hk1 : k = 1 := by nlinarith
  refine ⟨?_, ?_, ?_, ?_⟩
  · rw [h3]
  · rw [h4]
  · rw [hx, hk1]
    norm_num
  · rw [hy, hk1]
    norm_num

/-! ## The ellipse under construction -/

/-- Reading a point after a permitted write to it. -/
theorem cp_writePoint_self (ctx : RotoContext) (p : Nat) (f : BezierCP → BezierCP)
    (hl : p < ctx.cps.length) (hw : ctx.writeAllowed p = true) :
    (ctx.writePoint p f).cp p = f (ctx.cp p) := by
  rw [cp_writePoint]
  simp [hl, hw]

theorem length_writePoint (ctx : RotoContext) (p : Nat) (f : BezierCP → BezierCP) :
    (ctx.writePoint p f).cps.length = ctx.cps.length :=
  (writePoint_frame ctx p f).2.2.2.2

/-- A write to the control point at an index that exists is the write to that point. -/
theorem writeControlPointAt_ok (ctx : RotoContext) (b i p : Nat) (f : BezierCP → BezierCP)
    (h : (ctx.bezier b).points[i]? = some p) :
    ctx.writeControlPointAt b (i : Int) f = .ok (ctx.writePoint p f) := by
  simp [RotoContext.writeControlPointAt, RotoContext.getControlPointAtIndex, h]

/-- The auto-keying flag is not touched by `handleBezierSelection`. -/
theorem handleBezierSelection_autoKeying (s : RotoGuiPrivate) (curve : Nat) :
    (handleBezierSelection s curve).context.autoKeying = s.context.autoKeying := by
  unfold handleBezierSelection
  by_cases h : curve ∈ s.selectedBeziers
  · simp [h]
  · cases hs : s.modifiers.shift
    · simp [h, hs, clearBeziersSelection, RotoContext.select, RotoContext.clearSelection]
    · simp [h, hs, clearBeziersSelection, RotoContext.select, RotoContext.clearSelection]
      split <;> simp

/-- A sequence of writes leaves the curves, the number of point objects and the auto-keying
flag, and, when no write removes a keyframe of the position curve, takes no write permission
away. -/
theorem writePoints_frame (ws : List (Nat × (BezierCP → BezierCP)))
    (hf : ∀ w, w ∈ ws → ∀ c, c.onKeyframe = true → (w.2 c).onKeyframe = true) :
    ∀ ctx : RotoContext, (∀ z, (ctx.writePoints ws).bezier z = ctx.bezier z) ∧
      (ctx.writePoints ws).cps.length = ctx.cps.length ∧
      (ctx.writePoints ws).autoKeying = ctx.autoKeying ∧
      (∀ q, ctx.writeAllowed q = true → (ctx.writePoints ws).writeAllowed q = true) := by
  induction ws with
  | nil =>
    intro ctx
    exact ⟨fun _ => rfl, rfl, rfl, fun _ h => h⟩
  | cons w rest ih =>
    intro ctx
    obtain ⟨i1, i2, i3, i4⟩ := ih (fun v hv => hf v (List.mem_cons_of_mem _ hv))
      (ctx.writePoint w.1 w.2)
    refine ⟨?_, ?_, ?_, ?_⟩
    · intro z
      exact (i1 z).trans (bezier_writePoint ctx w.1 z w.2)
    · exact i2.trans (length_writePoint ctx w.1 w.2)
    · exact i3.trans (writePoint_frame ctx w.1 w.2).2.2.2.1
    · intro q hq
      exact i4 q (writeAllowed_writePoint ctx w.1 q w.2 (hf w (List.mem_cons_self _ _)) hq)

/-- Reading an allocated point with write permission after a sequence of writes that remove
no keyframe of the position curve: the writes to that point are applied in order. -/
theorem cp_writePoints (q : Nat) (ws : List (Nat × (BezierCP → BezierCP)))
    (hf : ∀ w, w ∈ ws → ∀ c, c.onKeyframe = true → (w.2 c).onKeyframe = true) :
    ∀ ctx : RotoContext, q < ctx.cps.length → ctx.writeAllowed q = true →
      (ctx.writePoints ws).cp q =
        (ws.filter (fun w => decide (w.1 = q))).foldl (fun c w => w.2 c) (ctx.cp q) := by
  induction ws with
  | nil =>
    intro ctx _ _
    rfl
  | cons w rest ih =>
    intro ctx hl hw
    have h := ih (fun v hv => hf v (List.mem_cons_of_mem _ hv))
      (ctx.writePoint w.1 w.2) (by rw [length_writePoint]; exact hl)
      (writeAllowed_writePoint ctx w.1 q w.2 (hf w (List.mem_cons_self _ _)) hw)
    show ((ctx.writePoint w.1 w.2).writePoints rest).cp q = _
    rw [h]
    by_cases hq : w.1 = q
    · rw [hq, cp_writePoint_self ctx q w.2 hl hw]
      simp [List.filter, hq]
    · rw [cp_writePoint_ne ctx w.1 q w.2 hq]
      simp [List.filter, hq]

/-- The four moves of the ellipse remove no keyframe of the position curve. -/
theorem ellipseMoves_keep (p0 p1 p2 p3 : Nat) (dx dy : ℚ) :
    ∀ w, w ∈ ellipseMoves p0 p1 p2 p3 dx dy →
      ∀ c : BezierCP, c.onKeyframe = true → (w.2 c).onKeyframe = true := by
  intro w hw c hc
  simp only [ellipseMoves, List.mem_cons, List.mem_singleton, List.not_mem_nil, or_false] at hw
  rcases hw with h | h | h | h <;> rw [h]

/-- The eight handle writes of the ellipse remove no keyframe of the position curve. -/
theorem ellipseTangentWrites_keep (ctx : RotoContext) (p0 p1 p2 p3 : Nat) :
    ∀ w, w ∈ ellipseTangentWrites ctx p0 p1 p2 p3 →
      ∀ c : BezierCP, c.onKeyframe = true → (w.2 c).onKeyframe = true := by
  intro w hw c hc
  simp only [ellipseTangentWrites, List.mem_cons, List.mem_singleton, List.not_mem_nil,
    or_false] at hw
  rcases hw with h | h | h | h | h | h | h | h <;> rw [h] <;> exact hc

/-- The handle update of the ellipse on a curve of four points is the sequence of its eight
writes. -/
theorem setEllipseTangents_ok (ctx : RotoContext) (b p0 p1 p2 p3 : Nat)
    (hpts : (ctx.bezier b).points = [p0, p1, p2, p3]) :
    setEllipseTangents ctx b = .ok (ctx.writePoints (ellipseTangentWrites ctx p0 p1 p2 p3)) := by
  simp [setEllipseTangents, RotoContext.getControlPointAtIndex, hpts,
    RotoContext.setLeftBezierPoint, RotoContext.setRightBezierPoint,
    RotoContext.writeControlPointAt, bezier_writePoint, bind, Except.bind,
    RotoContext.writePoints, ellipseTangentWrites]

/-- The case BUILDING_ELLIPSE on a curve of four points: the four moves, then the eight
handle writes from the moved positions. -/
theorem penMotionEllipse_ok (s : RotoGuiPrivate) (dx dy : ℚ) (b p0 p1 p2 p3 : Nat)
    (hb : s.builtBezier = some b) (hpts : (s.context.bezier b).points = [p0, p1, p2, p3]) :
    penMotionEllipse s dx dy =
      .ok (true,
        { s with
          context :=
            (s.context.writePoints (ellipseMoves p0 p1 p2 p3 dx dy)).writePoints
              (ellipseTangentWrites (s.context.writePoints (ellipseMoves p0 p1 p2 p3 dx dy))
                p0 p1 p2 p3)
          evaluateOnPenUp := true }) := by
  have hpts4 : ((s.context.writePoints (ellipseMoves p0 p1 p2 p3 dx dy)).bezier b).points =
      [p0, p1, p2, p3] := by
    rw [(writePoints_frame _ (ellipseMoves_keep p0 p1 p2 p3 dx dy) _).1, hpts]
  have ht := setEllipseTangents_ok _ b p0 p1 p2 p3 hpts4
  simp only [RotoContext.writePoints, ellipseMoves, List.foldl] at ht ⊢
  simp [penMotionEllipse, hb, RotoContext.movePointByIndex, RotoContext.writeControlPointAt,
    RotoContext.getControlPointAtIndex, hpts, bezier_writePoint, bind, Except.bind, ht,
    Functor.map, Except.map, pure, Except.pure]

/-- One pointer move in an ellipse under construction whose points are those of the ellipse
between `c` and the recorded pointer position: the move succeeds, the state is again an
ellipse under construction, and the points are those of the ellipse between `c` and the new
pointer position. -/
theorem penMotion_ellipse_step (g : Geometry) (s : RotoGuiPrivate) (pos c : Point) (b : Nat)
    (h : BuildingEllipse s b)
    (hs : controlSamples s.context b = ellipseSamples c s.lastMousePos) :
    ∃ s', penMotion g s pos = .ok (true, s') ∧ BuildingEllipse s' b ∧
      s'.lastMousePos = pos ∧ controlSamples s'.context b = ellipseSamples c pos := by
  obtain ⟨hstate, hb, p0, p1, p2, p3, hpts, hnd, hl0, hl1, hl2, hl3, hw0, hw1, hw2, hw3⟩ := h
  have hok := penMotionEllipse_ok s (pos.x - s.lastMousePos.x) (pos.y - s.lastMousePos.y)
    b p0 p1 p2 p3 hb hpts
  simp only [List.nodup_cons, List.mem_cons, List.mem_singleton, not_or, List.not_mem_nil,
    not_false_eq_true, List.nodup_nil, and_true] at hnd
  obtain ⟨⟨h01, h02, h03⟩, ⟨h12, h13⟩, h23⟩ := hnd
  simp only [controlSamples, controlSample, hpts, List.getElem?_cons_succ,
    List.getElem?_cons_zero, ellipseSamples, sideSample, List.cons.injEq, Prod.mk.injEq,
    and_true] at hs
  obtain ⟨⟨a0, -, -⟩, ⟨a1, -, -⟩, ⟨a2, -, -⟩, ⟨a3, -, -⟩⟩ := hs
  have m0 := cp_writePoints p0 (ellipseMoves p0 p1 p2 p3 (pos.x - s.lastMousePos.x)
    (pos.y - s.lastMousePos.y)) (ellipseMoves_keep _ _ _ _ _ _) s.context hl0 hw0
  have m1 := cp_writePoints p1 (ellipseMoves p0 p1 p2 p3 (pos.x - s.lastMousePos.x)
    (pos.y - s.lastMousePos.y)) (ellipseMoves_keep _ _ _ _ _ _) s.context hl1 hw1
  have m2 := cp_writePoints p2 (ellipseMoves p0 p1 p2 p3 (pos.x - s.lastMousePos.x)
    (pos.y - s.lastMousePos.y)) (ellipseMoves_keep _ _ _ _ _ _) s.context hl2 hw2
  have m3 := cp_writePoints p3 (ellipseMoves p0 p1 p2 p3 (pos.x - s.lastMousePos.x)
    (pos.y - s.lastMousePos.y)) (ellipseMoves_keep _ _ _ _ _ _) s.context hl3 hw3
  obtain ⟨f1, f2, f3, f4⟩ := writePoints_frame
    (ellipseMoves p0 p1 p2 p3 (pos.x - s.lastMousePos.x) (pos.y - s.lastMousePos.y))
    (ellipseMoves_keep _ _ _ _ _ _) s.context
  generalize hc4 : s.context.writePoints
    (ellipseMoves p0 p1 p2 p3 (pos.x - s.lastMousePos.x) (pos.y - s.lastMousePos.y)) = c4
    at hok m0 m1 m2 m3 f1 f2 f3 f4
  simp [ellipseMoves, List.filter, h01, h02, h03, h12, h13, h23, Ne.symm h01, Ne.symm h02,
    Ne.symm h03, Ne.symm h12, Ne.symm h13, Ne.symm h23, a0, a1, a2, a3, Point.translate,
    midpoint] at m0 m1 m2 m3
  have n0 := cp_writePoints p0 (ellipseTangentWrites c4 p0 p1 p2 p3)
    (ellipseTangentWrites_keep _ _ _ _ _) c4
    (by rw [f2]; exact hl0) (f4 _ hw0)
  have n1 := cp_writePoints p1 (ellipseTangentWrites c4 p0 p1 p2 p3)
    (ellipseTangentWrites_keep _ _ _ _ _) c4
    (by rw [f2]; exact hl1) (f4 _ hw1)
  have n2 := cp_writePoints p2 (ellipseTangentWrites c4 p0 p1 p2 p3)
    (ellipseTangentWrites_keep _ _ _ _ _) c4
    (by rw [f2]; exact hl2) (f4 _ hw2)
  have n3 := cp_writePoints p3 (ellipseTangentWrites c4 p0 p1 p2 p3)
    (ellipseTangentWrites_keep _ _ _ _ _) c4
    (by rw [f2]; exact hl3) (f4 _ hw3)
  obtain ⟨t1, t2, t3, t4⟩ := writePoints_frame (ellipseTangentWrites c4 p0 p1 p2 p3)
    (ellipseTangentWrites_keep _ _ _ _ _) c4
  generalize hc12 : c4.writePoints (ellipseTangentWrites c4 p0 p1 p2 p3) = c12
    at hok n0 n1 n2 n3 t1 t2 t3 t4
  simp [ellipseTangentWrites, List.filter, h01, h02, h03, h12, h13, h23, Ne.symm h01,
    Ne.symm h02, Ne.symm h03, Ne.symm h12, Ne.symm h13, Ne.symm h23, m0, m1, m2, m3] at n0 n1 n2 n3
  refine ⟨{ s with context := c12, evaluateOnPenUp := true, lastMousePos := pos }, ?_, ?_, rfl,
    ?_⟩
  · simp [penMotion, hstate, hok]
  · exact ⟨hstate, hb, p0, p1, p2, p3, by simp [t1, f1, hpts],
      by simp [h01, h02, h03, h12, h13, h23], by simp [t2, f2, hl0], by simp [t2, f2, hl1],
      by simp [t2, f2, hl2], by simp [t2, f2, hl3], t4 _ (f4 _ hw0), t4 _ (f4 _ hw1),
      t4 _ (f4 _ hw2), t4 _ (f4 _ hw3)⟩
  · simp only [controlSamples, controlSample, t1, f1, hpts, List.getElem?_cons_succ,
      List.getElem?_cons_zero, ellipseSamples, sideSample, n0, n1, n2, n3, midpoint]
    simp
    refine ⟨⟨?_, ?_, ?_⟩, ⟨?_, ?_, ?_⟩, ⟨?_, ?_, ?_⟩, ?_, ?_, ?_⟩ <;> ring

/-- Any sequence of pointer moves in an ellipse under construction whose points are those of
the ellipse between a point `c` and the recorded pointer position: every move succeeds and
the points are those of the ellipse between `c` and the last pointer position. -/
theorem ellipse_moves (g : Geometry) (b : Nat) (c : Point) (qs : List Point) :
    ∀ s : RotoGuiPrivate, BuildingEllipse s b →
      controlSamples s.context b = ellipseSamples c s.lastMousePos →
      ∃ s', run g s (qs.map Event.penMotion) = .ok s' ∧ BuildingEllipse s' b ∧
        s'.lastMousePos = qs.getLast?.getD s.lastMousePos ∧
        controlSamples s'.context b = ellipseSamples c (qs.getLast?.getD s.lastMousePos) := by
  induction qs with
  | nil =>
    intro s hs hc
    exact ⟨s, rfl, hs, rfl, hc⟩
  | cons q rest ih =>
    intro s hs hc
    obtain ⟨s1, hm, hb1, hl1, hc1⟩ := penMotion_ellipse_step g s q c b hs hc
    rw [← hl1] at hc1
    obtain ⟨s', hr, hb', hl', hc'⟩ := ih s1 hb1 hc1
    refine ⟨s', ?_, hb', ?_, ?_⟩
    · simp [run, step, hm, Except.map, hr]
    · rw [hl', hl1]
      cases rest <;> simp [List.getLast?]
    · rw [hc', hl1]
      cases rest <;> simp [List.getLast?]

/-- A DRAW_ELLIPSE press without Control: no tangent handle is tested, the press is consumed,
the state is an ellipse under construction on the new curve, whose four points and their
handles are at the click position, which is also the recorded pointer position. -/
theorem penDown_drawEllipse (g : Geometry) (s : RotoGuiPrivate) (pos : Point)
    (htool : s.selectedTool = .DRAW_ELLIPSE) (hctl : s.modifiers.control = false)
    (hw : s.context.autoKeying = true ∨ s.context.keyOnCreate = true) :
    ∃ s1, penDown g s pos = .ok (true, s1) ∧ BuildingEllipse s1 s.context.beziers.length ∧
      s1.lastMousePos = pos ∧
      controlSamples s1.context s.context.beziers.length = ellipseSamples pos pos := by
  have hnone : ∀ tol, s.selectedCps.findSome? (tangentSelection g s pos tol) = none := by
    intro tol
    apply findSome?_const_none
    intro a
    simp [tangentSelection, htool]
  obtain ⟨k1, k2, k3, k4⟩ := makeFourPointCurve_spec s.context pos.x pos.y
  obtain ⟨q1, q2, -, -, q5, -, q7, -⟩ := handleBezierSelection_frame
    { s with
      context := (makeFourPointCurve s.context pos.x pos.y).1
      builtBezier := some (makeFourPointCurve s.context pos.x pos.y).2
      evaluateOnPenUp := true }
    (makeFourPointCurve s.context pos.x pos.y).2
  have q8 := handleBezierSelection_autoKeying
    { s with
      context := (makeFourPointCurve s.context pos.x pos.y).1
      builtBezier := some (makeFourPointCurve s.context pos.x pos.y).2
      evaluateOnPenUp := true }
    (makeFourPointCurve s.context pos.x pos.y).2
  simp only [] at q1 q2 q5 q7 q8
  have hbz : ((recordClick pos (penDownDrawEllipse s pos)).2.context.bezier
      s.context.beziers.length).points =
      [s.context.cps.length, s.context.cps.length + 2, s.context.cps.length + 4,
        s.context.cps.length + 6] := by
    rw [← k2]
    simp [recordClick, penDownDrawEllipse, RotoContext.bezier, q2]
  have hcps : (recordClick pos (penDownDrawEllipse s pos)).2.context.cps =
      (makeFourPointCurve s.context pos.x pos.y).1.cps := by
    simp [recordClick, penDownDrawEllipse, q1]
  have hak : (recordClick pos (penDownDrawEllipse s pos)).2.context.autoKeying =
      s.context.autoKeying := by
    simp [recordClick, penDownDrawEllipse, q8, k4]
  have hcp : ∀ j, j < 8 → ∃ f,
      (recordClick pos (penDownDrawEllipse s pos)).2.context.cp (s.context.cps.length + j) =
        newPoint s.context.beziers.length f pos.x pos.y s.context.keyOnCreate := by
    intro j hj
    simp only [RotoContext.cp, hcps, k3]
    rw [List.getElem?_append_right (Nat.le_add_right _ _)]
    simp only [Nat.add_sub_cancel_left]
    interval_cases j <;> simp
  have hwa : ∀ j, j < 8 →
      (recordClick pos (penDownDrawEllipse s pos)).2.context.writeAllowed
        (s.context.cps.length + j) = true := by
    intro j hj
    obtain ⟨f, hf⟩ := hcp j hj
    simp only [RotoContext.writeAllowed, hak, hf, Bool.or_eq_true]
    rcases hw with h | h
    · exact Or.inl h
    · exact Or.inr (by simp [newPoint, h])
  have hwa0 := hwa 0 (by omega)
  simp only [Nat.add_zero] at hwa0
  refine ⟨(recordClick pos (penDownDrawEllipse s pos)).2, ?_, ?_, rfl, ?_⟩
  · simp [penDown, tangentHit, htool, hnone, recordClick, penDownDrawEllipse]
  · refine ⟨?_, ?_, s.context.cps.length, s.context.cps.length + 2,
      s.context.cps.length + 4, s.context.cps.length + 6, hbz, by simp, ?_, ?_, ?_, ?_,
      hwa0, hwa 2 (by omega), hwa 4 (by omega), hwa 6 (by omega)⟩
    · simp [recordClick, penDownDrawEllipse, q5, hctl]
    · show (handleBezierSelection _ _).builtBezier = _
      rw [q7, k1]
    · rw [hcps, k3]; simp
    · rw [hcps, k3]; simp
    · rw [hcps, k3]; simp
    · rw [hcps, k3]; simp
  · obtain ⟨f0, e0⟩ := hcp 0 (by omega)
    obtain ⟨f2, e2⟩ := hcp 2 (by omega)
    obtain ⟨f4, e4⟩ := hcp 4 (by omega)
    obtain ⟨f6, e6⟩ := hcp 6 (by omega)
    simp only [Nat.add_zero] at e0
    simp [controlSamples, controlSample, hbz, ellipseSamples, sideSample, midpoint, e0, e2, e4,
      e6, newPoint]

/-- C23: a DRAW_ELLIPSE press at `p` without Control, with writes permitted (auto-keying
enabled or created points keyed), followed by any sequence of pointer moves: every handler
returns, the state is BUILDING_ELLIPSE on the new curve, and its control points 0..3 are the
midpoints of the four sides of the axis-aligned rectangle spanned by `p` and the last pointer
position, each with its left and right handle on its side, halfway between the point and the
two corners of the side. -/
theorem ellipse_drag (g : Geometry) (s : RotoGuiPrivate) (p : Point) (qs : List Point)
    (htool : s.selectedTool = .DRAW_ELLIPSE) (hctl : s.modifiers.control = false)
    (hw : s.context.autoKeying = true ∨ s.context.keyOnCreate = true) :
    ∃ s', run g s (Event.penDown p :: qs.map Event.penMotion) = .ok s' ∧
      s'.state = .BUILDING_ELLIPSE ∧ s'.builtBezier = some s.context.beziers.length ∧
      (s'.context.bezier s.context.beziers.length).points.length = 4 ∧
      controlSamples s'.context s.context.beziers.length =
        ellipseSamples p (qs.getLast?.getD p) := by
  obtain ⟨s1, h1, hb1, hl1, hc1⟩ := penDown_drawEllipse g s p htool hctl hw
  have hc2 : controlSamples s1.context s.context.beziers.length =
      ellipseSamples p s1.lastMousePos := by
    rw [hc1, hl1]
  obtain ⟨s', hr, hb', -, hc'⟩ := ellipse_moves g s.context.beziers.length p qs s1 hb1 hc2
  rw [hl1] at hc'
  obtain ⟨hst, hbb, p0, p1, p2, p3, hpts, -⟩ := hb'
  refine ⟨s', ?_, hst, hbb, by simp [hpts], hc'⟩
  simp [run, step, h1, Except.map, hr]

/-- Witness for C23: on an empty collection, under DRAW_ELLIPSE, a press at (20,10) and moves
to (30,40) and (60,50): the points are (40,10), (60,30), (40,50), (20,30), the handles
halfway to the corners (20,10), (60,10), (60,50), (20,50). -/
theorem ellipse_drag_witness :
    ∃ s', run boxGeometry (stateAfter [.toolAction (actionOf .DRAW_ELLIPSE)])
        [.penDown ⟨20, 10⟩, .penMotion ⟨30, 40⟩, .penMotion ⟨60, 50⟩] = .ok s' ∧
      controlSamples s'.context 0 =
        [(⟨40, 10⟩, ⟨30, 10⟩, ⟨50, 10⟩), (⟨60, 30⟩, ⟨60, 20⟩, ⟨60, 40⟩),
          (⟨40, 50⟩, ⟨50, 50⟩, ⟨30, 50⟩), (⟨20, 30⟩, ⟨20, 40⟩, ⟨20, 20⟩)] := by
  obtain ⟨s', h1, -, -, -, h2⟩ :=
    ellipse_drag boxGeometry (stateAfter [.toolAction (actionOf .DRAW_ELLIPSE)]) ⟨20, 10⟩
      [⟨30, 40⟩, ⟨60, 50⟩] (by decide!) (by decide!) (Or.inl (by decide!))
  have hlen : (stateAfter [.toolAction (actionOf .DRAW_ELLIPSE)]).context.beziers.length = 0 := by
    decide!
  rw [hlen] at h2
  refine ⟨s', h1, ?_⟩
  rw [h2]
  decide!

/-! ## The feather-bar test -/

/-- With no selected pair `isNearbyFeatherBar` returns the null pair. -/
theorem isNearbyFeatherBar_nil (g : Geometry) (s : RotoGuiPrivate) (pos : Point)
    (h : s.selectedCps = []) : isNearbyFeatherBar g s pos = none := by
  simp [isNearbyFeatherBar, h]

/-- The pair returned by `isNearbyFeatherBar` is a selected pair that passes the test. -/
theorem isNearbyFeatherBar_some (g : Geometry) (s : RotoGuiPrivate) (pos : Point)
    (it : SelectedCP) (h : isNearbyFeatherBar g s pos = some it) :
    it ∈ s.selectedCps ∧ featherBarHit g s pos it = true :=
  ⟨List.mem_of_find?_eq_some h, List.find?_some h⟩

/-- The sloped branch of the test (lines 1875-1880) accepts every point of the line through
the control point and the expanded feather point, whatever its abscissa. -/
theorem featherBarHit_on_line (g : Geometry) (s : RotoGuiPrivate) (it : SelectedCP) (x : ℚ)
    (hacc : 0 < s.pixelScale.2)
    (hcount : 1 < (s.context.bezier (s.context.cp
      (if (s.context.cp it.1).feather then it.2 else it.1)).curve).points.length)
    (hslope : (g.expandToFeatherDistance s.context
        (if (s.context.cp it.1).feather then it.2 else it.1)
        (s.context.cp (if (s.context.cp it.1).feather then it.2 else it.1)).pos
        (s.context.cp (if (s.context.cp it.1).feather then it.1 else it.2)).pos
        (20 * s.pixelScale.1)).2.x ≠
      (s.context.cp (if (s.context.cp it.1).feather then it.2 else it.1)).pos.x) :
    featherBarHit g s
      ⟨x, (s.context.cp (if (s.context.cp it.1).feather then it.2 else it.1)).pos.y +
        ((g.expandToFeatherDistance s.context
            (if (s.context.cp it.1).feather then it.2 else it.1)
            (s.context.cp (if (s.context.cp it.1).feather then it.2 else it.1)).pos
            (s.context.cp (if (s.context.cp it.1).feather then it.1 else it.2)).pos
            (20 * s.pixelScale.1)).2.y -
          (s.context.cp (if (s.context.cp it.1).feather then it.2 else it.1)).pos.y) /
        ((g.expandToFeatherDistance s.context
            (if (s.context.cp it.1).feather then it.2 else it.1)
            (s.context.cp (if (s.context.cp it.1).feather then it.2 else it.1)).pos
            (s.context.cp (if (s.context.cp it.1).feather then it.1 else it.2)).pos
            (20 * s.pixelScale.1)).2.x -
          (s.context.cp (if (s.context.cp it.1).feather then it.2 else it.1)).pos.x) *
        (x - (s.context.cp (if (s.context.cp it.1).feather then it.2 else it.1)).pos.x)⟩ it
      = true := by
  unfold featherBarHit
  simp only [Nat.not_le.mpr hcount, if_false, hslope, decide_eq_true_eq]
  have h0 : ∀ a b c : ℚ, b + a * (x - c) - (a * x + (b - a * c)) = 0 := by
    intro a b c
    ring
  rw [h0, abs_zero]
  linarith

/-- C24 fails in the code: the sloped branch of `isNearbyFeatherBar` tests the whole line. In
`sideBarState` (pixel scale 1, the pair (1,3) selected) the control point is at (0,200) and the
feather point expanded by 20 is at (20,200); the click (1000,203), 980 pixels beyond the end of
that segment, is reported as a hit of the pair, and so is (-1000,197); the press there starts a
feather-bar drag. On the vertical bar of `featherBarState`, from (200,0) to (200,20), the
click (200,1000) beyond the end is not a hit. -/
theorem feather_bar_hit_beyond_segment :
    (sideBarState.selectedTool, sideBarState.selectedCps, sideBarState.state,
        sideBarState.pixelScale) = (.SELECT_ALL, [(1, 3)], .NONE, (1, 1)) ∧
      ((sideBarState.context.cp 1).pos,
        (sideGeometry.expandToFeatherDistance sideBarState.context 1
          (sideBarState.context.cp 1).pos (sideBarState.context.cp 3).pos 20).2)
        = (⟨0, 200⟩, ⟨20, 200⟩) ∧
      isNearbyFeatherBar sideGeometry sideBarState ⟨1000, 203⟩ = some (1, 3) ∧
      isNearbyFeatherBar sideGeometry sideBarState ⟨-1000, 197⟩ = some (1, 3) ∧
      (penDown sideGeometry sideBarState ⟨1000, 203⟩).toOption.map
        (fun r => (r.1, r.2.state, r.2.featherBarBeingDragged))
        = some (true, .DRAGGING_FEATHER_BAR, some 1, some 3) ∧
      isNearbyFeatherBar barGeometry featherBarState ⟨200, 26⟩ = some (1, 3) ∧
      isNearbyFeatherBar barGeometry featherBarState ⟨200, 1000⟩ = none := by
  refine ⟨by decide!, by decide!, by decide!, by decide!, by decide!, by decide!, by decide!⟩

/-! ## The rectangle selection and the selected tool -/

/-- The assertion of `refreshSelectionRectangle` (line 878) fails exactly when the selected
tool is none of SELECT_ALL, SELECT_POINTS and SELECT_FEATHER_POINTS; with one of the three the
function returns. -/
theorem refreshSelectionRectangle_fault (g : Geometry) (s : RotoGuiPrivate) (pos : Point) :
    (refreshSelectionRectangle g s pos = .error .assertFailed ↔
      (s.selectedTool ≠ .SELECT_ALL ∧ s.selectedTool ≠ .SELECT_POINTS ∧
        s.selectedTool ≠ .SELECT_FEATHER_POINTS)) ∧
      ((s.selectedTool = .SELECT_ALL ∨ s.selectedTool = .SELECT_POINTS ∨
        s.selectedTool = .SELECT_FEATHER_POINTS) →
        ∃ s', refreshSelectionRectangle g s pos = .ok s') := by
  cases ht : s.selectedTool <;>
    simp [refreshSelectionRectangle, clearSelection, clearCPSSelection, clearBeziersSelection, ht]

/-- C25 fails in the code: SELECTING is reached under other tools. On `rectangleContext`,
under SELECT_CURVES, a press on empty space at (50,50) returns with state SELECTING and tool
SELECT_CURVES, and the next pointer move stops on the assertion of
`refreshSelectionRectangle`. Under SELECT_ALL the same press enters SELECTING; the key V
pressed during the drag makes DRAW_BEZIER the selected tool with the state still SELECTING,
and the next pointer move stops on the same assertion. Without the key the move returns. -/
theorem selecting_under_other_tool :
    ((stateFrom rectangleContext
          [.toolAction (actionOf .SELECT_CURVES), .penDown ⟨50, 50⟩]).selectedTool,
        (stateFrom rectangleContext
          [.toolAction (actionOf .SELECT_CURVES), .penDown ⟨50, 50⟩]).state)
        = (.SELECT_CURVES, .SELECTING) ∧
      runFault boxGeometry (initialState rectangleContext (1, 1))
        [.toolAction (actionOf .SELECT_CURVES), .penDown ⟨50, 50⟩] = none ∧
      runFault boxGeometry (initialState rectangleContext (1, 1))
        [.toolAction (actionOf .SELECT_CURVES), .penDown ⟨50, 50⟩, .penMotion ⟨60, 60⟩]
        = some .assertFailed ∧
      ((stateFrom rectangleContext
          [.toolAction (actionOf .SELECT_ALL), .penDown ⟨50, 50⟩, plainKey .Key_V]).selectedTool,
        (stateFrom rectangleContext
          [.toolAction (actionOf .SELECT_ALL), .penDown ⟨50, 50⟩, plainKey .Key_V]).state)
        = (.DRAW_BEZIER, .SELECTING) ∧
      runFault boxGeometry (initialState rectangleContext (1, 1))
        [.toolAction (actionOf .SELECT_ALL), .penDown ⟨50, 50⟩, plainKey .Key_V,
          .penMotion ⟨60, 60⟩] = some .assertFailed ∧
      runFault boxGeometry (initialState rectangleContext (1, 1))
        [.toolAction (actionOf .SELECT_ALL), .penDown ⟨50, 50⟩, .penMotion ⟨60, 60⟩] = none := by
  refine ⟨by decide!, by decide!, by decide!, by decide!, by decide!, by decide!⟩

/-! ## The rectangle selection -/

/-- The loop of `refreshSelectionRectangle` over the curves: the pairs of every unlocked curve
inside the rectangle are appended in list order, and every unlocked curve with such a pair is
appended to the selected curves; the collection is not touched. -/
theorem selectWithinRect_spec (g : Geometry) (xmin xmax ymin ymax : ℚ) (mode : Int)
    (curves : List Nat) :
    ∀ s : RotoGuiPrivate,
      (selectWithinRect g xmin xmax ymin ymax mode s curves).context = s.context ∧
      (selectWithinRect g xmin xmax ymin ymax mode s curves).selectedCps =
        s.selectedCps ++
          ((curves.filter (fun b => !(s.context.bezier b).locked)).map
            (fun b => g.controlPointsWithinRect s.context b xmin xmax ymin ymax mode)).flatten ∧
      (selectWithinRect g xmin xmax ymin ymax mode s curves).selectedBeziers =
        s.selectedBeziers ++
          curves.filter (fun b => !(s.context.bezier b).locked &&
            decide (g.controlPointsWithinRect s.context b xmin xmax ymin ymax mode ≠ [])) := by
  induction curves with
  | nil =>
    intro s
    simp [selectWithinRect]
  | cons b rest ih =>
    intro s
    cases hl : (s.context.bezier b).locked
    · by_cases hp : g.controlPointsWithinRect s.context b xmin xmax ymin ymax mode = []
      · have hs : selectWithinRect g xmin xmax ymin ymax mode s (b :: rest) =
            selectWithinRect g xmin xmax ymin ymax mode s rest := by
          simp [selectWithinRect, hl, hp]
        obtain ⟨i1, i2, i3⟩ := ih s
        rw [hs]
        simp [hl, hp, i1, i2, i3]
      · obtain ⟨i1, i2, i3⟩ := ih
          { s with
            selectedCps := s.selectedCps ++
              g.controlPointsWithinRect s.context b xmin xmax ymin ymax mode
            selectedBeziers := s.selectedBeziers ++ [b] }
        simp only [] at i1 i2 i3
        simp [selectWithinRect, hl, hp, i1, i2, i3]
    · obtain ⟨i1, i2, i3⟩ := ih s
      simp [selectWithinRect, hl, i1, i2, i3]

/-- The selection of the collection after `select` on each curve of a list: the curves
selected before and the curves of the list. -/
theorem mem_foldl_select (l : List Nat) :
    ∀ (ctx : RotoContext) (b : Nat),
      b ∈ (l.foldl (fun c z => c.select z) ctx).selection ↔ b ∈ ctx.selection ∨ b ∈ l := by
  induction l with
  | nil =>
    intro ctx b
    simp
  | cons a rest ih =>
    intro ctx b
    simp only [List.foldl_cons, ih, List.mem_cons]
    unfold RotoContext.select
    split
    · constructor
      · rintro (h | h)
        · exact Or.inl h
        · exact Or.inr (Or.inr h)
      · rintro (h | h | h)
        · exact Or.inl h
        · subst h
          exact Or.inl (by assumption)
        · exact Or.inr h
    · simp only [List.mem_append, List.mem_singleton]
      tauto

/-- What `refreshSelectionRectangle` leaves under one of the three point-selection tools: the
selected pairs are the pairs the unlocked curves report inside the rectangle, in render order;
the selected curves are the unlocked curves with such a pair; the selection of the collection
is the whole list of curves (line 892). -/
theorem refreshSelectionRectangle_spec (g : Geometry) (s : RotoGuiPrivate) (pos : Point)
    (mode : Int)
    (hmode : (s.selectedTool = .SELECT_ALL ∧ mode = 0) ∨
      (s.selectedTool = .SELECT_POINTS ∧ mode = 1) ∨
      (s.selectedTool = .SELECT_FEATHER_POINTS ∧ mode = 2)) :
    ∃ s', refreshSelectionRectangle g s pos = .ok s' ∧
      s'.selectedCps =
        ((s.context.curves.filter (fun b => !(s.context.bezier b).locked)).map
          (fun b => g.controlPointsWithinRect s.context.clearSelection b
            (min s.lastClickPos.x pos.x) (max s.lastClickPos.x pos.x)
            (min s.lastClickPos.y pos.y) (max s.lastClickPos.y pos.y) mode)).flatten ∧
      s'.selectedBeziers =
        s.context.curves.filter (fun b => !(s.context.bezier b).locked &&
          decide (g.controlPointsWithinRect s.context.clearSelection b
            (min s.lastClickPos.x pos.x) (max s.lastClickPos.x pos.x)
            (min s.lastClickPos.y pos.y) (max s.lastClickPos.y pos.y) mode ≠ [])) ∧
      (∀ b, b ∈ s'.context.selection ↔ b ∈ s.context.curves) := by
  have key : ∀ s1 : RotoGuiPrivate, s1.context = s.context.clearSelection →
      s1.selectedCps = [] → s1.selectedBeziers = [] →
      (computeSelectedCpsBBOX
        { selectWithinRect g (min s.lastClickPos.x pos.x) (max s.lastClickPos.x pos.x)
            (min s.lastClickPos.y pos.y) (max s.lastClickPos.y pos.y) mode s1 s.context.curves with
          context := s.context.curves.foldl (fun c b => c.select b)
            (selectWithinRect g (min s.lastClickPos.x pos.x) (max s.lastClickPos.x pos.x)
              (min s.lastClickPos.y pos.y) (max s.lastClickPos.y pos.y) mode s1
              s.context.curves).context }).selectedCps =
        ((s.context.curves.filter (fun b => !(s.context.bezier b).locked)).map
          (fun b => g.controlPointsWithinRect s.context.clearSelection b
            (min s.lastClickPos.x pos.x) (max s.lastClickPos.x pos.x)
            (min s.lastClickPos.y pos.y) (max s.lastClickPos.y pos.y) mode)).flatten ∧
      (computeSelectedCpsBBOX
        { selectWithinRect g (min s.lastClickPos.x pos.x) (max s.lastClickPos.x pos.x)
            (min s.lastClickPos.y pos.y) (max s.lastClickPos.y pos.y) mode s1 s.context.curves with
          context := s.context.curves.foldl (fun c b => c.select b)
            (selectWithinRect g (min s.lastClickPos.x pos.x) (max s.lastClickPos.x pos.x)
              (min s.lastClickPos.y pos.y) (max s.lastClickPos.y pos.y) mode s1
              s.context.curves).context }).selectedBeziers =
        s.context.curves.filter (fun b => !(s.context.bezier b).locked &&
          decide (g.controlPointsWithinRect s.context.clearSelection b
            (min s.lastClickPos.x pos.x) (max s.lastClickPos.x pos.x)
            (min s.lastClickPos.y pos.y) (max s.lastClickPos.y pos.y) mode ≠ [])) ∧
      (∀ b, b ∈ (computeSelectedCpsBBOX
        { selectWithinRect g (min s.lastClickPos.x pos.x) (max s.lastClickPos.x pos.x)
            (min s.lastClickPos.y pos.y) (max s.lastClickPos.y pos.y) mode s1 s.context.curves with
          context := s.context.curves.foldl (fun c b => c.select b)
            (selectWithinRect g (min s.lastClickPos.x pos.x) (max s.lastClickPos.x pos.x)
              (min s.lastClickPos.y pos.y) (max s.lastClickPos.y pos.y) mode s1
              s.context.curves).context }).context.selection ↔ b ∈ s.context.curves) := by
    intro s1 hctx hcps hbez
    obtain ⟨i1, i2, i3⟩ := selectWithinRect_spec g (min s.lastClickPos.x pos.x)
      (max s.lastClickPos.x pos.x) (min s.lastClickPos.y pos.y) (max s.lastClickPos.y pos.y)
      mode s.context.curves s1
    have hb : ∀ b, (s.context.clearSelection.bezier b) = s.context.bezier b := fun b => rfl
    refine ⟨?_, ?_, ?_⟩
    · show (selectWithinRect _ _ _ _ _ _ _ _).selectedCps = _
      rw [i2, hcps, hctx]
      simp [hb]
    · show (selectWithinRect _ _ _ _ _ _ _ _).selectedBeziers = _
      rw [i3, hbez, hctx]
      simp [hb]
    · intro b
      simp only [computeSelectedCpsBBOX_context, mem_foldl_select, i1, hctx]
      simp [RotoContext.clearSelection]
  rcases hmode with ⟨ht, hm⟩ | ⟨ht, hm⟩ | ⟨ht, hm⟩ <;>
  · subst hm
    refine ⟨_, ?_, key (clearSelection
      { s with
        selectionRectangle :=
          (s.selectionRectangle.setBottomRight
            ⟨max s.lastClickPos.x pos.x, min s.lastClickPos.y pos.y⟩).setTopLeft
            ⟨min s.lastClickPos.x pos.x, max s.lastClickPos.y pos.y⟩ }) rfl rfl rfl⟩
    simp only [refreshSelectionRectangle, clearSelection, clearCPSSelection,
      clearBeziersSelection, ht]
    rfl

/-- C26 fails in the code on its last part: the selection of the collection is not the
selected-curve set. In the controller opened on `twoShapesContext` under SELECT_ALL, a press at
(-50,-50) and a move to (15,15) draw a rectangle around the four points of curve 0: the
selected pairs are the four pairs of curve 0 and the selected-curve set is curve 0 alone, but
the collection has both curves selected. -/
theorem rectangle_selection_selects_every_curve :
    (runState boxGeometry (initialState twoShapesContext (1, 1))
        [.toolAction (actionOf .SELECT_ALL), .penDown ⟨-50, -50⟩, .penMotion ⟨15, 15⟩]).map
        (fun s => (s.state, s.selectedCps, s.selectedBeziers, s.context.selection,
          s.context.curves))
        = some (.SELECTING, [(0, 4), (1, 5), (2, 6), (3, 7)], [0], [0, 1], [0, 1]) ∧
      (refreshSelectionRectangle boxGeometry
          (stateFrom twoShapesContext [.toolAction (actionOf .SELECT_ALL), .penDown ⟨-50, -50⟩])
          ⟨15, 15⟩).toOption.map (fun s => (s.selectedBeziers, s.context.selection))
        = some ([0], [0, 1]) := by
  refine ⟨by decide!, by decide!⟩

/-! ## The button macros -/

/-- The masked modifiers never equal the Control flag: the mask of `buttonControlAlt` holds
Meta and Alt only. -/
theorem buttonControlAlt_ne_control (e : QMouseEvent) :
    buttonControlAlt e ≠ Qt.ControlModifier := by
  intro h
  have h1 : buttonControlAlt e &&& Qt.ControlModifier = 0 := by
    unfold buttonControlAlt
    rw [Nat.land_assoc]
    have : (Qt.MetaModifier ||| Qt.AltModifier) &&& Qt.ControlModifier = 0 := by decide
    rw [this]
    simp
  rw [h] at h1
  revert h1
  decide

/-- The macro `triggerButtonisRight` holds exactly when the triggering button is the right
button: its second alternative never holds. -/
theorem triggerButtonisRight_iff (e : QMouseEvent) :
    triggerButtonisRight e = true ↔ e.button = Qt.RightButton := by
  simp [triggerButtonisRight, buttonControlAlt_ne_control]

/-- No two of `triggerButtonisLeft`, `triggerButtonisRight` and `triggerButtonisMiddle` hold
for one event. -/
theorem trigger_buttons_exclusive (e : QMouseEvent) :
    ¬ (triggerButtonisLeft e = true ∧ triggerButtonisRight e = true) ∧
      ¬ (triggerButtonisLeft e = true ∧ triggerButtonisMiddle e = true) ∧
      ¬ (triggerButtonisRight e = true ∧ triggerButtonisMiddle e = true) := by
  have hlr : Qt.LeftButton ≠ Qt.RightButton := by decide
  have hlm : Qt.LeftButton ≠ Qt.MiddleButton := by decide
  have hrm : Qt.RightButton ≠ Qt.MiddleButton := by decide
  have hrl : Qt.RightButton ≠ Qt.LeftButton := by decide
  have hna : Qt.NoModifier ≠ Qt.AltModifier := by decide
  refine ⟨?_, ?_, ?_⟩
  · rw [triggerButtonisRight_iff]
    simp only [triggerButtonisLeft, Bool.and_eq_true, decide_eq_true_eq]
    rintro ⟨⟨h1, -⟩, h2⟩
    exact hlr (h1.symm.trans h2)
  · simp only [triggerButtonisLeft, triggerButtonisMiddle, Bool.and_eq_true, Bool.or_eq_true,
      decide_eq_true_eq]
    rintro ⟨⟨h1, h2⟩, h3 | ⟨-, h4⟩⟩
    · exact hlm (h1.symm.trans h3)
    · exact hna (h2.symm.trans h4)
  · rw [triggerButtonisRight_iff]
    simp only [triggerButtonisMiddle, Bool.and_eq_true, Bool.or_eq_true, decide_eq_true_eq]
    rintro ⟨h1, h3 | ⟨h4, -⟩⟩
    · exact hrm (h1.symm.trans h3)
    · exact hrl (h1.symm.trans h4)

/-- C27 fails in the code: `triggerButtonisRight` does not know the right-click emulation.
For the event with triggering button Left, buttons Left and the modifier Meta alone,
`buttonControlAlt` is Meta, `buttonDownIsRight` holds and `triggerButtonisRight` does not; the
event is no left and no middle click either. With Shift held as well the result is the same.
With the modifier Control alone, which `triggerButtonisRight` tests for, the masked modifiers
are empty and the event is a left click. -/
theorem meta_left_click_is_no_right_click :
    buttonControlAlt ⟨Qt.LeftButton, Qt.LeftButton, Qt.MetaModifier⟩ = Qt.MetaModifier ∧
      buttonDownIsRight ⟨Qt.LeftButton, Qt.LeftButton, Qt.MetaModifier⟩ = true ∧
      triggerButtonisRight ⟨Qt.LeftButton, Qt.LeftButton, Qt.MetaModifier⟩ = false ∧
      triggerButtonisLeft ⟨Qt.LeftButton, Qt.LeftButton, Qt.MetaModifier⟩ = false ∧
      triggerButtonisMiddle ⟨Qt.LeftButton, Qt.LeftButton, Qt.MetaModifier⟩ = false ∧
      buttonDownIsRight
        ⟨Qt.LeftButton, Qt.LeftButton, Qt.MetaModifier ||| Qt.ShiftModifier⟩ = true ∧
      triggerButtonisRight
        ⟨Qt.LeftButton, Qt.LeftButton, Qt.MetaModifier ||| Qt.ShiftModifier⟩ = false ∧
      buttonControlAlt ⟨Qt.LeftButton, Qt.LeftButton, Qt.ControlModifier⟩ = Qt.NoModifier ∧
      triggerButtonisRight ⟨Qt.LeftButton, Qt.LeftButton, Qt.ControlModifier⟩ = false ∧
      triggerButtonisLeft ⟨Qt.LeftButton, Qt.LeftButton, Qt.ControlModifier⟩ = true ∧
      triggerButtonisRight ⟨Qt.RightButton, Qt.RightButton, Qt.NoModifier⟩ = true := by
  decide

/-! ## The click position recorded by a press -/

/-- A result that went through `recordClick` holds the click position. -/
theorem map_recordClick (pos : Point) (x : Except Fault (Bool × RotoGuiPrivate))
    (r : Bool × RotoGuiPrivate) (h : x.map (recordClick pos) = .ok r) :
    r.2.lastClickPos = pos ∧ r.2.lastMousePos = pos := by
  cases x with
  | error f => simp [Except.map] at h
  | ok a =>
    simp only [Except.map, Except.ok.injEq] at h
    rw [← h]
    exact ⟨rfl, rfl⟩

/-- A press that starts no tangent drag, under a tool other than DRAW_BEZIER, records the
click position as `lastClickPos` and `lastMousePos` when it returns. -/
theorem penDown_records_click (g : Geometry) (s : RotoGuiPrivate) (pos : Point)
    (r : Bool × RotoGuiPrivate) (hnt : tangentHit g s pos = none)
    (htool : s.selectedTool ≠ .DRAW_BEZIER) (h : penDown g s pos = .ok r) :
    r.2.lastClickPos = pos ∧ r.2.lastMousePos = pos := by
  unfold penDown at h
  rw [hnt] at h
  have hk : ∀ a : Bool × RotoGuiPrivate, Except.ok (ε := Fault) (recordClick pos a) = .ok r →
      r.2.lastClickPos = pos ∧ r.2.lastMousePos = pos := by
    intro a ha
    simp only [Except.ok.injEq] at ha
    rw [← ha]
    exact ⟨rfl, rfl⟩
  cases ht : s.selectedTool <;> simp only [ht] at h htool
  all_goals first
    | exact hk _ h
    | exact map_recordClick pos _ r h
    | exact absurd rfl htool

/-- C28 fails in the code on the two presses that return early. (1) On `rectangleContext` with
the four pairs selected by a rectangle selection that ended at (15,15), a press at (5,5) on the
left handle of point 0 returns true with state DRAGGING_LEFT_TANGENT, `lastClickPos` still
(-50,-50) and `lastMousePos` still (15,15); a pointer move to (5,5), where the pointer already
is, then moves the handle from (0,0) to (-10,-10). (2) Under DRAW_BEZIER, after clicks at
(0,0), (100,0) and (200,0), a press at (100,0) on point 1 of the curve under construction
returns true with state DRAGGING_CPS and both positions still (200,0); a press at (0,0) that
closes the curve returns true with both positions still (200,0). -/
theorem early_return_keeps_old_click_position :
    (penDown boxGeometry
        (stateFrom rectangleContext
          [.toolAction (actionOf .SELECT_ALL), .penDown ⟨-50, -50⟩, .penMotion ⟨15, 15⟩, .penUp])
        ⟨5, 5⟩).toOption.map
        (fun r => (r.1, r.2.state, r.2.tangentBeingDragged, r.2.lastClickPos, r.2.lastMousePos))
        = some (true, .DRAGGING_LEFT_TANGENT, some 0, ⟨-50, -50⟩, ⟨15, 15⟩) ∧
      (runState boxGeometry (initialState rectangleContext (1, 1))
        [.toolAction (actionOf .SELECT_ALL), .penDown ⟨-50, -50⟩, .penMotion ⟨15, 15⟩, .penUp,
          .penDown ⟨5, 5⟩]).map (fun s => (s.context.cp 0).left) = some ⟨0, 0⟩ ∧
      (runState boxGeometry (initialState rectangleContext (1, 1))
        [.toolAction (actionOf .SELECT_ALL), .penDown ⟨-50, -50⟩, .penMotion ⟨15, 15⟩, .penUp,
          .penDown ⟨5, 5⟩, .penMotion ⟨5, 5⟩]).map (fun s => (s.context.cp 0).left)
        = some ⟨-10, -10⟩ ∧
      (penDown boxGeometry
        (stateAfter
          [.toolAction (actionOf .DRAW_BEZIER), .penDown ⟨0, 0⟩, .penUp, .penDown ⟨100, 0⟩,
            .penUp, .penDown ⟨200, 0⟩, .penUp])
        ⟨100, 0⟩).toOption.map
        (fun r => (r.1, r.2.state, r.2.lastClickPos, r.2.lastMousePos))
        = some (true, .DRAGGING_CPS, ⟨200, 0⟩, ⟨200, 0⟩) ∧
      (penDown boxGeometry
        (stateAfter
          [.toolAction (actionOf .DRAW_BEZIER), .penDown ⟨0, 0⟩, .penUp, .penDown ⟨100, 0⟩,
            .penUp, .penDown ⟨200, 0⟩, .penUp])
        ⟨0, 0⟩).toOption.map
        (fun r => (r.1, r.2.selectedTool, r.2.lastClickPos, r.2.lastMousePos))
        = some (true, .SELECT_ALL, ⟨200, 0⟩, ⟨200, 0⟩) := by
  refine ⟨by decide!, by decide!, by decide!, by decide!, by decide!⟩

/-! ## The rectangle under construction and the Shift modifier -/

/-- The case BUILDING_RECTANGLE of `penMotion` stops on its assertion exactly when the
selected-curve set does not hold exactly one curve. -/
theorem penMotionRectangle_assert (s : RotoGuiPrivate) (dx dy : ℚ)
    (h : s.selectedBeziers.length ≠ 1) : penMotionRectangle s dx dy = .error .assertFailed := by
  unfold penMotionRectangle
  split
  · rename_i c hc
    rw [hc] at h
    exact absurd rfl h
  · rfl

/-- C29 fails in the code: a DRAW_RECTANGLE press made with Shift held adds the new curve to
the selected curves. On an empty collection, under DRAW_RECTANGLE, a first rectangle is drawn
from (0,0) to (10,10) and stays selected; the tool is chosen again and, with Shift held, the
press at (50,50) returns with state BUILDING_RECTANGLE and the selected-curve set holding
curves 0 and 1, and the pointer move to (60,60) stops on the assertion of line 1578. Without
Shift the same press leaves curve 1 alone in the set and the move returns with the corners
(50,50), (60,50), (60,60), (50,60). -/
theorem shift_press_breaks_rectangle_assertion :
    (runState boxGeometry (initialState emptyContext (1, 1))
        [.toolAction (actionOf .DRAW_RECTANGLE), .penDown ⟨0, 0⟩, .penMotion ⟨10, 10⟩, .penUp,
          .toolAction (actionOf .DRAW_RECTANGLE), shiftKey, .penDown ⟨50, 50⟩]).map
        (fun s => (s.state, s.selectedBeziers, (s.context.bezier 1).points.length))
        = some (.BUILDING_RECTANGLE, [0, 1], 4) ∧
      runFault boxGeometry (initialState emptyContext (1, 1))
        [.toolAction (actionOf .DRAW_RECTANGLE), .penDown ⟨0, 0⟩, .penMotion ⟨10, 10⟩, .penUp,
          .toolAction (actionOf .DRAW_RECTANGLE), shiftKey, .penDown ⟨50, 50⟩, .penMotion ⟨60, 60⟩] = some .assertFailed ∧
      (runState boxGeometry (initialState emptyContext (1, 1))
        [.toolAction (actionOf .DRAW_RECTANGLE), .penDown ⟨0, 0⟩, .penMotion ⟨10, 10⟩, .penUp,
          .toolAction (actionOf .DRAW_RECTANGLE), .penDown ⟨50, 50⟩, .penMotion ⟨60, 60⟩]).map
        (fun s => (s.state, s.selectedBeziers, corners s.context 1))
        = some (.BUILDING_RECTANGLE, [1], [⟨50, 50⟩, ⟨60, 50⟩, ⟨60, 60⟩, ⟨50, 60⟩]) := by
  refine ⟨by decide!, by decide!, by decide!⟩

/-! ## The EXR data window and the half row -/

/-- Inside the range of `int` the reduction changes nothing. -/
theorem wrapInt_eq (x : Int) (h : inIntRange x) : wrapInt x = x := by
  unfold inIntRange at h
  unfold wrapInt
  omega

/-- For a region of definition whose coordinates, width, height and the values computed from
them stay in the range of `int`, the data window of `setupFile` has the width and the height
of the region, and so has the display window. -/
theorem setupFile_window_size (rod : RectI)
    (h1 : inIntRange (rod.x2 - rod.x1)) (h2 : inIntRange (rod.y2 - rod.y1))
    (h3 : inIntRange (rod.x2 - 1)) (h4 : inIntRange (rod.y2 - rod.y1 - rod.y2))
    (h5 : inIntRange (rod.y2 - rod.y1 - rod.y1)) (h6 : inIntRange (rod.y2 - rod.y1 - rod.y1 - 1))
    (h7 : inIntRange (rod.x2 - rod.x1 - 1)) (h8 : inIntRange (rod.y2 - rod.y1 - 1)) :
    (setupFile rod).1.max.x - (setupFile rod).1.min.x + 1 = rod.width ∧
      (setupFile rod).1.max.y - (setupFile rod).1.min.y + 1 = rod.height ∧
      (setupFile rod).2.max.x - (setupFile rod).2.min.x + 1 = rod.width ∧
      (setupFile rod).2.max.y - (setupFile rod).2.min.y + 1 = rod.height := by
  simp only [setupFile, RectI.width, RectI.height, RectI.left, RectI.right, RectI.top,
    RectI.bottom, wrapInt_eq _ h1, wrapInt_eq _ h2, wrapInt_eq _ h3, wrapInt_eq _ h4,
    wrapInt_eq _ h5, wrapInt_eq _ h6, wrapInt_eq _ h7, wrapInt_eq _ h8]
  refine ⟨?_, ?_, ?_, ?_⟩ <;> ring

/-- The conversion loop, while its column index stays in the range of `int`, writes no entry
at or after index `i - minX + n`. -/
theorem convertColumns_untouched (minX : Int) (row : Int → ℚ) (n : Nat) :
    ∀ (i : Int) (h h' : List (Option ℚ)), minX ≤ i → i - minX + n ≤ 2147483647 →
      i + n ≤ 2147483647 → -2147483648 ≤ i →
      convertColumns minX row n i h = some h' →
      h'.length = h.length ∧ ∀ j, (i - minX).toNat + n ≤ j → h'[j]? = h[j]? := by
  induction n with
  | zero =>
    intro i h h' _ _ _ _ hc
    simp only [convertColumns, Option.some.injEq] at hc
    subst hc
    exact ⟨rfl, fun _ _ => rfl⟩
  | succ n ih =>
    intro i h h' hi hb hb2 hb3 hc
    have e1 : wrapInt (i - minX) = i - minX := wrapInt_eq _ (by unfold inIntRange; omega)
    have e2 : wrapInt (i + 1) = i + 1 := wrapInt_eq _ (by unfold inIntRange; omega)
    simp only [convertColumns, e1, e2] at hc
    split at hc
    · obtain ⟨i1, i2⟩ := ih (i + 1) _ h' (by omega) (by push_cast at hb ⊢; omega)
        (by push_cast at hb2 ⊢; omega) (by omega) hc
      refine ⟨by simpa using i1, ?_⟩
      intro j hj
      rw [i2 j (by omega)]
      rw [List.getElem?_set_ne (by omega)]
    · exact absurd hc (by simp)

/-- The last column of the data window is never converted: for a region of definition at
least one column wide (its coordinates and its width in the range of `int`), when the loop
returns, the entry of the half row for the column `exrDataW.max.x` has not been written. -/
theorem convertRow_last_column (rod roi : RectI) (row : Int → ℚ) (h' : List (Option ℚ))
    (hx1 : inIntRange rod.x1) (hx2 : inIntRange rod.x2) (hr : inIntRange (rod.x2 - rod.x1))
    (hw : 1 ≤ rod.width) (hc : convertRow (setupFile rod).1 roi row = some h') :
    h'[(rod.width - 1).toNat]? = none ∨ h'[(rod.width - 1).toNat]? = some none := by
  have ew : rod.width = rod.x2 - rod.x1 := wrapInt_eq _ hr
  rw [ew] at hw ⊢
  have em : wrapInt (rod.x2 - 1) = rod.x2 - 1 :=
    wrapInt_eq _ (by unfold inIntRange at hx1 hx2 ⊢; omega)
  unfold inIntRange at hx1 hx2 hr
  unfold convertRow at hc
  simp only [setupFile, RectI.left, RectI.right, em] at hc
  obtain ⟨-, i2⟩ := convertColumns_untouched _ row _ _ _ h' (le_refl _) (by omega) (by omega)
    (by omega) hc
  have hj := i2 (rod.x2 - rod.x1 - 1).toNat (by omega)
  rw [hj]
  by_cases hlt : (rod.x2 - rod.x1 - 1).toNat <
      (List.replicate roi.width.toNat (none : Option ℚ)).length
  · right
    rw [List.getElem?_eq_getElem hlt]
    simp
  · left
    exact List.getElem?_eq_none (by omega)

/-- C30 fails in the code on the half row: the loop stops one column early. For the region
of definition with left 0, bottom 0, right 4, top 2 the data window runs from column 0 to
column 3 and has the width 4 and the height 2 of the region; in 16-bit mode the half row of a
channel whose float row holds 10, 11, 12, 13 is 10, 11, 12 and an entry that was never
written. For a region one column wide nothing is written. -/
theorem half_row_last_column_unwritten :
    (setupFile ⟨0, 0, 4, 2⟩).1 = ⟨⟨0, 0⟩, ⟨3, 1⟩⟩ ∧
      ((setupFile ⟨0, 0, 4, 2⟩).1.max.x - (setupFile ⟨0, 0, 4, 2⟩).1.min.x + 1,
        (setupFile ⟨0, 0, 4, 2⟩).1.max.y - (setupFile ⟨0, 0, 4, 2⟩).1.min.y + 1) = (4, 2) ∧
      convertRow (setupFile ⟨0, 0, 4, 2⟩).1 ⟨0, 0, 4, 2⟩ (fun i => 10 + i)
        = some [some 10, some 11, some 12, none] ∧
      convertRow (setupFile ⟨5, 0, 6, 2⟩).1 ⟨5, 0, 6, 2⟩ (fun i => 10 + i) = some [none] := by
  refine ⟨by decide, by decide, by decide!, by decide!⟩

end Natron
